import Mathlib

/-!
Shallow embedding of `hcn/zsyscall_windows.go` from keithmattix/hcsshim: the
generated syscall-marshalling layer for the Windows Host Compute Network (HCN)
service. Each Go wrapper function is translated to a Lean function of the same
name, parameterised by a `NativeEnv` describing the behaviour of the native
side (symbol resolution and the native calls themselves). Machine words are
modelled as `Nat` with explicit truncation (`% 2 ^ 32`) where the Go code
truncates (`int32(r0)`); the return register `r0` is `uintptr`-wide (64-bit).
Wrappers return, besides the Go error value, the full native outcome they
observed and the trace of native invocations they performed, so that theorems
can speak about pass-through of out-pointer payloads and about how many times
the native entry point was invoked.
-/

namespace HcnShim

/-- Error values a wrapper can return, mirroring the dynamic error types of the
Go code: `errno e` is `syscall.Errno(e)` (this is also what
`syscall.UTF16PtrFromString` returns on failure, namely `EINVAL` = 22), and
`procNotFound dll name` is the distinct non-`Errno` error value that
`windows.(*LazyProc).Find` returns when the symbol cannot be resolved. -/
inductive GoError where
  | errno (e : Nat)
  | procNotFound (dll : String) (name : String)
deriving DecidableEq

/-- The `syscall.EINVAL` value returned by `syscall.UTF16PtrFromString` when
the input string contains an interior NUL byte. -/
def goEINVAL : GoError := GoError.errno 22

/-- A 128-bit GUID value (`_guid` in the Go file), treated opaquely: the shim
only ever passes a pointer to it through to the native call. -/
structure Guid where
  val : Nat
deriving DecidableEq

/-- One `uintptr` argument as passed to `syscall.SyscallN`, remembering what it
points to: a plain numeric value (a handle or a compartment id), a pointer to a
GUID, a pointer to a NUL-terminated UTF-16 buffer, or an out-pointer the native
layer may write a handle / a UTF-16 buffer through. -/
inductive Arg where
  | num (n : Nat)
  | ptrGuid (g : Guid)
  | ptrStr (units : List Nat)
  | outHandle
  | outStr
deriving DecidableEq

/-- What one native invocation did: the value of the return register `r0`, and
the values the native layer wrote through the wrapper's out-pointers (if any):
a handle out-pointer, a data out-pointer (properties / enumeration items /
response), and the diagnostic `result` out-pointer. The Go wrapper never reads
or modifies these buffers; it only surfaces them to its caller. -/
structure NativeOutcome where
  r0 : Nat
  handleOut : Option Nat
  dataOut : Option (List Nat)
  resultOut : Option (List Nat)
deriving DecidableEq

/-- The native environment: `resolve` is the export-table lookup performed by
the lazy DLL/proc machinery (`none` = library or symbol missing), and `call`
gives the behaviour of the native function at a resolved address when invoked
with a given argument list. Both are fixed functions: the export table of a
loaded system DLL does not change during the process lifetime. -/
structure NativeEnv where
  resolve : String → Option Nat
  call : Nat → List Arg → NativeOutcome

/-- Modelled from the spec: `windows.LazyProc`, the lazily-bound named entry
point (its Go source lives in golang.org/x/sys, outside this repository).
`dll` and `name` identify the symbol; `cached` holds the resolved address once
first resolution has succeeded. -/
structure LazyProc where
  dll : String
  name : String
  cached : Option Nat
deriving DecidableEq

/-- Modelled from the spec: `(*LazyProc).Find` — resolve the entry point on
first use and cache it; return the distinct "proc not found" error when the
library or the symbol is absent. Returns the updated proc state. -/
def LazyProc.findP (env : NativeEnv) (p : LazyProc) : Except GoError LazyProc :=
  match p.cached with
  | some _ => Except.ok p
  | none =>
    match env.resolve p.name with
    | some a => Except.ok { p with cached := some a }
    | none => Except.error (GoError.procNotFound p.dll p.name)

/-- Modelled from the spec: `(*LazyProc).Find` followed by `Addr` — the address
the subsequent `SyscallN` invocation will use, or the resolution error. -/
def LazyProc.findAddr (env : NativeEnv) (p : LazyProc) : Except GoError Nat :=
  match p.cached with
  | some a => Except.ok a
  | none =>
    match env.resolve p.name with
    | some a => Except.ok a
    | none => Except.error (GoError.procNotFound p.dll p.name)

/-- Modelled from the spec: `(*LazyProc).Addr` called WITHOUT a prior `Find`
check (as the two compartment-id wrappers do). On resolution failure `Addr`
calls `mustFind`, which panics: there is no error return. `none` models the
panic (the wrapper aborts and returns nothing). -/
def LazyProc.addrP (env : NativeEnv) (p : LazyProc) : Option Nat :=
  match p.cached with
  | some a => some a
  | none => env.resolve p.name

def modcomputenetwork : String := "computenetwork.dll"
def modiphlpapi : String := "iphlpapi.dll"
def modvmcompute : String := "vmcompute.dll"

def procHcnCloseEndpoint : LazyProc := ⟨modcomputenetwork, "HcnCloseEndpoint", none⟩
def procHcnCloseLoadBalancer : LazyProc := ⟨modcomputenetwork, "HcnCloseLoadBalancer", none⟩
def procHcnCloseNamespace : LazyProc := ⟨modcomputenetwork, "HcnCloseNamespace", none⟩
def procHcnCloseNetwork : LazyProc := ⟨modcomputenetwork, "HcnCloseNetwork", none⟩
def procHcnCloseSdnRoute : LazyProc := ⟨modcomputenetwork, "HcnCloseSdnRoute", none⟩
def procHcnCreateEndpoint : LazyProc := ⟨modcomputenetwork, "HcnCreateEndpoint", none⟩
def procHcnCreateLoadBalancer : LazyProc := ⟨modcomputenetwork, "HcnCreateLoadBalancer", none⟩
def procHcnCreateNamespace : LazyProc := ⟨modcomputenetwork, "HcnCreateNamespace", none⟩
def procHcnCreateNetwork : LazyProc := ⟨modcomputenetwork, "HcnCreateNetwork", none⟩
def procHcnCreateSdnRoute : LazyProc := ⟨modcomputenetwork, "HcnCreateSdnRoute", none⟩
def procHcnDeleteEndpoint : LazyProc := ⟨modcomputenetwork, "HcnDeleteEndpoint", none⟩
def procHcnDeleteLoadBalancer : LazyProc := ⟨modcomputenetwork, "HcnDeleteLoadBalancer", none⟩
def procHcnDeleteNamespace : LazyProc := ⟨modcomputenetwork, "HcnDeleteNamespace", none⟩
def procHcnDeleteNetwork : LazyProc := ⟨modcomputenetwork, "HcnDeleteNetwork", none⟩
def procHcnDeleteSdnRoute : LazyProc := ⟨modcomputenetwork, "HcnDeleteSdnRoute", none⟩
def procHcnEnumerateEndpoints : LazyProc := ⟨modcomputenetwork, "HcnEnumerateEndpoints", none⟩
def procHcnEnumerateLoadBalancers : LazyProc := ⟨modcomputenetwork, "HcnEnumerateLoadBalancers", none⟩
def procHcnEnumerateNamespaces : LazyProc := ⟨modcomputenetwork, "HcnEnumerateNamespaces", none⟩
def procHcnEnumerateNetworks : LazyProc := ⟨modcomputenetwork, "HcnEnumerateNetworks", none⟩
def procHcnEnumerateSdnRoutes : LazyProc := ⟨modcomputenetwork, "HcnEnumerateSdnRoutes", none⟩
def procHcnModifyEndpoint : LazyProc := ⟨modcomputenetwork, "HcnModifyEndpoint", none⟩
def procHcnModifyLoadBalancer : LazyProc := ⟨modcomputenetwork, "HcnModifyLoadBalancer", none⟩
def procHcnModifyNamespace : LazyProc := ⟨modcomputenetwork, "HcnModifyNamespace", none⟩
def procHcnModifyNetwork : LazyProc := ⟨modcomputenetwork, "HcnModifyNetwork", none⟩
def procHcnModifySdnRoute : LazyProc := ⟨modcomputenetwork, "HcnModifySdnRoute", none⟩
def procHcnOpenEndpoint : LazyProc := ⟨modcomputenetwork, "HcnOpenEndpoint", none⟩
def procHcnOpenLoadBalancer : LazyProc := ⟨modcomputenetwork, "HcnOpenLoadBalancer", none⟩
def procHcnOpenNamespace : LazyProc := ⟨modcomputenetwork, "HcnOpenNamespace", none⟩
def procHcnOpenNetwork : LazyProc := ⟨modcomputenetwork, "HcnOpenNetwork", none⟩
def procHcnOpenSdnRoute : LazyProc := ⟨modcomputenetwork, "HcnOpenSdnRoute", none⟩
def procHcnQueryEndpointProperties : LazyProc := ⟨modcomputenetwork, "HcnQueryEndpointProperties", none⟩
def procHcnQueryLoadBalancerProperties : LazyProc := ⟨modcomputenetwork, "HcnQueryLoadBalancerProperties", none⟩
def procHcnQueryNamespaceProperties : LazyProc := ⟨modcomputenetwork, "HcnQueryNamespaceProperties", none⟩
def procHcnQueryNetworkProperties : LazyProc := ⟨modcomputenetwork, "HcnQueryNetworkProperties", none⟩
def procHcnQuerySdnRouteProperties : LazyProc := ⟨modcomputenetwork, "HcnQuerySdnRouteProperties", none⟩
def procGetCurrentThreadCompartmentId : LazyProc := ⟨modiphlpapi, "GetCurrentThreadCompartmentId", none⟩
def procSetCurrentThreadCompartmentId : LazyProc := ⟨modiphlpapi, "SetCurrentThreadCompartmentId", none⟩
def procHNSCall : LazyProc := ⟨modvmcompute, "HNSCall", none⟩

/-- The Go test `int32(r0) < 0`: truncate the `uintptr`-wide return register to
its low 32 bits, then test the sign bit. -/
def int32lt0 (r0 : Nat) : Bool := decide (2 ^ 31 ≤ r0 % 2 ^ 32)

/-- The status-decoding rule, written once as a standalone function: a
negative (as `int32`) status word is a failure; if its bits under mask
`0x1fff0000` equal `0x00070000` the low 16 bits are the repackaged system
error number, otherwise the raw (untruncated) value is the error. Every
wrapper in the Go file inlines exactly this block; the refinement theorem
for C9 proves each inlined copy extensionally equal to this function. -/
def hrDecode (r0 : Nat) : Option GoError :=
  if int32lt0 r0 then
    some (GoError.errno (if r0 &&& 0x1fff0000 = 0x00070000 then r0 &&& 0xffff else r0))
  else none

/-- What a wrapper call returns in the model: the Go error value `hr`
(`none` = `nil`), the native outcome when a native invocation was made
(surfacing the out-pointer payloads untouched), and the trace of native
invocations performed, each recorded as (address, argument list). -/
structure WrapperRet where
  hr : Option GoError
  native : Option NativeOutcome
  calls : List (Nat × List Arg)
deriving DecidableEq

/-- Go handle type `hcnNetwork` (a `uintptr`-sized token). -/
abbrev hcnNetwork := Nat
/-- Go handle type `hcnEndpoint`. -/
abbrev hcnEndpoint := Nat
/-- Go handle type `hcnNamespace`. -/
abbrev hcnNamespace := Nat
/-- Go handle type `hcnLoadBalancer`. -/
abbrev hcnLoadBalancer := Nat
/-- Go handle type `hcnRoute`. -/
abbrev hcnRoute := Nat

/-- Modelled from the spec: `syscall.UTF16PtrFromString`'s UTF-16 encoding of
one Unicode scalar value (Go stdlib `utf16.Encode`, outside this repository):
a value below `0x10000` is one code unit; a larger one becomes a surrogate
pair. Lean `Char` excludes surrogates and values above `0x10FFFF`, which is
the claim's "valid text only" restriction. -/
def utf16EncodeChar (c : Char) : List Nat :=
  if c.toNat < 0x10000 then [c.toNat]
  else [0xd800 + (c.toNat - 0x10000) / 0x400, 0xdc00 + (c.toNat - 0x10000) % 0x400]

/-- Modelled from the spec: UTF-16 encoding of a whole string (Go stdlib
`utf16.Encode`), without terminator. -/
def utf16Encode (s : List Char) : List Nat := s.flatMap utf16EncodeChar

/-- Modelled from the spec: `syscall.UTF16PtrFromString` — reject a string
containing an interior NUL (returning `syscall.EINVAL`), otherwise produce the
NUL-terminated UTF-16 code unit buffer the native call receives. -/
def utf16PtrFromString (s : List Char) : Except GoError (List Nat) :=
  if (Char.ofNat 0) ∈ s then Except.error goEINVAL
  else Except.ok (utf16Encode s ++ [0])

/-- Modelled from the spec: UTF-16 decoding (Go stdlib `utf16.Decode`): a
high surrogate followed by a low surrogate combines into one scalar value; an
unpaired surrogate decodes to U+FFFD; any other unit is its own scalar. -/
def utf16Decode : List Nat → List Char
  | [] => []
  | [u] =>
    if 0xd800 ≤ u ∧ u < 0xe000 then [Char.ofNat 0xfffd] else [Char.ofNat u]
  | u :: u2 :: rest2 =>
    if 0xd800 ≤ u ∧ u < 0xdc00 then
      if 0xdc00 ≤ u2 ∧ u2 < 0xe000 then
        Char.ofNat (0x10000 + (u - 0xd800) * 0x400 + (u2 - 0xdc00)) :: utf16Decode rest2
      else Char.ofNat 0xfffd :: utf16Decode (u2 :: rest2)
    else if 0xdc00 ≤ u ∧ u < 0xe000 then Char.ofNat 0xfffd :: utf16Decode (u2 :: rest2)
    else Char.ofNat u :: utf16Decode (u2 :: rest2)

/-- Translation of `hcnCloseEndpoint` from `zsyscall_windows.go`. -/
def hcnCloseEndpoint (env : NativeEnv) (endpoint : hcnEndpoint) : WrapperRet :=
  match procHcnCloseEndpoint.findAddr env with
  | Except.error e => ⟨some e, none, []⟩
  | Except.ok addr =>
    let out := env.call addr [Arg.num endpoint]
    ⟨if int32lt0 out.r0 then
        some (GoError.errno (if out.r0 &&& 0x1fff0000 = 0x00070000 then out.r0 &&& 0xffff else out.r0))
      else none,
      some out, [(addr, [Arg.num endpoint])]⟩

/-- Translation of `hcnCloseLoadBalancer` from `zsyscall_windows.go`. -/
def hcnCloseLoadBalancer (env : NativeEnv) (loadBalancer : hcnLoadBalancer) : WrapperRet :=
  match procHcnCloseLoadBalancer.findAddr env with
  | Except.error e => ⟨some e, none, []⟩
  | Except.ok addr =>
    let out := env.call addr [Arg.num loadBalancer]
    ⟨if int32lt0 out.r0 then
        some (GoError.errno (if out.r0 &&& 0x1fff0000 = 0x00070000 then out.r0 &&& 0xffff else out.r0))
      else none,
      some out, [(addr, [Arg.num loadBalancer])]⟩

/-- Translation of `hcnCloseNamespace` from `zsyscall_windows.go`. -/
def hcnCloseNamespace (env : NativeEnv) (namespaceH : hcnNamespace) : WrapperRet :=
  match procHcnCloseNamespace.findAddr env with
  | Except.error e => ⟨some e, none, []⟩
  | Except.ok addr =>
    let out := env.call addr [Arg.num namespaceH]
    ⟨if int32lt0 out.r0 then
        some (GoError.errno (if out.r0 &&& 0x1fff0000 = 0x00070000 then out.r0 &&& 0xffff else out.r0))
      else none,
      some out, [(addr, [Arg.num namespaceH])]⟩

/-- Translation of `hcnCloseNetwork` from `zsyscall_windows.go`. -/
def hcnCloseNetwork (env : NativeEnv) (network : hcnNetwork) : WrapperRet :=
  match procHcnCloseNetwork.findAddr env with
  | Except.error e => ⟨some e, none, []⟩
  | Except.ok addr =>
    let out := env.call addr [Arg.num network]
    ⟨if int32lt0 out.r0 then
        some (GoError.errno (if out.r0 &&& 0x1fff0000 = 0x00070000 then out.r0 &&& 0xffff else out.r0))
      else none,
      some out, [(addr, [Arg.num network])]⟩

/-- Translation of `hcnCloseRoute` from `zsyscall_windows.go`. -/
def hcnCloseRoute (env : NativeEnv) (route : hcnRoute) : WrapperRet :=
  match procHcnCloseSdnRoute.findAddr env with
  | Except.error e => ⟨some e, none, []⟩
  | Except.ok addr =>
    let out := env.call addr [Arg.num route]
    ⟨if int32lt0 out.r0 then
        some (GoError.errno (if out.r0 &&& 0x1fff0000 = 0x00070000 then out.r0 &&& 0xffff else out.r0))
      else none,
      some out, [(addr, [Arg.num route])]⟩

/-- Translation of `_hcnCreateEndpoint` from `zsyscall_windows.go`. -/
def _hcnCreateEndpoint (env : NativeEnv) (network : hcnNetwork) (id : Guid) (settings : List Nat) : WrapperRet :=
  match procHcnCreateEndpoint.findAddr env with
  | Except.error e => ⟨some e, none, []⟩
  | Except.ok addr =>
    let out := env.call addr [Arg.num network, Arg.ptrGuid id, Arg.ptrStr settings, Arg.outHandle, Arg.outStr]
    ⟨if int32lt0 out.r0 then
        some (GoError.errno (if out.r0 &&& 0x1fff0000 = 0x00070000 then out.r0 &&& 0xffff else out.r0))
      else none,
      some out, [(addr, [Arg.num network, Arg.ptrGuid id, Arg.ptrStr settings, Arg.outHandle, Arg.outStr])]⟩

/-- Translation of `hcnCreateEndpoint` from `zsyscall_windows.go`: convert the
settings string, fail locally on conversion error, else delegate. -/
def hcnCreateEndpoint (env : NativeEnv) (network : hcnNetwork) (id : Guid) (settings : List Char) : WrapperRet :=
  match utf16PtrFromString settings with
  | Except.error e => ⟨some e, none, []⟩
  | Except.ok _p0 => _hcnCreateEndpoint env network id _p0

/-- Translation of `_hcnCreateLoadBalancer` from `zsyscall_windows.go`. -/
def _hcnCreateLoadBalancer (env : NativeEnv) (id : Guid) (settings : List Nat) : WrapperRet :=
  match procHcnCreateLoadBalancer.findAddr env with
  | Except.error e => ⟨some e, none, []⟩
  | Except.ok addr =>
    let out := env.call addr [Arg.ptrGuid id, Arg.ptrStr settings, Arg.outHandle, Arg.outStr]
    ⟨if int32lt0 out.r0 then
        some (GoError.errno (if out.r0 &&& 0x1fff0000 = 0x00070000 then out.r0 &&& 0xffff else out.r0))
      else none,
      some out, [(addr, [Arg.ptrGuid id, Arg.ptrStr settings, Arg.outHandle, Arg.outStr])]⟩

/-- Translation of `hcnCreateLoadBalancer` from `zsyscall_windows.go`. -/
def hcnCreateLoadBalancer (env : NativeEnv) (id : Guid) (settings : List Char) : WrapperRet :=
  match utf16PtrFromString settings with
  | Except.error e => ⟨some e, none, []⟩
  | Except.ok _p0 => _hcnCreateLoadBalancer env id _p0

/-- Translation of `_hcnCreateNamespace` from `zsyscall_windows.go`. -/
def _hcnCreateNamespace (env : NativeEnv) (id : Guid) (settings : List Nat) : WrapperRet :=
  match procHcnCreateNamespace.findAddr env with
  | Except.error e => ⟨some e, none, []⟩
  | Except.ok addr =>
    let out := env.call addr [Arg.ptrGuid id, Arg.ptrStr settings, Arg.outHandle, Arg.outStr]
    ⟨if int32lt0 out.r0 then
        some (GoError.errno (if out.r0 &&& 0x1fff0000 = 0x00070000 then out.r0 &&& 0xffff else out.r0))
      else none,
      some out, [(addr, [Arg.ptrGuid id, Arg.ptrStr settings, Arg.outHandle, Arg.outStr])]⟩

/-- Translation of `hcnCreateNamespace` from `zsyscall_windows.go`. -/
def hcnCreateNamespace (env : NativeEnv) (id : Guid) (settings : List Char) : WrapperRet :=
  match utf16PtrFromString settings with
  | Except.error e => ⟨some e, none, []⟩
  | Except.ok _p0 => _hcnCreateNamespace env id _p0

/-- Translation of `_hcnCreateNetwork` from `zsyscall_windows.go`. -/
def _hcnCreateNetwork (env : NativeEnv) (id : Guid) (settings : List Nat) : WrapperRet :=
  match procHcnCreateNetwork.findAddr env with
  | Except.error e => ⟨some e, none, []⟩
  | Except.ok addr =>
    let out := env.call addr [Arg.ptrGuid id, Arg.ptrStr settings, Arg.outHandle, Arg.outStr]
    ⟨if int32lt0 out.r0 then
        some (GoError.errno (if out.r0 &&& 0x1fff0000 = 0x00070000 then out.r0 &&& 0xffff else out.r0))
      else none,
      some out, [(addr, [Arg.ptrGuid id, Arg.ptrStr settings, Arg.outHandle, Arg.outStr])]⟩

/-- Translation of `hcnCreateNetwork` from `zsyscall_windows.go`. -/
def hcnCreateNetwork (env : NativeEnv) (id : Guid) (settings : List Char) : WrapperRet :=
  match utf16PtrFromString settings with
  | Except.error e => ⟨some e, none, []⟩
  | Except.ok _p0 => _hcnCreateNetwork env id _p0

/-- Translation of `_hcnCreateRoute` from `zsyscall_windows.go`. -/
def _hcnCreateRoute (env : NativeEnv) (id : Guid) (settings : List Nat) : WrapperRet :=
  match procHcnCreateSdnRoute.findAddr env with
  | Except.error e => ⟨some e, none, []⟩
  | Except.ok addr =>
    let out := env.call addr [Arg.ptrGuid id, Arg.ptrStr settings, Arg.outHandle, Arg.outStr]
    ⟨if int32lt0 out.r0 then
        some (GoError.errno (if out.r0 &&& 0x1fff0000 = 0x00070000 then out.r0 &&& 0xffff else out.r0))
      else none,
      some out, [(addr, [Arg.ptrGuid id, Arg.ptrStr settings, Arg.outHandle, Arg.outStr])]⟩

/-- Translation of `hcnCreateRoute` from `zsyscall_windows.go`. -/
def hcnCreateRoute (env : NativeEnv) (id : Guid) (settings : List Char) : WrapperRet :=
  match utf16PtrFromString settings with
  | Except.error e => ⟨some e, none, []⟩
  | Except.ok _p0 => _hcnCreateRoute env id _p0

/-- Translation of `hcnDeleteEndpoint` from `zsyscall_windows.go`. -/
def hcnDeleteEndpoint (env : NativeEnv) (id : Guid) : WrapperRet :=
  match procHcnDeleteEndpoint.findAddr env with
  | Except.error e => ⟨some e, none, []⟩
  | Except.ok addr =>
    let out := env.call addr [Arg.ptrGuid id, Arg.outStr]
    ⟨if int32lt0 out.r0 then
        some (GoError.errno (if out.r0 &&& 0x1fff0000 = 0x00070000 then out.r0 &&& 0xffff else out.r0))
      else none,
      some out, [(addr, [Arg.ptrGuid id, Arg.outStr])]⟩

/-- Translation of `hcnDeleteLoadBalancer` from `zsyscall_windows.go`. -/
def hcnDeleteLoadBalancer (env : NativeEnv) (id : Guid) : WrapperRet :=
  match procHcnDeleteLoadBalancer.findAddr env with
  | Except.error e => ⟨some e, none, []⟩
  | Except.ok addr =>
    let out := env.call addr [Arg.ptrGuid id, Arg.outStr]
    ⟨if int32lt0 out.r0 then
        some (GoError.errno (if out.r0 &&& 0x1fff0000 = 0x00070000 then out.r0 &&& 0xffff else out.r0))
      else none,
      some out, [(addr, [Arg.ptrGuid id, Arg.outStr])]⟩

/-- Translation of `hcnDeleteNamespace` from `zsyscall_windows.go`. -/
def hcnDeleteNamespace (env : NativeEnv) (id : Guid) : WrapperRet :=
  match procHcnDeleteNamespace.findAddr env with
  | Except.error e => ⟨some e, none, []⟩
  | Except.ok addr =>
    let out := env.call addr [Arg.ptrGuid id, Arg.outStr]
    ⟨if int32lt0 out.r0 then
        some (GoError.errno (if out.r0 &&& 0x1fff0000 = 0x00070000 then out.r0 &&& 0xffff else out.r0))
      else none,
      some out, [(addr, [Arg.ptrGuid id, Arg.outStr])]⟩

/-- Translation of `hcnDeleteNetwork` from `zsyscall_windows.go`. -/
def hcnDeleteNetwork (env : NativeEnv) (id : Guid) : WrapperRet :=
  match procHcnDeleteNetwork.findAddr env with
  | Except.error e => ⟨some e, none, []⟩
  | Except.ok addr =>
    let out := env.call addr [Arg.ptrGuid id, Arg.outStr]
    ⟨if int32lt0 out.r0 then
        some (GoError.errno (if out.r0 &&& 0x1fff0000 = 0x00070000 then out.r0 &&& 0xffff else out.r0))
      else none,
      some out, [(addr, [Arg.ptrGuid id, Arg.outStr])]⟩

/-- Translation of `hcnDeleteRoute` from `zsyscall_windows.go`. -/
def hcnDeleteRoute (env : NativeEnv) (id : Guid) : WrapperRet :=
  match procHcnDeleteSdnRoute.findAddr env with
  | Except.error e => ⟨some e, none, []⟩
  | Except.ok addr =>
    let out := env.call addr [Arg.ptrGuid id, Arg.outStr]
    ⟨if int32lt0 out.r0 then
        some (GoError.errno (if out.r0 &&& 0x1fff0000 = 0x00070000 then out.r0 &&& 0xffff else out.r0))
      else none,
      some out, [(addr, [Arg.ptrGuid id, Arg.outStr])]⟩

/-- Translation of `_hcnEnumerateEndpoints` from `zsyscall_windows.go`. -/
def _hcnEnumerateEndpoints (env : NativeEnv) (query : List Nat) : WrapperRet :=
  match procHcnEnumerateEndpoints.findAddr env with
  | Except.error e => ⟨some e, none, []⟩
  | Except.ok addr =>
    let out := env.call addr [Arg.ptrStr query, Arg.outStr, Arg.outStr]
    ⟨if int32lt0 out.r0 then
        some (GoError.errno (if out.r0 &&& 0x1fff0000 = 0x00070000 then out.r0 &&& 0xffff else out.r0))
      else none,
      some out, [(addr, [Arg.ptrStr query, Arg.outStr, Arg.outStr])]⟩

/-- Translation of `hcnEnumerateEndpoints` from `zsyscall_windows.go`. -/
def hcnEnumerateEndpoints (env : NativeEnv) (query : List Char) : WrapperRet :=
  match utf16PtrFromString query with
  | Except.error e => ⟨some e, none, []⟩
  | Except.ok _p0 => _hcnEnumerateEndpoints env _p0

/-- Translation of `_hcnEnumerateLoadBalancers` from `zsyscall_windows.go`. -/
def _hcnEnumerateLoadBalancers (env : NativeEnv) (query : List Nat) : WrapperRet :=
  match procHcnEnumerateLoadBalancers.findAddr env with
  | Except.error e => ⟨some e, none, []⟩
  | Except.ok addr =>
    let out := env.call addr [Arg.ptrStr query, Arg.outStr, Arg.outStr]
    ⟨if int32lt0 out.r0 then
        some (GoError.errno (if out.r0 &&& 0x1fff0000 = 0x00070000 then out.r0 &&& 0xffff else out.r0))
      else none,
      some out, [(addr, [Arg.ptrStr query, Arg.outStr, Arg.outStr])]⟩

/-- Translation of `hcnEnumerateLoadBalancers` from `zsyscall_windows.go`. -/
def hcnEnumerateLoadBalancers (env : NativeEnv) (query : List Char) : WrapperRet :=
  match utf16PtrFromString query with
  | Except.error e => ⟨some e, none, []⟩
  | Except.ok _p0 => _hcnEnumerateLoadBalancers env _p0

/-- Translation of `_hcnEnumerateNamespaces` from `zsyscall_windows.go`. -/
def _hcnEnumerateNamespaces (env : NativeEnv) (query : List Nat) : WrapperRet :=
  match procHcnEnumerateNamespaces.findAddr env with
  | Except.error e => ⟨some e, none, []⟩
  | Except.ok addr =>
    let out := env.call addr [Arg.ptrStr query, Arg.outStr, Arg.outStr]
    ⟨if int32lt0 out.r0 then
        some (GoError.errno (if out.r0 &&& 0x1fff0000 = 0x00070000 then out.r0 &&& 0xffff else out.r0))
      else none,
      some out, [(addr, [Arg.ptrStr query, Arg.outStr, Arg.outStr])]⟩

/-- Translation of `hcnEnumerateNamespaces` from `zsyscall_windows.go`. -/
def hcnEnumerateNamespaces (env : NativeEnv) (query : List Char) : WrapperRet :=
  match utf16PtrFromString query with
  | Except.error e => ⟨some e, none, []⟩
  | Except.ok _p0 => _hcnEnumerateNamespaces env _p0

/-- Translation of `_hcnEnumerateNetworks` from `zsyscall_windows.go`. -/
def _hcnEnumerateNetworks (env : NativeEnv) (query : List Nat) : WrapperRet :=
  match procHcnEnumerateNetworks.findAddr env with
  | Except.error e => ⟨some e, none, []⟩
  | Except.ok addr =>
    let out := env.call addr [Arg.ptrStr query, Arg.outStr, Arg.outStr]
    ⟨if int32lt0 out.r0 then
        some (GoError.errno (if out.r0 &&& 0x1fff0000 = 0x00070000 then out.r0 &&& 0xffff else out.r0))
      else none,
      some out, [(addr, [Arg.ptrStr query, Arg.outStr, Arg.outStr])]⟩

/-- Translation of `hcnEnumerateNetworks` from `zsyscall_windows.go`. -/
def hcnEnumerateNetworks (env : NativeEnv) (query : List Char) : WrapperRet :=
  match utf16PtrFromString query with
  | Except.error e => ⟨some e, none, []⟩
  | Except.ok _p0 => _hcnEnumerateNetworks env _p0

/-- Translation of `_hcnEnumerateRoutes` from `zsyscall_windows.go`. -/
def _hcnEnumerateRoutes (env : NativeEnv) (query : List Nat) : WrapperRet :=
  match procHcnEnumerateSdnRoutes.findAddr env with
  | Except.error e => ⟨some e, none, []⟩
  | Except.ok addr =>
    let out := env.call addr [Arg.ptrStr query, Arg.outStr, Arg.outStr]
    ⟨if int32lt0 out.r0 then
        some (GoError.errno (if out.r0 &&& 0x1fff0000 = 0x00070000 then out.r0 &&& 0xffff else out.r0))
      else none,
      some out, [(addr, [Arg.ptrStr query, Arg.outStr, Arg.outStr])]⟩

/-- Translation of `hcnEnumerateRoutes` from `zsyscall_windows.go`. -/
def hcnEnumerateRoutes (env : NativeEnv) (query : List Char) : WrapperRet :=
  match utf16PtrFromString query with
  | Except.error e => ⟨some e, none, []⟩
  | Except.ok _p0 => _hcnEnumerateRoutes env _p0

/-- Translation of `_hcnModifyEndpoint` from `zsyscall_windows.go`. -/
def _hcnModifyEndpoint (env : NativeEnv) (endpoint : hcnEndpoint) (settings : List Nat) : WrapperRet :=
  match procHcnModifyEndpoint.findAddr env with
  | Except.error e => ⟨some e, none, []⟩
  | Except.ok addr =>
    let out := env.call addr [Arg.num endpoint, Arg.ptrStr settings, Arg.outStr]
    ⟨if int32lt0 out.r0 then
        some (GoError.errno (if out.r0 &&& 0x1fff0000 = 0x00070000 then out.r0 &&& 0xffff else out.r0))
      else none,
      some out, [(addr, [Arg.num endpoint, Arg.ptrStr settings, Arg.outStr])]⟩

/-- Translation of `hcnModifyEndpoint` from `zsyscall_windows.go`. -/
def hcnModifyEndpoint (env : NativeEnv) (endpoint : hcnEndpoint) (settings : List Char) : WrapperRet :=
  match utf16PtrFromString settings with
  | Except.error e => ⟨some e, none, []⟩
  | Except.ok _p0 => _hcnModifyEndpoint env endpoint _p0

/-- Translation of `_hcnModifyLoadBalancer` from `zsyscall_windows.go`. -/
def _hcnModifyLoadBalancer (env : NativeEnv) (loadBalancer : hcnLoadBalancer) (settings : List Nat) : WrapperRet :=
  match procHcnModifyLoadBalancer.findAddr env with
  | Except.error e => ⟨some e, none, []⟩
  | Except.ok addr =>
    let out := env.call addr [Arg.num loadBalancer, Arg.ptrStr settings, Arg.outStr]
    ⟨if int32lt0 out.r0 then
        some (GoError.errno (if out.r0 &&& 0x1fff0000 = 0x00070000 then out.r0 &&& 0xffff else out.r0))
      else none,
      some out, [(addr, [Arg.num loadBalancer, Arg.ptrStr settings, Arg.outStr])]⟩

/-- Translation of `hcnModifyLoadBalancer` from `zsyscall_windows.go`. -/
def hcnModifyLoadBalancer (env : NativeEnv) (loadBalancer : hcnLoadBalancer) (settings : List Char) : WrapperRet :=
  match utf16PtrFromString settings with
  | Except.error e => ⟨some e, none, []⟩
  | Except.ok _p0 => _hcnModifyLoadBalancer env loadBalancer _p0

/-- Translation of `_hcnModifyNamespace` from `zsyscall_windows.go`. -/
def _hcnModifyNamespace (env : NativeEnv) (namespaceH : hcnNamespace) (settings : List Nat) : WrapperRet :=
  match procHcnModifyNamespace.findAddr env with
  | Except.error e => ⟨some e, none, []⟩
  | Except.ok addr =>
    let out := env.call addr [Arg.num namespaceH, Arg.ptrStr settings, Arg.outStr]
    ⟨if int32lt0 out.r0 then
        some (GoError.errno (if out.r0 &&& 0x1fff0000 = 0x00070000 then out.r0 &&& 0xffff else out.r0))
      else none,
      some out, [(addr, [Arg.num namespaceH, Arg.ptrStr settings, Arg.outStr])]⟩

/-- Translation of `hcnModifyNamespace` from `zsyscall_windows.go`. -/
def hcnModifyNamespace (env : NativeEnv) (namespaceH : hcnNamespace) (settings : List Char) : WrapperRet :=
  match utf16PtrFromString settings with
  | Except.error e => ⟨some e, none, []⟩
  | Except.ok _p0 => _hcnModifyNamespace env namespaceH _p0

/-- Translation of `_hcnModifyNetwork` from `zsyscall_windows.go`. -/
def _hcnModifyNetwork (env : NativeEnv) (network : hcnNetwork) (settings : List Nat) : WrapperRet :=
  match procHcnModifyNetwork.findAddr env with
  | Except.error e => ⟨some e, none, []⟩
  | Except.ok addr =>
    let out := env.call addr [Arg.num network, Arg.ptrStr settings, Arg.outStr]
    ⟨if int32lt0 out.r0 then
        some (GoError.errno (if out.r0 &&& 0x1fff0000 = 0x00070000 then out.r0 &&& 0xffff else out.r0))
      else none,
      some out, [(addr, [Arg.num network, Arg.ptrStr settings, Arg.outStr])]⟩

/-- Translation of `hcnModifyNetwork` from `zsyscall_windows.go`. -/
def hcnModifyNetwork (env : NativeEnv) (network : hcnNetwork) (settings : List Char) : WrapperRet :=
  match utf16PtrFromString settings with
  | Except.error e => ⟨some e, none, []⟩
  | Except.ok _p0 => _hcnModifyNetwork env network _p0

/-- Translation of `_hcnModifyRoute` from `zsyscall_windows.go`. -/
def _hcnModifyRoute (env : NativeEnv) (route : hcnRoute) (settings : List Nat) : WrapperRet :=
  match procHcnModifySdnRoute.findAddr env with
  | Except.error e => ⟨some e, none, []⟩
  | Except.ok addr =>
    let out := env.call addr [Arg.num route, Arg.ptrStr settings, Arg.outStr]
    ⟨if int32lt0 out.r0 then
        some (GoError.errno (if out.r0 &&& 0x1fff0000 = 0x00070000 then out.r0 &&& 0xffff else out.r0))
      else none,
      some out, [(addr, [Arg.num route, Arg.ptrStr settings, Arg.outStr])]⟩

/-- Translation of `hcnModifyRoute` from `zsyscall_windows.go`. -/
def hcnModifyRoute (env : NativeEnv) (route : hcnRoute) (settings : List Char) : WrapperRet :=
  match utf16PtrFromString settings with
  | Except.error e => ⟨some e, none, []⟩
  | Except.ok _p0 => _hcnModifyRoute env route _p0

/-- Translation of `hcnOpenEndpoint` from `zsyscall_windows.go`. -/
def hcnOpenEndpoint (env : NativeEnv) (id : Guid) : WrapperRet :=
  match procHcnOpenEndpoint.findAddr env with
  | Except.error e => ⟨some e, none, []⟩
  | Except.ok addr =>
    let out := env.call addr [Arg.ptrGuid id, Arg.outHandle, Arg.outStr]
    ⟨if int32lt0 out.r0 then
        some (GoError.errno (if out.r0 &&& 0x1fff0000 = 0x00070000 then out.r0 &&& 0xffff else out.r0))
      else none,
      some out, [(addr, [Arg.ptrGuid id, Arg.outHandle, Arg.outStr])]⟩

/-- Translation of `hcnOpenLoadBalancer` from `zsyscall_windows.go`. -/
def hcnOpenLoadBalancer (env : NativeEnv) (id : Guid) : WrapperRet :=
  match procHcnOpenLoadBalancer.findAddr env with
  | Except.error e => ⟨some e, none, []⟩
  | Except.ok addr =>
    let out := env.call addr [Arg.ptrGuid id, Arg.outHandle, Arg.outStr]
    ⟨if int32lt0 out.r0 then
        some (GoError.errno (if out.r0 &&& 0x1fff0000 = 0x00070000 then out.r0 &&& 0xffff else out.r0))
      else none,
      some out, [(addr, [Arg.ptrGuid id, Arg.outHandle, Arg.outStr])]⟩

/-- Translation of `hcnOpenNamespace` from `zsyscall_windows.go`. -/
def hcnOpenNamespace (env : NativeEnv) (id : Guid) : WrapperRet :=
  match procHcnOpenNamespace.findAddr env with
  | Except.error e => ⟨some e, none, []⟩
  | Except.ok addr =>
    let out := env.call addr [Arg.ptrGuid id, Arg.outHandle, Arg.outStr]
    ⟨if int32lt0 out.r0 then
        some (GoError.errno (if out.r0 &&& 0x1fff0000 = 0x00070000 then out.r0 &&& 0xffff else out.r0))
      else none,
      some out, [(addr, [Arg.ptrGuid id, Arg.outHandle, Arg.outStr])]⟩

/-- Translation of `hcnOpenNetwork` from `zsyscall_windows.go`. -/
def hcnOpenNetwork (env : NativeEnv) (id : Guid) : WrapperRet :=
  match procHcnOpenNetwork.findAddr env with
  | Except.error e => ⟨some e, none, []⟩
  | Except.ok addr =>
    let out := env.call addr [Arg.ptrGuid id, Arg.outHandle, Arg.outStr]
    ⟨if int32lt0 out.r0 then
        some (GoError.errno (if out.r0 &&& 0x1fff0000 = 0x00070000 then out.r0 &&& 0xffff else out.r0))
      else none,
      some out, [(addr, [Arg.ptrGuid id, Arg.outHandle, Arg.outStr])]⟩

/-- Translation of `hcnOpenRoute` from `zsyscall_windows.go`. -/
def hcnOpenRoute (env : NativeEnv) (id : Guid) : WrapperRet :=
  match procHcnOpenSdnRoute.findAddr env with
  | Except.error e => ⟨some e, none, []⟩
  | Except.ok addr =>
    let out := env.call addr [Arg.ptrGuid id, Arg.outHandle, Arg.outStr]
    ⟨if int32lt0 out.r0 then
        some (GoError.errno (if out.r0 &&& 0x1fff0000 = 0x00070000 then out.r0 &&& 0xffff else out.r0))
      else none,
      some out, [(addr, [Arg.ptrGuid id, Arg.outHandle, Arg.outStr])]⟩

/-- Translation of `_hcnQueryEndpointProperties` from `zsyscall_windows.go`. -/
def _hcnQueryEndpointProperties (env : NativeEnv) (endpoint : hcnEndpoint) (query : List Nat) : WrapperRet :=
  match procHcnQueryEndpointProperties.findAddr env with
  | Except.error e => ⟨some e, none, []⟩
  | Except.ok addr =>
    let out := env.call addr [Arg.num endpoint, Arg.ptrStr query, Arg.outStr, Arg.outStr]
    ⟨if int32lt0 out.r0 then
        some (GoError.errno (if out.r0 &&& 0x1fff0000 = 0x00070000 then out.r0 &&& 0xffff else out.r0))
      else none,
      some out, [(addr, [Arg.num endpoint, Arg.ptrStr query, Arg.outStr, Arg.outStr])]⟩

/-- Translation of `hcnQueryEndpointProperties` from `zsyscall_windows.go`. -/
def hcnQueryEndpointProperties (env : NativeEnv) (endpoint : hcnEndpoint) (query : List Char) : WrapperRet :=
  match utf16PtrFromString query with
  | Except.error e => ⟨some e, none, []⟩
  | Except.ok _p0 => _hcnQueryEndpointProperties env endpoint _p0

/-- Translation of `_hcnQueryLoadBalancerProperties` from `zsyscall_windows.go`. -/
def _hcnQueryLoadBalancerProperties (env : NativeEnv) (loadBalancer : hcnLoadBalancer) (query : List Nat) : WrapperRet :=
  match procHcnQueryLoadBalancerProperties.findAddr env with
  | Except.error e => ⟨some e, none, []⟩
  | Except.ok addr =>
    let out := env.call addr [Arg.num loadBalancer, Arg.ptrStr query, Arg.outStr, Arg.outStr]
    ⟨if int32lt0 out.r0 then
        some (GoError.errno (if out.r0 &&& 0x1fff0000 = 0x00070000 then out.r0 &&& 0xffff else out.r0))
      else none,
      some out, [(addr, [Arg.num loadBalancer, Arg.ptrStr query, Arg.outStr, Arg.outStr])]⟩

/-- Translation of `hcnQueryLoadBalancerProperties` from `zsyscall_windows.go`. -/
def hcnQueryLoadBalancerProperties (env : NativeEnv) (loadBalancer : hcnLoadBalancer) (query : List Char) : WrapperRet :=
  match utf16PtrFromString query with
  | Except.error e => ⟨some e, none, []⟩
  | Except.ok _p0 => _hcnQueryLoadBalancerProperties env loadBalancer _p0

/-- Translation of `_hcnQueryNamespaceProperties` from `zsyscall_windows.go`. -/
def _hcnQueryNamespaceProperties (env : NativeEnv) (namespaceH : hcnNamespace) (query : List Nat) : WrapperRet :=
  match procHcnQueryNamespaceProperties.findAddr env with
  | Except.error e => ⟨some e, none, []⟩
  | Except.ok addr =>
    let out := env.call addr [Arg.num namespaceH, Arg.ptrStr query, Arg.outStr, Arg.outStr]
    ⟨if int32lt0 out.r0 then
        some (GoError.errno (if out.r0 &&& 0x1fff0000 = 0x00070000 then out.r0 &&& 0xffff else out.r0))
      else none,
      some out, [(addr, [Arg.num namespaceH, Arg.ptrStr query, Arg.outStr, Arg.outStr])]⟩

/-- Translation of `hcnQueryNamespaceProperties` from `zsyscall_windows.go`. -/
def hcnQueryNamespaceProperties (env : NativeEnv) (namespaceH : hcnNamespace) (query : List Char) : WrapperRet :=
  match utf16PtrFromString query with
  | Except.error e => ⟨some e, none, []⟩
  | Except.ok _p0 => _hcnQueryNamespaceProperties env namespaceH _p0

/-- Translation of `_hcnQueryNetworkProperties` from `zsyscall_windows.go`. -/
def _hcnQueryNetworkProperties (env : NativeEnv) (network : hcnNetwork) (query : List Nat) : WrapperRet :=
  match procHcnQueryNetworkProperties.findAddr env with
  | Except.error e => ⟨some e, none, []⟩
  | Except.ok addr =>
    let out := env.call addr [Arg.num network, Arg.ptrStr query, Arg.outStr, Arg.outStr]
    ⟨if int32lt0 out.r0 then
        some (GoError.errno (if out.r0 &&& 0x1fff0000 = 0x00070000 then out.r0 &&& 0xffff else out.r0))
      else none,
      some out, [(addr, [Arg.num network, Arg.ptrStr query, Arg.outStr, Arg.outStr])]⟩

/-- Translation of `hcnQueryNetworkProperties` from `zsyscall_windows.go`. -/
def hcnQueryNetworkProperties (env : NativeEnv) (network : hcnNetwork) (query : List Char) : WrapperRet :=
  match utf16PtrFromString query with
  | Except.error e => ⟨some e, none, []⟩
  | Except.ok _p0 => _hcnQueryNetworkProperties env network _p0

/-- Translation of `_hcnQueryRouteProperties` from `zsyscall_windows.go`. -/
def _hcnQueryRouteProperties (env : NativeEnv) (route : hcnRoute) (query : List Nat) : WrapperRet :=
  match procHcnQuerySdnRouteProperties.findAddr env with
  | Except.error e => ⟨some e, none, []⟩
  | Except.ok addr =>
    let out := env.call addr [Arg.num route, Arg.ptrStr query, Arg.outStr, Arg.outStr]
    ⟨if int32lt0 out.r0 then
        some (GoError.errno (if out.r0 &&& 0x1fff0000 = 0x00070000 then out.r0 &&& 0xffff else out.r0))
      else none,
      some out, [(addr, [Arg.num route, Arg.ptrStr query, Arg.outStr, Arg.outStr])]⟩

/-- Translation of `hcnQueryRouteProperties` from `zsyscall_windows.go`. -/
def hcnQueryRouteProperties (env : NativeEnv) (route : hcnRoute) (query : List Char) : WrapperRet :=
  match utf16PtrFromString query with
  | Except.error e => ⟨some e, none, []⟩
  | Except.ok _p0 => _hcnQueryRouteProperties env route _p0

/-- Translation of `GetCurrentThreadCompartmentId` from `zsyscall_windows.go`.
This wrapper calls `procGetCurrentThreadCompartmentId.Addr()` WITHOUT a prior
`Find()` check; `Addr` panics when the symbol cannot be resolved, so `none`
models the panic. On the normal path the Go code truncates the return register
with `uint32(r0)`. The trace of native invocations is returned alongside. -/
def GetCurrentThreadCompartmentId (env : NativeEnv) : Option (Nat × List (Nat × List Arg)) :=
  match procGetCurrentThreadCompartmentId.addrP env with
  | none => none
  | some addr =>
    let out := env.call addr []
    some (out.r0 % 2 ^ 32, [(addr, [])])

/-- Translation of `SetCurrentThreadCompartmentId` from `zsyscall_windows.go`.
This wrapper also uses `Addr()` with no `Find()` check, so resolution failure
panics (`none`) instead of returning an error. `compartmentId` is a `uint32`
in Go (always below `2 ^ 32`). -/
def SetCurrentThreadCompartmentId (env : NativeEnv) (compartmentId : Nat) : Option WrapperRet :=
  match procSetCurrentThreadCompartmentId.addrP env with
  | none => none
  | some addr =>
    let out := env.call addr [Arg.num compartmentId]
    some ⟨if int32lt0 out.r0 then
        some (GoError.errno (if out.r0 &&& 0x1fff0000 = 0x00070000 then out.r0 &&& 0xffff else out.r0))
      else none,
      some out, [(addr, [Arg.num compartmentId])]⟩

/-- Translation of `__hnsCall` from `zsyscall_windows.go`. -/
def __hnsCall (env : NativeEnv) (method : List Nat) (path : List Nat) (object : List Nat) : WrapperRet :=
  match procHNSCall.findAddr env with
  | Except.error e => ⟨some e, none, []⟩
  | Except.ok addr =>
    let out := env.call addr [Arg.ptrStr method, Arg.ptrStr path, Arg.ptrStr object, Arg.outStr]
    ⟨if int32lt0 out.r0 then
        some (GoError.errno (if out.r0 &&& 0x1fff0000 = 0x00070000 then out.r0 &&& 0xffff else out.r0))
      else none,
      some out, [(addr, [Arg.ptrStr method, Arg.ptrStr path, Arg.ptrStr object, Arg.outStr])]⟩

/-- Translation of `_hnsCall` from `zsyscall_windows.go`: convert the three
string arguments in order, failing locally on the first conversion error. -/
def _hnsCall (env : NativeEnv) (method : List Char) (path : List Char) (object : List Char) : WrapperRet :=
  match utf16PtrFromString method with
  | Except.error e => ⟨some e, none, []⟩
  | Except.ok _p0 =>
    match utf16PtrFromString path with
    | Except.error e => ⟨some e, none, []⟩
    | Except.ok _p1 =>
      match utf16PtrFromString object with
      | Except.error e => ⟨some e, none, []⟩
      | Except.ok _p2 => __hnsCall env _p0 _p1 _p2

/-- Spec-side description (from the claim's words) of the error reported for a
negative status word: the low 16 bits when the repackaged-errno pattern
matches, the raw status value unchanged otherwise. -/
def specNegativeError (r0 : Nat) : GoError :=
  GoError.errno (if r0 &&& 0x1fff0000 = 0x00070000 then r0 &&& 0xffff else r0)

/-- Demonstration environment: every symbol resolves to address 1000 and every
native call fails with status 0x80070005, which matches the repackaged-errno
pattern (its low 16 bits encode system error 5). -/
def envErrno : NativeEnv :=
  ⟨fun _ => some 1000, fun _ _ => ⟨0x80070005, none, none, none⟩⟩

/-- Demonstration environment: every native call fails with the generic status
0x80004001, which does not match the repackaged-errno pattern. -/
def envRaw : NativeEnv :=
  ⟨fun _ => some 1000, fun _ _ => ⟨0x80004001, none, none, none⟩⟩

/-- Demonstration environment: every native call succeeds with status 0 and
populates the out-pointers (handle 7, data buffer, diagnostic buffer). -/
def envOk : NativeEnv :=
  ⟨fun _ => some 1000, fun _ _ => ⟨0, some 7, some [65, 0], some [66, 0]⟩⟩

/-- Demonstration environment: no symbol resolves, as on a host lacking the
HCN feature. -/
def envMissing : NativeEnv :=
  ⟨fun _ => none, fun _ _ => ⟨0, none, none, none⟩⟩

/-- Demonstration environment: native calls return a register value with bit
32 set whose low 32 bits read as a negative int32 and which does not match
the repackaged-errno pattern. -/
def envHigh : NativeEnv :=
  ⟨fun _ => some 1000, fun _ _ => ⟨2 ^ 32 + 2 ^ 31 + 1, none, none, none⟩⟩

/-- Behaviour of `hcnCloseEndpoint` when symbol resolution succeeds: exactly one native
invocation with the recorded arguments, error decoded by `hrDecode`, and the
full native outcome surfaced. -/
theorem hcnCloseEndpoint_ok (env : NativeEnv) (endpoint : hcnEndpoint) (addr : Nat)
    (h : procHcnCloseEndpoint.findAddr env = Except.ok addr) :
    hcnCloseEndpoint env endpoint =
      ⟨hrDecode (env.call addr [Arg.num endpoint]).r0,
       some (env.call addr [Arg.num endpoint]),
       [(addr, [Arg.num endpoint])]⟩ := by
  simp only [hcnCloseEndpoint, h, hrDecode]

/-- Behaviour of `hcnCloseEndpoint` when symbol resolution fails: the resolution error is
returned and no native invocation happens. -/
theorem hcnCloseEndpoint_errFind (env : NativeEnv) (endpoint : hcnEndpoint) (e : GoError)
    (h : procHcnCloseEndpoint.findAddr env = Except.error e) :
    hcnCloseEndpoint env endpoint = ⟨some e, none, []⟩ := by
  simp only [hcnCloseEndpoint, h]

/-- Behaviour of `hcnCloseLoadBalancer` when symbol resolution succeeds: exactly one native
invocation with the recorded arguments, error decoded by `hrDecode`, and the
full native outcome surfaced. -/
theorem hcnCloseLoadBalancer_ok (env : NativeEnv) (loadBalancer : hcnLoadBalancer) (addr : Nat)
    (h : procHcnCloseLoadBalancer.findAddr env = Except.ok addr) :
    hcnCloseLoadBalancer env loadBalancer =
      ⟨hrDecode (env.call addr [Arg.num loadBalancer]).r0,
       some (env.call addr [Arg.num loadBalancer]),
       [(addr, [Arg.num loadBalancer])]⟩ := by
  simp only [hcnCloseLoadBalancer, h, hrDecode]

/-- Behaviour of `hcnCloseLoadBalancer` when symbol resolution fails: the resolution error is
returned and no native invocation happens. -/
theorem hcnCloseLoadBalancer_errFind (env : NativeEnv) (loadBalancer : hcnLoadBalancer) (e : GoError)
    (h : procHcnCloseLoadBalancer.findAddr env = Except.error e) :
    hcnCloseLoadBalancer env loadBalancer = ⟨some e, none, []⟩ := by
  simp only [hcnCloseLoadBalancer, h]

/-- Behaviour of `hcnCloseNamespace` when symbol resolution succeeds: exactly one native
invocation with the recorded arguments, error decoded by `hrDecode`, and the
full native outcome surfaced. -/
theorem hcnCloseNamespace_ok (env : NativeEnv) (namespaceH : hcnNamespace) (addr : Nat)
    (h : procHcnCloseNamespace.findAddr env = Except.ok addr) :
    hcnCloseNamespace env namespaceH =
      ⟨hrDecode (env.call addr [Arg.num namespaceH]).r0,
       some (env.call addr [Arg.num namespaceH]),
       [(addr, [Arg.num namespaceH])]⟩ := by
  simp only [hcnCloseNamespace, h, hrDecode]

/-- Behaviour of `hcnCloseNamespace` when symbol resolution fails: the resolution error is
returned and no native invocation happens. -/
theorem hcnCloseNamespace_errFind (env : NativeEnv) (namespaceH : hcnNamespace) (e : GoError)
    (h : procHcnCloseNamespace.findAddr env = Except.error e) :
    hcnCloseNamespace env namespaceH = ⟨some e, none, []⟩ := by
  simp only [hcnCloseNamespace, h]

/-- Behaviour of `hcnCloseNetwork` when symbol resolution succeeds: exactly one native
invocation with the recorded arguments, error decoded by `hrDecode`, and the
full native outcome surfaced. -/
theorem hcnCloseNetwork_ok (env : NativeEnv) (network : hcnNetwork) (addr : Nat)
    (h : procHcnCloseNetwork.findAddr env = Except.ok addr) :
    hcnCloseNetwork env network =
      ⟨hrDecode (env.call addr [Arg.num network]).r0,
       some (env.call addr [Arg.num network]),
       [(addr, [Arg.num network])]⟩ := by
  simp only [hcnCloseNetwork, h, hrDecode]

/-- Behaviour of `hcnCloseNetwork` when symbol resolution fails: the resolution error is
returned and no native invocation happens. -/
theorem hcnCloseNetwork_errFind (env : NativeEnv) (network : hcnNetwork) (e : GoError)
    (h : procHcnCloseNetwork.findAddr env = Except.error e) :
    hcnCloseNetwork env network = ⟨some e, none, []⟩ := by
  simp only [hcnCloseNetwork, h]

/-- Behaviour of `hcnCloseRoute` when symbol resolution succeeds: exactly one native
invocation with the recorded arguments, error decoded by `hrDecode`, and the
full native outcome surfaced. -/
theorem hcnCloseRoute_ok (env : NativeEnv) (route : hcnRoute) (addr : Nat)
    (h : procHcnCloseSdnRoute.findAddr env = Except.ok addr) :
    hcnCloseRoute env route =
      ⟨hrDecode (env.call addr [Arg.num route]).r0,
       some (env.call addr [Arg.num route]),
       [(addr, [Arg.num route])]⟩ := by
  simp only [hcnCloseRoute, h, hrDecode]

/-- Behaviour of `hcnCloseRoute` when symbol resolution fails: the resolution error is
returned and no native invocation happens. -/
theorem hcnCloseRoute_errFind (env : NativeEnv) (route : hcnRoute) (e : GoError)
    (h : procHcnCloseSdnRoute.findAddr env = Except.error e) :
    hcnCloseRoute env route = ⟨some e, none, []⟩ := by
  simp only [hcnCloseRoute, h]

/-- Behaviour of `_hcnCreateEndpoint` when symbol resolution succeeds: exactly one native
invocation with the recorded arguments, error decoded by `hrDecode`, and the
full native outcome surfaced. -/
theorem _hcnCreateEndpoint_ok (env : NativeEnv) (network : hcnNetwork) (id : Guid) (settings : List Nat) (addr : Nat)
    (h : procHcnCreateEndpoint.findAddr env = Except.ok addr) :
    _hcnCreateEndpoint env network id settings =
      ⟨hrDecode (env.call addr [Arg.num network, Arg.ptrGuid id, Arg.ptrStr settings, Arg.outHandle, Arg.outStr]).r0,
       some (env.call addr [Arg.num network, Arg.ptrGuid id, Arg.ptrStr settings, Arg.outHandle, Arg.outStr]),
       [(addr, [Arg.num network, Arg.ptrGuid id, Arg.ptrStr settings, Arg.outHandle, Arg.outStr])]⟩ := by
  simp only [_hcnCreateEndpoint, h, hrDecode]

/-- Behaviour of `_hcnCreateEndpoint` when symbol resolution fails: the resolution error is
returned and no native invocation happens. -/
theorem _hcnCreateEndpoint_errFind (env : NativeEnv) (network : hcnNetwork) (id : Guid) (settings : List Nat) (e : GoError)
    (h : procHcnCreateEndpoint.findAddr env = Except.error e) :
    _hcnCreateEndpoint env network id settings = ⟨some e, none, []⟩ := by
  simp only [_hcnCreateEndpoint, h]

/-- Behaviour of `_hcnCreateLoadBalancer` when symbol resolution succeeds: exactly one native
invocation with the recorded arguments, error decoded by `hrDecode`, and the
full native outcome surfaced. -/
theorem _hcnCreateLoadBalancer_ok (env : NativeEnv) (id : Guid) (settings : List Nat) (addr : Nat)
    (h : procHcnCreateLoadBalancer.findAddr env = Except.ok addr) :
    _hcnCreateLoadBalancer env id settings =
      ⟨hrDecode (env.call addr [Arg.ptrGuid id, Arg.ptrStr settings, Arg.outHandle, Arg.outStr]).r0,
       some (env.call addr [Arg.ptrGuid id, Arg.ptrStr settings, Arg.outHandle, Arg.outStr]),
       [(addr, [Arg.ptrGuid id, Arg.ptrStr settings, Arg.outHandle, Arg.outStr])]⟩ := by
  simp only [_hcnCreateLoadBalancer, h, hrDecode]

/-- Behaviour of `_hcnCreateLoadBalancer` when symbol resolution fails: the resolution error is
returned and no native invocation happens. -/
theorem _hcnCreateLoadBalancer_errFind (env : NativeEnv) (id : Guid) (settings : List Nat) (e : GoError)
    (h : procHcnCreateLoadBalancer.findAddr env = Except.error e) :
    _hcnCreateLoadBalancer env id settings = ⟨some e, none, []⟩ := by
  simp only [_hcnCreateLoadBalancer, h]

/-- Behaviour of `_hcnCreateNamespace` when symbol resolution succeeds: exactly one native
invocation with the recorded arguments, error decoded by `hrDecode`, and the
full native outcome surfaced. -/
theorem _hcnCreateNamespace_ok (env : NativeEnv) (id : Guid) (settings : List Nat) (addr : Nat)
    (h : procHcnCreateNamespace.findAddr env = Except.ok addr) :
    _hcnCreateNamespace env id settings =
      ⟨hrDecode (env.call addr [Arg.ptrGuid id, Arg.ptrStr settings, Arg.outHandle, Arg.outStr]).r0,
       some (env.call addr [Arg.ptrGuid id, Arg.ptrStr settings, Arg.outHandle, Arg.outStr]),
       [(addr, [Arg.ptrGuid id, Arg.ptrStr settings, Arg.outHandle, Arg.outStr])]⟩ := by
  simp only [_hcnCreateNamespace, h, hrDecode]

/-- Behaviour of `_hcnCreateNamespace` when symbol resolution fails: the resolution error is
returned and no native invocation happens. -/
theorem _hcnCreateNamespace_errFind (env : NativeEnv) (id : Guid) (settings : List Nat) (e : GoError)
    (h : procHcnCreateNamespace.findAddr env = Except.error e) :
    _hcnCreateNamespace env id settings = ⟨some e, none, []⟩ := by
  simp only [_hcnCreateNamespace, h]

/-- Behaviour of `_hcnCreateNetwork` when symbol resolution succeeds: exactly one native
invocation with the recorded arguments, error decoded by `hrDecode`, and the
full native outcome surfaced. -/
theorem _hcnCreateNetwork_ok (env : NativeEnv) (id : Guid) (settings : List Nat) (addr : Nat)
    (h : procHcnCreateNetwork.findAddr env = Except.ok addr) :
    _hcnCreateNetwork env id settings =
      ⟨hrDecode (env.call addr [Arg.ptrGuid id, Arg.ptrStr settings, Arg.outHandle, Arg.outStr]).r0,
       some (env.call addr [Arg.ptrGuid id, Arg.ptrStr settings, Arg.outHandle, Arg.outStr]),
       [(addr, [Arg.ptrGuid id, Arg.ptrStr settings, Arg.outHandle, Arg.outStr])]⟩ := by
  simp only [_hcnCreateNetwork, h, hrDecode]

/-- Behaviour of `_hcnCreateNetwork` when symbol resolution fails: the resolution error is
returned and no native invocation happens. -/
theorem _hcnCreateNetwork_errFind (env : NativeEnv) (id : Guid) (settings : List Nat) (e : GoError)
    (h : procHcnCreateNetwork.findAddr env = Except.error e) :
    _hcnCreateNetwork env id settings = ⟨some e, none, []⟩ := by
  simp only [_hcnCreateNetwork, h]

/-- Behaviour of `_hcnCreateRoute` when symbol resolution succeeds: exactly one native
invocation with the recorded arguments, error decoded by `hrDecode`, and the
full native outcome surfaced. -/
theorem _hcnCreateRoute_ok (env : NativeEnv) (id : Guid) (settings : List Nat) (addr : Nat)
    (h : procHcnCreateSdnRoute.findAddr env = Except.ok addr) :
    _hcnCreateRoute env id settings =
      ⟨hrDecode (env.call addr [Arg.ptrGuid id, Arg.ptrStr settings, Arg.outHandle, Arg.outStr]).r0,
       some (env.call addr [Arg.ptrGuid id, Arg.ptrStr settings, Arg.outHandle, Arg.outStr]),
       [(addr, [Arg.ptrGuid id, Arg.ptrStr settings, Arg.outHandle, Arg.outStr])]⟩ := by
  simp only [_hcnCreateRoute, h, hrDecode]

/-- Behaviour of `_hcnCreateRoute` when symbol resolution fails: the resolution error is
returned and no native invocation happens. -/
theorem _hcnCreateRoute_errFind (env : NativeEnv) (id : Guid) (settings : List Nat) (e : GoError)
    (h : procHcnCreateSdnRoute.findAddr env = Except.error e) :
    _hcnCreateRoute env id settings = ⟨some e, none, []⟩ := by
  simp only [_hcnCreateRoute, h]

/-- Behaviour of `hcnDeleteEndpoint` when symbol resolution succeeds: exactly one native
invocation with the recorded arguments, error decoded by `hrDecode`, and the
full native outcome surfaced. -/
theorem hcnDeleteEndpoint_ok (env : NativeEnv) (id : Guid) (addr : Nat)
    (h : procHcnDeleteEndpoint.findAddr env = Except.ok addr) :
    hcnDeleteEndpoint env id =
      ⟨hrDecode (env.call addr [Arg.ptrGuid id, Arg.outStr]).r0,
       some (env.call addr [Arg.ptrGuid id, Arg.outStr]),
       [(addr, [Arg.ptrGuid id, Arg.outStr])]⟩ := by
  simp only [hcnDeleteEndpoint, h, hrDecode]

/-- Behaviour of `hcnDeleteEndpoint` when symbol resolution fails: the resolution error is
returned and no native invocation happens. -/
theorem hcnDeleteEndpoint_errFind (env : NativeEnv) (id : Guid) (e : GoError)
    (h : procHcnDeleteEndpoint.findAddr env = Except.error e) :
    hcnDeleteEndpoint env id = ⟨some e, none, []⟩ := by
  simp only [hcnDeleteEndpoint, h]

/-- Behaviour of `hcnDeleteLoadBalancer` when symbol resolution succeeds: exactly one native
invocation with the recorded arguments, error decoded by `hrDecode`, and the
full native outcome surfaced. -/
theorem hcnDeleteLoadBalancer_ok (env : NativeEnv) (id : Guid) (addr : Nat)
    (h : procHcnDeleteLoadBalancer.findAddr env = Except.ok addr) :
    hcnDeleteLoadBalancer env id =
      ⟨hrDecode (env.call addr [Arg.ptrGuid id, Arg.outStr]).r0,
       some (env.call addr [Arg.ptrGuid id, Arg.outStr]),
       [(addr, [Arg.ptrGuid id, Arg.outStr])]⟩ := by
  simp only [hcnDeleteLoadBalancer, h, hrDecode]

/-- Behaviour of `hcnDeleteLoadBalancer` when symbol resolution fails: the resolution error is
returned and no native invocation happens. -/
theorem hcnDeleteLoadBalancer_errFind (env : NativeEnv) (id : Guid) (e : GoError)
    (h : procHcnDeleteLoadBalancer.findAddr env = Except.error e) :
    hcnDeleteLoadBalancer env id = ⟨some e, none, []⟩ := by
  simp only [hcnDeleteLoadBalancer, h]

/-- Behaviour of `hcnDeleteNamespace` when symbol resolution succeeds: exactly one native
invocation with the recorded arguments, error decoded by `hrDecode`, and the
full native outcome surfaced. -/
theorem hcnDeleteNamespace_ok (env : NativeEnv) (id : Guid) (addr : Nat)
    (h : procHcnDeleteNamespace.findAddr env = Except.ok addr) :
    hcnDeleteNamespace env id =
      ⟨hrDecode (env.call addr [Arg.ptrGuid id, Arg.outStr]).r0,
       some (env.call addr [Arg.ptrGuid id, Arg.outStr]),
       [(addr, [Arg.ptrGuid id, Arg.outStr])]⟩ := by
  simp only [hcnDeleteNamespace, h, hrDecode]

/-- Behaviour of `hcnDeleteNamespace` when symbol resolution fails: the resolution error is
returned and no native invocation happens. -/
theorem hcnDeleteNamespace_errFind (env : NativeEnv) (id : Guid) (e : GoError)
    (h : procHcnDeleteNamespace.findAddr env = Except.error e) :
    hcnDeleteNamespace env id = ⟨some e, none, []⟩ := by
  simp only [hcnDeleteNamespace, h]

/-- Behaviour of `hcnDeleteNetwork` when symbol resolution succeeds: exactly one native
invocation with the recorded arguments, error decoded by `hrDecode`, and the
full native outcome surfaced. -/
theorem hcnDeleteNetwork_ok (env : NativeEnv) (id : Guid) (addr : Nat)
    (h : procHcnDeleteNetwork.findAddr env = Except.ok addr) :
    hcnDeleteNetwork env id =
      ⟨hrDecode (env.call addr [Arg.ptrGuid id, Arg.outStr]).r0,
       some (env.call addr [Arg.ptrGuid id, Arg.outStr]),
       [(addr, [Arg.ptrGuid id, Arg.outStr])]⟩ := by
  simp only [hcnDeleteNetwork, h, hrDecode]

/-- Behaviour of `hcnDeleteNetwork` when symbol resolution fails: the resolution error is
returned and no native invocation happens. -/
theorem hcnDeleteNetwork_errFind (env : NativeEnv) (id : Guid) (e : GoError)
    (h : procHcnDeleteNetwork.findAddr env = Except.error e) :
    hcnDeleteNetwork env id = ⟨some e, none, []⟩ := by
  simp only [hcnDeleteNetwork, h]

/-- Behaviour of `hcnDeleteRoute` when symbol resolution succeeds: exactly one native
invocation with the recorded arguments, error decoded by `hrDecode`, and the
full native outcome surfaced. -/
theorem hcnDeleteRoute_ok (env : NativeEnv) (id : Guid) (addr : Nat)
    (h : procHcnDeleteSdnRoute.findAddr env = Except.ok addr) :
    hcnDeleteRoute env id =
      ⟨hrDecode (env.call addr [Arg.ptrGuid id, Arg.outStr]).r0,
       some (env.call addr [Arg.ptrGuid id, Arg.outStr]),
       [(addr, [Arg.ptrGuid id, Arg.outStr])]⟩ := by
  simp only [hcnDeleteRoute, h, hrDecode]

/-- Behaviour of `hcnDeleteRoute` when symbol resolution fails: the resolution error is
returned and no native invocation happens. -/
theorem hcnDeleteRoute_errFind (env : NativeEnv) (id : Guid) (e : GoError)
    (h : procHcnDeleteSdnRoute.findAddr env = Except.error e) :
    hcnDeleteRoute env id = ⟨some e, none, []⟩ := by
  simp only [hcnDeleteRoute, h]

/-- Behaviour of `_hcnEnumerateEndpoints` when symbol resolution succeeds: exactly one native
invocation with the recorded arguments, error decoded by `hrDecode`, and the
full native outcome surfaced. -/
theorem _hcnEnumerateEndpoints_ok (env : NativeEnv) (query : List Nat) (addr : Nat)
    (h : procHcnEnumerateEndpoints.findAddr env = Except.ok addr) :
    _hcnEnumerateEndpoints env query =
      ⟨hrDecode (env.call addr [Arg.ptrStr query, Arg.outStr, Arg.outStr]).r0,
       some (env.call addr [Arg.ptrStr query, Arg.outStr, Arg.outStr]),
       [(addr, [Arg.ptrStr query, Arg.outStr, Arg.outStr])]⟩ := by
  simp only [_hcnEnumerateEndpoints, h, hrDecode]

/-- Behaviour of `_hcnEnumerateEndpoints` when symbol resolution fails: the resolution error is
returned and no native invocation happens. -/
theorem _hcnEnumerateEndpoints_errFind (env : NativeEnv) (query : List Nat) (e : GoError)
    (h : procHcnEnumerateEndpoints.findAddr env = Except.error e) :
    _hcnEnumerateEndpoints env query = ⟨some e, none, []⟩ := by
  simp only [_hcnEnumerateEndpoints, h]

/-- Behaviour of `_hcnEnumerateLoadBalancers` when symbol resolution succeeds: exactly one native
invocation with the recorded arguments, error decoded by `hrDecode`, and the
full native outcome surfaced. -/
theorem _hcnEnumerateLoadBalancers_ok (env : NativeEnv) (query : List Nat) (addr : Nat)
    (h : procHcnEnumerateLoadBalancers.findAddr env = Except.ok addr) :
    _hcnEnumerateLoadBalancers env query =
      ⟨hrDecode (env.call addr [Arg.ptrStr query, Arg.outStr, Arg.outStr]).r0,
       some (env.call addr [Arg.ptrStr query, Arg.outStr, Arg.outStr]),
       [(addr, [Arg.ptrStr query, Arg.outStr, Arg.outStr])]⟩ := by
  simp only [_hcnEnumerateLoadBalancers, h, hrDecode]

/-- Behaviour of `_hcnEnumerateLoadBalancers` when symbol resolution fails: the resolution error is
returned and no native invocation happens. -/
theorem _hcnEnumerateLoadBalancers_errFind (env : NativeEnv) (query : List Nat) (e : GoError)
    (h : procHcnEnumerateLoadBalancers.findAddr env = Except.error e) :
    _hcnEnumerateLoadBalancers env query = ⟨some e, none, []⟩ := by
  simp only [_hcnEnumerateLoadBalancers, h]

/-- Behaviour of `_hcnEnumerateNamespaces` when symbol resolution succeeds: exactly one native
invocation with the recorded arguments, error decoded by `hrDecode`, and the
full native outcome surfaced. -/
theorem _hcnEnumerateNamespaces_ok (env : NativeEnv) (query : List Nat) (addr : Nat)
    (h : procHcnEnumerateNamespaces.findAddr env = Except.ok addr) :
    _hcnEnumerateNamespaces env query =
      ⟨hrDecode (env.call addr [Arg.ptrStr query, Arg.outStr, Arg.outStr]).r0,
       some (env.call addr [Arg.ptrStr query, Arg.outStr, Arg.outStr]),
       [(addr, [Arg.ptrStr query, Arg.outStr, Arg.outStr])]⟩ := by
  simp only [_hcnEnumerateNamespaces, h, hrDecode]

/-- Behaviour of `_hcnEnumerateNamespaces` when symbol resolution fails: the resolution error is
returned and no native invocation happens. -/
theorem _hcnEnumerateNamespaces_errFind (env : NativeEnv) (query : List Nat) (e : GoError)
    (h : procHcnEnumerateNamespaces.findAddr env = Except.error e) :
    _hcnEnumerateNamespaces env query = ⟨some e, none, []⟩ := by
  simp only [_hcnEnumerateNamespaces, h]

/-- Behaviour of `_hcnEnumerateNetworks` when symbol resolution succeeds: exactly one native
invocation with the recorded arguments, error decoded by `hrDecode`, and the
full native outcome surfaced. -/
theorem _hcnEnumerateNetworks_ok (env : NativeEnv) (query : List Nat) (addr : Nat)
    (h : procHcnEnumerateNetworks.findAddr env = Except.ok addr) :
    _hcnEnumerateNetworks env query =
      ⟨hrDecode (env.call addr [Arg.ptrStr query, Arg.outStr, Arg.outStr]).r0,
       some (env.call addr [Arg.ptrStr query, Arg.outStr, Arg.outStr]),
       [(addr, [Arg.ptrStr query, Arg.outStr, Arg.outStr])]⟩ := by
  simp only [_hcnEnumerateNetworks, h, hrDecode]

/-- Behaviour of `_hcnEnumerateNetworks` when symbol resolution fails: the resolution error is
returned and no native invocation happens. -/
theorem _hcnEnumerateNetworks_errFind (env : NativeEnv) (query : List Nat) (e : GoError)
    (h : procHcnEnumerateNetworks.findAddr env = Except.error e) :
    _hcnEnumerateNetworks env query = ⟨some e, none, []⟩ := by
  simp only [_hcnEnumerateNetworks, h]

/-- Behaviour of `_hcnEnumerateRoutes` when symbol resolution succeeds: exactly one native
invocation with the recorded arguments, error decoded by `hrDecode`, and the
full native outcome surfaced. -/
theorem _hcnEnumerateRoutes_ok (env : NativeEnv) (query : List Nat) (addr : Nat)
    (h : procHcnEnumerateSdnRoutes.findAddr env = Except.ok addr) :
    _hcnEnumerateRoutes env query =
      ⟨hrDecode (env.call addr [Arg.ptrStr query, Arg.outStr, Arg.outStr]).r0,
       some (env.call addr [Arg.ptrStr query, Arg.outStr, Arg.outStr]),
       [(addr, [Arg.ptrStr query, Arg.outStr, Arg.outStr])]⟩ := by
  simp only [_hcnEnumerateRoutes, h, hrDecode]

/-- Behaviour of `_hcnEnumerateRoutes` when symbol resolution fails: the resolution error is
returned and no native invocation happens. -/
theorem _hcnEnumerateRoutes_errFind (env : NativeEnv) (query : List Nat) (e : GoError)
    (h : procHcnEnumerateSdnRoutes.findAddr env = Except.error e) :
    _hcnEnumerateRoutes env query = ⟨some e, none, []⟩ := by
  simp only [_hcnEnumerateRoutes, h]

/-- Behaviour of `_hcnModifyEndpoint` when symbol resolution succeeds: exactly one native
invocation with the recorded arguments, error decoded by `hrDecode`, and the
full native outcome surfaced. -/
theorem _hcnModifyEndpoint_ok (env : NativeEnv) (endpoint : hcnEndpoint) (settings : List Nat) (addr : Nat)
    (h : procHcnModifyEndpoint.findAddr env = Except.ok addr) :
    _hcnModifyEndpoint env endpoint settings =
      ⟨hrDecode (env.call addr [Arg.num endpoint, Arg.ptrStr settings, Arg.outStr]).r0,
       some (env.call addr [Arg.num endpoint, Arg.ptrStr settings, Arg.outStr]),
       [(addr, [Arg.num endpoint, Arg.ptrStr settings, Arg.outStr])]⟩ := by
  simp only [_hcnModifyEndpoint, h, hrDecode]

/-- Behaviour of `_hcnModifyEndpoint` when symbol resolution fails: the resolution error is
returned and no native invocation happens. -/
theorem _hcnModifyEndpoint_errFind (env : NativeEnv) (endpoint : hcnEndpoint) (settings : List Nat) (e : GoError)
    (h : procHcnModifyEndpoint.findAddr env = Except.error e) :
    _hcnModifyEndpoint env endpoint settings = ⟨some e, none, []⟩ := by
  simp only [_hcnModifyEndpoint, h]

/-- Behaviour of `_hcnModifyLoadBalancer` when symbol resolution succeeds: exactly one native
invocation with the recorded arguments, error decoded by `hrDecode`, and the
full native outcome surfaced. -/
theorem _hcnModifyLoadBalancer_ok (env : NativeEnv) (loadBalancer : hcnLoadBalancer) (settings : List Nat) (addr : Nat)
    (h : procHcnModifyLoadBalancer.findAddr env = Except.ok addr) :
    _hcnModifyLoadBalancer env loadBalancer settings =
      ⟨hrDecode (env.call addr [Arg.num loadBalancer, Arg.ptrStr settings, Arg.outStr]).r0,
       some (env.call addr [Arg.num loadBalancer, Arg.ptrStr settings, Arg.outStr]),
       [(addr, [Arg.num loadBalancer, Arg.ptrStr settings, Arg.outStr])]⟩ := by
  simp only [_hcnModifyLoadBalancer, h, hrDecode]

/-- Behaviour of `_hcnModifyLoadBalancer` when symbol resolution fails: the resolution error is
returned and no native invocation happens. -/
theorem _hcnModifyLoadBalancer_errFind (env : NativeEnv) (loadBalancer : hcnLoadBalancer) (settings : List Nat) (e : GoError)
    (h : procHcnModifyLoadBalancer.findAddr env = Except.error e) :
    _hcnModifyLoadBalancer env loadBalancer settings = ⟨some e, none, []⟩ := by
  simp only [_hcnModifyLoadBalancer, h]

/-- Behaviour of `_hcnModifyNamespace` when symbol resolution succeeds: exactly one native
invocation with the recorded arguments, error decoded by `hrDecode`, and the
full native outcome surfaced. -/
theorem _hcnModifyNamespace_ok (env : NativeEnv) (namespaceH : hcnNamespace) (settings : List Nat) (addr : Nat)
    (h : procHcnModifyNamespace.findAddr env = Except.ok addr) :
    _hcnModifyNamespace env namespaceH settings =
      ⟨hrDecode (env.call addr [Arg.num namespaceH, Arg.ptrStr settings, Arg.outStr]).r0,
       some (env.call addr [Arg.num namespaceH, Arg.ptrStr settings, Arg.outStr]),
       [(addr, [Arg.num namespaceH, Arg.ptrStr settings, Arg.outStr])]⟩ := by
  simp only [_hcnModifyNamespace, h, hrDecode]

/-- Behaviour of `_hcnModifyNamespace` when symbol resolution fails: the resolution error is
returned and no native invocation happens. -/
theorem _hcnModifyNamespace_errFind (env : NativeEnv) (namespaceH : hcnNamespace) (settings : List Nat) (e : GoError)
    (h : procHcnModifyNamespace.findAddr env = Except.error e) :
    _hcnModifyNamespace env namespaceH settings = ⟨some e, none, []⟩ := by
  simp only [_hcnModifyNamespace, h]

/-- Behaviour of `_hcnModifyNetwork` when symbol resolution succeeds: exactly one native
invocation with the recorded arguments, error decoded by `hrDecode`, and the
full native outcome surfaced. -/
theorem _hcnModifyNetwork_ok (env : NativeEnv) (network : hcnNetwork) (settings : List Nat) (addr : Nat)
    (h : procHcnModifyNetwork.findAddr env = Except.ok addr) :
    _hcnModifyNetwork env network settings =
      ⟨hrDecode (env.call addr [Arg.num network, Arg.ptrStr settings, Arg.outStr]).r0,
       some (env.call addr [Arg.num network, Arg.ptrStr settings, Arg.outStr]),
       [(addr, [Arg.num network, Arg.ptrStr settings, Arg.outStr])]⟩ := by
  simp only [_hcnModifyNetwork, h, hrDecode]

/-- Behaviour of `_hcnModifyNetwork` when symbol resolution fails: the resolution error is
returned and no native invocation happens. -/
theorem _hcnModifyNetwork_errFind (env : NativeEnv) (network : hcnNetwork) (settings : List Nat) (e : GoError)
    (h : procHcnModifyNetwork.findAddr env = Except.error e) :
    _hcnModifyNetwork env network settings = ⟨some e, none, []⟩ := by
  simp only [_hcnModifyNetwork, h]

/-- Behaviour of `_hcnModifyRoute` when symbol resolution succeeds: exactly one native
invocation with the recorded arguments, error decoded by `hrDecode`, and the
full native outcome surfaced. -/
theorem _hcnModifyRoute_ok (env : NativeEnv) (route : hcnRoute) (settings : List Nat) (addr : Nat)
    (h : procHcnModifySdnRoute.findAddr env = Except.ok addr) :
    _hcnModifyRoute env route settings =
      ⟨hrDecode (env.call addr [Arg.num route, Arg.ptrStr settings, Arg.outStr]).r0,
       some (env.call addr [Arg.num route, Arg.ptrStr settings, Arg.outStr]),
       [(addr, [Arg.num route, Arg.ptrStr settings, Arg.outStr])]⟩ := by
  simp only [_hcnModifyRoute, h, hrDecode]

/-- Behaviour of `_hcnModifyRoute` when symbol resolution fails: the resolution error is
returned and no native invocation happens. -/
theorem _hcnModifyRoute_errFind (env : NativeEnv) (route : hcnRoute) (settings : List Nat) (e : GoError)
    (h : procHcnModifySdnRoute.findAddr env = Except.error e) :
    _hcnModifyRoute env route settings = ⟨some e, none, []⟩ := by
  simp only [_hcnModifyRoute, h]

/-- Behaviour of `hcnOpenEndpoint` when symbol resolution succeeds: exactly one native
invocation with the recorded arguments, error decoded by `hrDecode`, and the
full native outcome surfaced. -/
theorem hcnOpenEndpoint_ok (env : NativeEnv) (id : Guid) (addr : Nat)
    (h : procHcnOpenEndpoint.findAddr env = Except.ok addr) :
    hcnOpenEndpoint env id =
      ⟨hrDecode (env.call addr [Arg.ptrGuid id, Arg.outHandle, Arg.outStr]).r0,
       some (env.call addr [Arg.ptrGuid id, Arg.outHandle, Arg.outStr]),
       [(addr, [Arg.ptrGuid id, Arg.outHandle, Arg.outStr])]⟩ := by
  simp only [hcnOpenEndpoint, h, hrDecode]

/-- Behaviour of `hcnOpenEndpoint` when symbol resolution fails: the resolution error is
returned and no native invocation happens. -/
theorem hcnOpenEndpoint_errFind (env : NativeEnv) (id : Guid) (e : GoError)
    (h : procHcnOpenEndpoint.findAddr env = Except.error e) :
    hcnOpenEndpoint env id = ⟨some e, none, []⟩ := by
  simp only [hcnOpenEndpoint, h]

/-- Behaviour of `hcnOpenLoadBalancer` when symbol resolution succeeds: exactly one native
invocation with the recorded arguments, error decoded by `hrDecode`, and the
full native outcome surfaced. -/
theorem hcnOpenLoadBalancer_ok (env : NativeEnv) (id : Guid) (addr : Nat)
    (h : procHcnOpenLoadBalancer.findAddr env = Except.ok addr) :
    hcnOpenLoadBalancer env id =
      ⟨hrDecode (env.call addr [Arg.ptrGuid id, Arg.outHandle, Arg.outStr]).r0,
       some (env.call addr [Arg.ptrGuid id, Arg.outHandle, Arg.outStr]),
       [(addr, [Arg.ptrGuid id, Arg.outHandle, Arg.outStr])]⟩ := by
  simp only [hcnOpenLoadBalancer, h, hrDecode]

/-- Behaviour of `hcnOpenLoadBalancer` when symbol resolution fails: the resolution error is
returned and no native invocation happens. -/
theorem hcnOpenLoadBalancer_errFind (env : NativeEnv) (id : Guid) (e : GoError)
    (h : procHcnOpenLoadBalancer.findAddr env = Except.error e) :
    hcnOpenLoadBalancer env id = ⟨some e, none, []⟩ := by
  simp only [hcnOpenLoadBalancer, h]

/-- Behaviour of `hcnOpenNamespace` when symbol resolution succeeds: exactly one native
invocation with the recorded arguments, error decoded by `hrDecode`, and the
full native outcome surfaced. -/
theorem hcnOpenNamespace_ok (env : NativeEnv) (id : Guid) (addr : Nat)
    (h : procHcnOpenNamespace.findAddr env = Except.ok addr) :
    hcnOpenNamespace env id =
      ⟨hrDecode (env.call addr [Arg.ptrGuid id, Arg.outHandle, Arg.outStr]).r0,
       some (env.call addr [Arg.ptrGuid id, Arg.outHandle, Arg.outStr]),
       [(addr, [Arg.ptrGuid id, Arg.outHandle, Arg.outStr])]⟩ := by
  simp only [hcnOpenNamespace, h, hrDecode]

/-- Behaviour of `hcnOpenNamespace` when symbol resolution fails: the resolution error is
returned and no native invocation happens. -/
theorem hcnOpenNamespace_errFind (env : NativeEnv) (id : Guid) (e : GoError)
    (h : procHcnOpenNamespace.findAddr env = Except.error e) :
    hcnOpenNamespace env id = ⟨some e, none, []⟩ := by
  simp only [hcnOpenNamespace, h]

/-- Behaviour of `hcnOpenNetwork` when symbol resolution succeeds: exactly one native
invocation with the recorded arguments, error decoded by `hrDecode`, and the
full native outcome surfaced. -/
theorem hcnOpenNetwork_ok (env : NativeEnv) (id : Guid) (addr : Nat)
    (h : procHcnOpenNetwork.findAddr env = Except.ok addr) :
    hcnOpenNetwork env id =
      ⟨hrDecode (env.call addr [Arg.ptrGuid id, Arg.outHandle, Arg.outStr]).r0,
       some (env.call addr [Arg.ptrGuid id, Arg.outHandle, Arg.outStr]),
       [(addr, [Arg.ptrGuid id, Arg.outHandle, Arg.outStr])]⟩ := by
  simp only [hcnOpenNetwork, h, hrDecode]

/-- Behaviour of `hcnOpenNetwork` when symbol resolution fails: the resolution error is
returned and no native invocation happens. -/
theorem hcnOpenNetwork_errFind (env : NativeEnv) (id : Guid) (e : GoError)
    (h : procHcnOpenNetwork.findAddr env = Except.error e) :
    hcnOpenNetwork env id = ⟨some e, none, []⟩ := by
  simp only [hcnOpenNetwork, h]

/-- Behaviour of `hcnOpenRoute` when symbol resolution succeeds: exactly one native
invocation with the recorded arguments, error decoded by `hrDecode`, and the
full native outcome surfaced. -/
theorem hcnOpenRoute_ok (env : NativeEnv) (id : Guid) (addr : Nat)
    (h : procHcnOpenSdnRoute.findAddr env = Except.ok addr) :
    hcnOpenRoute env id =
      ⟨hrDecode (env.call addr [Arg.ptrGuid id, Arg.outHandle, Arg.outStr]).r0,
       some (env.call addr [Arg.ptrGuid id, Arg.outHandle, Arg.outStr]),
       [(addr, [Arg.ptrGuid id, Arg.outHandle, Arg.outStr])]⟩ := by
  simp only [hcnOpenRoute, h, hrDecode]

/-- Behaviour of `hcnOpenRoute` when symbol resolution fails: the resolution error is
returned and no native invocation happens. -/
theorem hcnOpenRoute_errFind (env : NativeEnv) (id : Guid) (e : GoError)
    (h : procHcnOpenSdnRoute.findAddr env = Except.error e) :
    hcnOpenRoute env id = ⟨some e, none, []⟩ := by
  simp only [hcnOpenRoute, h]

/-- Behaviour of `_hcnQueryEndpointProperties` when symbol resolution succeeds: exactly one native
invocation with the recorded arguments, error decoded by `hrDecode`, and the
full native outcome surfaced. -/
theorem _hcnQueryEndpointProperties_ok (env : NativeEnv) (endpoint : hcnEndpoint) (query : List Nat) (addr : Nat)
    (h : procHcnQueryEndpointProperties.findAddr env = Except.ok addr) :
    _hcnQueryEndpointProperties env endpoint query =
      ⟨hrDecode (env.call addr [Arg.num endpoint, Arg.ptrStr query, Arg.outStr, Arg.outStr]).r0,
       some (env.call addr [Arg.num endpoint, Arg.ptrStr query, Arg.outStr, Arg.outStr]),
       [(addr, [Arg.num endpoint, Arg.ptrStr query, Arg.outStr, Arg.outStr])]⟩ := by
  simp only [_hcnQueryEndpointProperties, h, hrDecode]

/-- Behaviour of `_hcnQueryEndpointProperties` when symbol resolution fails: the resolution error is
returned and no native invocation happens. -/
theorem _hcnQueryEndpointProperties_errFind (env : NativeEnv) (endpoint : hcnEndpoint) (query : List Nat) (e : GoError)
    (h : procHcnQueryEndpointProperties.findAddr env = Except.error e) :
    _hcnQueryEndpointProperties env endpoint query = ⟨some e, none, []⟩ := by
  simp only [_hcnQueryEndpointProperties, h]

/-- Behaviour of `_hcnQueryLoadBalancerProperties` when symbol resolution succeeds: exactly one native
invocation with the recorded arguments, error decoded by `hrDecode`, and the
full native outcome surfaced. -/
theorem _hcnQueryLoadBalancerProperties_ok (env : NativeEnv) (loadBalancer : hcnLoadBalancer) (query : List Nat) (addr : Nat)
    (h : procHcnQueryLoadBalancerProperties.findAddr env = Except.ok addr) :
    _hcnQueryLoadBalancerProperties env loadBalancer query =
      ⟨hrDecode (env.call addr [Arg.num loadBalancer, Arg.ptrStr query, Arg.outStr, Arg.outStr]).r0,
       some (env.call addr [Arg.num loadBalancer, Arg.ptrStr query, Arg.outStr, Arg.outStr]),
       [(addr, [Arg.num loadBalancer, Arg.ptrStr query, Arg.outStr, Arg.outStr])]⟩ := by
  simp only [_hcnQueryLoadBalancerProperties, h, hrDecode]

/-- Behaviour of `_hcnQueryLoadBalancerProperties` when symbol resolution fails: the resolution error is
returned and no native invocation happens. -/
theorem _hcnQueryLoadBalancerProperties_errFind (env : NativeEnv) (loadBalancer : hcnLoadBalancer) (query : List Nat) (e : GoError)
    (h : procHcnQueryLoadBalancerProperties.findAddr env = Except.error e) :
    _hcnQueryLoadBalancerProperties env loadBalancer query = ⟨some e, none, []⟩ := by
  simp only [_hcnQueryLoadBalancerProperties, h]

/-- Behaviour of `_hcnQueryNamespaceProperties` when symbol resolution succeeds: exactly one native
invocation with the recorded arguments, error decoded by `hrDecode`, and the
full native outcome surfaced. -/
theorem _hcnQueryNamespaceProperties_ok (env : NativeEnv) (namespaceH : hcnNamespace) (query : List Nat) (addr : Nat)
    (h : procHcnQueryNamespaceProperties.findAddr env = Except.ok addr) :
    _hcnQueryNamespaceProperties env namespaceH query =
      ⟨hrDecode (env.call addr [Arg.num namespaceH, Arg.ptrStr query, Arg.outStr, Arg.outStr]).r0,
       some (env.call addr [Arg.num namespaceH, Arg.ptrStr query, Arg.outStr, Arg.outStr]),
       [(addr, [Arg.num namespaceH, Arg.ptrStr query, Arg.outStr, Arg.outStr])]⟩ := by
  simp only [_hcnQueryNamespaceProperties, h, hrDecode]

/-- Behaviour of `_hcnQueryNamespaceProperties` when symbol resolution fails: the resolution error is
returned and no native invocation happens. -/
theorem _hcnQueryNamespaceProperties_errFind (env : NativeEnv) (namespaceH : hcnNamespace) (query : List Nat) (e : GoError)
    (h : procHcnQueryNamespaceProperties.findAddr env = Except.error e) :
    _hcnQueryNamespaceProperties env namespaceH query = ⟨some e, none, []⟩ := by
  simp only [_hcnQueryNamespaceProperties, h]

/-- Behaviour of `_hcnQueryNetworkProperties` when symbol resolution succeeds: exactly one native
invocation with the recorded arguments, error decoded by `hrDecode`, and the
full native outcome surfaced. -/
theorem _hcnQueryNetworkProperties_ok (env : NativeEnv) (network : hcnNetwork) (query : List Nat) (addr : Nat)
    (h : procHcnQueryNetworkProperties.findAddr env = Except.ok addr) :
    _hcnQueryNetworkProperties env network query =
      ⟨hrDecode (env.call addr [Arg.num network, Arg.ptrStr query, Arg.outStr, Arg.outStr]).r0,
       some (env.call addr [Arg.num network, Arg.ptrStr query, Arg.outStr, Arg.outStr]),
       [(addr, [Arg.num network, Arg.ptrStr query, Arg.outStr, Arg.outStr])]⟩ := by
  simp only [_hcnQueryNetworkProperties, h, hrDecode]

/-- Behaviour of `_hcnQueryNetworkProperties` when symbol resolution fails: the resolution error is
returned and no native invocation happens. -/
theorem _hcnQueryNetworkProperties_errFind (env : NativeEnv) (network : hcnNetwork) (query : List Nat) (e : GoError)
    (h : procHcnQueryNetworkProperties.findAddr env = Except.error e) :
    _hcnQueryNetworkProperties env network query = ⟨some e, none, []⟩ := by
  simp only [_hcnQueryNetworkProperties, h]

/-- Behaviour of `_hcnQueryRouteProperties` when symbol resolution succeeds: exactly one native
invocation with the recorded arguments, error decoded by `hrDecode`, and the
full native outcome surfaced. -/
theorem _hcnQueryRouteProperties_ok (env : NativeEnv) (route : hcnRoute) (query : List Nat) (addr : Nat)
    (h : procHcnQuerySdnRouteProperties.findAddr env = Except.ok addr) :
    _hcnQueryRouteProperties env route query =
      ⟨hrDecode (env.call addr [Arg.num route, Arg.ptrStr query, Arg.outStr, Arg.outStr]).r0,
       some (env.call addr [Arg.num route, Arg.ptrStr query, Arg.outStr, Arg.outStr]),
       [(addr, [Arg.num route, Arg.ptrStr query, Arg.outStr, Arg.outStr])]⟩ := by
  simp only [_hcnQueryRouteProperties, h, hrDecode]

/-- Behaviour of `_hcnQueryRouteProperties` when symbol resolution fails: the resolution error is
returned and no native invocation happens. -/
theorem _hcnQueryRouteProperties_errFind (env : NativeEnv) (route : hcnRoute) (query : List Nat) (e : GoError)
    (h : procHcnQuerySdnRouteProperties.findAddr env = Except.error e) :
    _hcnQueryRouteProperties env route query = ⟨some e, none, []⟩ := by
  simp only [_hcnQueryRouteProperties, h]

/-- Behaviour of `__hnsCall` when symbol resolution succeeds: exactly one native
invocation with the recorded arguments, error decoded by `hrDecode`, and the
full native outcome surfaced. -/
theorem __hnsCall_ok (env : NativeEnv) (method : List Nat) (path : List Nat) (object : List Nat) (addr : Nat)
    (h : procHNSCall.findAddr env = Except.ok addr) :
    __hnsCall env method path object =
      ⟨hrDecode (env.call addr [Arg.ptrStr method, Arg.ptrStr path, Arg.ptrStr object, Arg.outStr]).r0,
       some (env.call addr [Arg.ptrStr method, Arg.ptrStr path, Arg.ptrStr object, Arg.outStr]),
       [(addr, [Arg.ptrStr method, Arg.ptrStr path, Arg.ptrStr object, Arg.outStr])]⟩ := by
  simp only [__hnsCall, h, hrDecode]

/-- Behaviour of `__hnsCall` when symbol resolution fails: the resolution error is
returned and no native invocation happens. -/
theorem __hnsCall_errFind (env : NativeEnv) (method : List Nat) (path : List Nat) (object : List Nat) (e : GoError)
    (h : procHNSCall.findAddr env = Except.error e) :
    __hnsCall env method path object = ⟨some e, none, []⟩ := by
  simp only [__hnsCall, h]

/-- Behaviour of `hcnCreateEndpoint` when the UTF-16 conversion succeeds: it delegates to
the inner function with the converted buffer. -/
theorem hcnCreateEndpoint_encOk (env : NativeEnv) (network : hcnNetwork) (id : Guid) (settings : List Char) (buf : List Nat)
    (h : utf16PtrFromString settings = Except.ok buf) :
    hcnCreateEndpoint env network id settings = _hcnCreateEndpoint env network id buf := by
  simp only [hcnCreateEndpoint, h]

/-- Behaviour of `hcnCreateEndpoint` when the UTF-16 conversion fails: the conversion error
is returned and no native invocation happens. -/
theorem hcnCreateEndpoint_encErr (env : NativeEnv) (network : hcnNetwork) (id : Guid) (settings : List Char) (e : GoError)
    (h : utf16PtrFromString settings = Except.error e) :
    hcnCreateEndpoint env network id settings = ⟨some e, none, []⟩ := by
  simp only [hcnCreateEndpoint, h]

/-- Behaviour of `hcnCreateLoadBalancer` when the UTF-16 conversion succeeds: it delegates to
the inner function with the converted buffer. -/
theorem hcnCreateLoadBalancer_encOk (env : NativeEnv) (id : Guid) (settings : List Char) (buf : List Nat)
    (h : utf16PtrFromString settings = Except.ok buf) :
    hcnCreateLoadBalancer env id settings = _hcnCreateLoadBalancer env id buf := by
  simp only [hcnCreateLoadBalancer, h]

/-- Behaviour of `hcnCreateLoadBalancer` when the UTF-16 conversion fails: the conversion error
is returned and no native invocation happens. -/
theorem hcnCreateLoadBalancer_encErr (env : NativeEnv) (id : Guid) (settings : List Char) (e : GoError)
    (h : utf16PtrFromString settings = Except.error e) :
    hcnCreateLoadBalancer env id settings = ⟨some e, none, []⟩ := by
  simp only [hcnCreateLoadBalancer, h]

/-- Behaviour of `hcnCreateNamespace` when the UTF-16 conversion succeeds: it delegates to
the inner function with the converted buffer. -/
theorem hcnCreateNamespace_encOk (env : NativeEnv) (id : Guid) (settings : List Char) (buf : List Nat)
    (h : utf16PtrFromString settings = Except.ok buf) :
    hcnCreateNamespace env id settings = _hcnCreateNamespace env id buf := by
  simp only [hcnCreateNamespace, h]

/-- Behaviour of `hcnCreateNamespace` when the UTF-16 conversion fails: the conversion error
is returned and no native invocation happens. -/
theorem hcnCreateNamespace_encErr (env : NativeEnv) (id : Guid) (settings : List Char) (e : GoError)
    (h : utf16PtrFromString settings = Except.error e) :
    hcnCreateNamespace env id settings = ⟨some e, none, []⟩ := by
  simp only [hcnCreateNamespace, h]

/-- Behaviour of `hcnCreateNetwork` when the UTF-16 conversion succeeds: it delegates to
the inner function with the converted buffer. -/
theorem hcnCreateNetwork_encOk (env : NativeEnv) (id : Guid) (settings : List Char) (buf : List Nat)
    (h : utf16PtrFromString settings = Except.ok buf) :
    hcnCreateNetwork env id settings = _hcnCreateNetwork env id buf := by
  simp only [hcnCreateNetwork, h]

/-- Behaviour of `hcnCreateNetwork` when the UTF-16 conversion fails: the conversion error
is returned and no native invocation happens. -/
theorem hcnCreateNetwork_encErr (env : NativeEnv) (id : Guid) (settings : List Char) (e : GoError)
    (h : utf16PtrFromString settings = Except.error e) :
    hcnCreateNetwork env id settings = ⟨some e, none, []⟩ := by
  simp only [hcnCreateNetwork, h]

/-- Behaviour of `hcnCreateRoute` when the UTF-16 conversion succeeds: it delegates to
the inner function with the converted buffer. -/
theorem hcnCreateRoute_encOk (env : NativeEnv) (id : Guid) (settings : List Char) (buf : List Nat)
    (h : utf16PtrFromString settings = Except.ok buf) :
    hcnCreateRoute env id settings = _hcnCreateRoute env id buf := by
  simp only [hcnCreateRoute, h]

/-- Behaviour of `hcnCreateRoute` when the UTF-16 conversion fails: the conversion error
is returned and no native invocation happens. -/
theorem hcnCreateRoute_encErr (env : NativeEnv) (id : Guid) (settings : List Char) (e : GoError)
    (h : utf16PtrFromString settings = Except.error e) :
    hcnCreateRoute env id settings = ⟨some e, none, []⟩ := by
  simp only [hcnCreateRoute, h]

/-- Behaviour of `hcnEnumerateEndpoints` when the UTF-16 conversion succeeds: it delegates to
the inner function with the converted buffer. -/
theorem hcnEnumerateEndpoints_encOk (env : NativeEnv) (query : List Char) (buf : List Nat)
    (h : utf16PtrFromString query = Except.ok buf) :
    hcnEnumerateEndpoints env query = _hcnEnumerateEndpoints env buf := by
  simp only [hcnEnumerateEndpoints, h]

/-- Behaviour of `hcnEnumerateEndpoints` when the UTF-16 conversion fails: the conversion error
is returned and no native invocation happens. -/
theorem hcnEnumerateEndpoints_encErr (env : NativeEnv) (query : List Char) (e : GoError)
    (h : utf16PtrFromString query = Except.error e) :
    hcnEnumerateEndpoints env query = ⟨some e, none, []⟩ := by
  simp only [hcnEnumerateEndpoints, h]

/-- Behaviour of `hcnEnumerateLoadBalancers` when the UTF-16 conversion succeeds: it delegates to
the inner function with the converted buffer. -/
theorem hcnEnumerateLoadBalancers_encOk (env : NativeEnv) (query : List Char) (buf : List Nat)
    (h : utf16PtrFromString query = Except.ok buf) :
    hcnEnumerateLoadBalancers env query = _hcnEnumerateLoadBalancers env buf := by
  simp only [hcnEnumerateLoadBalancers, h]

/-- Behaviour of `hcnEnumerateLoadBalancers` when the UTF-16 conversion fails: the conversion error
is returned and no native invocation happens. -/
theorem hcnEnumerateLoadBalancers_encErr (env : NativeEnv) (query : List Char) (e : GoError)
    (h : utf16PtrFromString query = Except.error e) :
    hcnEnumerateLoadBalancers env query = ⟨some e, none, []⟩ := by
  simp only [hcnEnumerateLoadBalancers, h]

/-- Behaviour of `hcnEnumerateNamespaces` when the UTF-16 conversion succeeds: it delegates to
the inner function with the converted buffer. -/
theorem hcnEnumerateNamespaces_encOk (env : NativeEnv) (query : List Char) (buf : List Nat)
    (h : utf16PtrFromString query = Except.ok buf) :
    hcnEnumerateNamespaces env query = _hcnEnumerateNamespaces env buf := by
  simp only [hcnEnumerateNamespaces, h]

/-- Behaviour of `hcnEnumerateNamespaces` when the UTF-16 conversion fails: the conversion error
is returned and no native invocation happens. -/
theorem hcnEnumerateNamespaces_encErr (env : NativeEnv) (query : List Char) (e : GoError)
    (h : utf16PtrFromString query = Except.error e) :
    hcnEnumerateNamespaces env query = ⟨some e, none, []⟩ := by
  simp only [hcnEnumerateNamespaces, h]

/-- Behaviour of `hcnEnumerateNetworks` when the UTF-16 conversion succeeds: it delegates to
the inner function with the converted buffer. -/
theorem hcnEnumerateNetworks_encOk (env : NativeEnv) (query : List Char) (buf : List Nat)
    (h : utf16PtrFromString query = Except.ok buf) :
    hcnEnumerateNetworks env query = _hcnEnumerateNetworks env buf := by
  simp only [hcnEnumerateNetworks, h]

/-- Behaviour of `hcnEnumerateNetworks` when the UTF-16 conversion fails: the conversion error
is returned and no native invocation happens. -/
theorem hcnEnumerateNetworks_encErr (env : NativeEnv) (query : List Char) (e : GoError)
    (h : utf16PtrFromString query = Except.error e) :
    hcnEnumerateNetworks env query = ⟨some e, none, []⟩ := by
  simp only [hcnEnumerateNetworks, h]

/-- Behaviour of `hcnEnumerateRoutes` when the UTF-16 conversion succeeds: it delegates to
the inner function with the converted buffer. -/
theorem hcnEnumerateRoutes_encOk (env : NativeEnv) (query : List Char) (buf : List Nat)
    (h : utf16PtrFromString query = Except.ok buf) :
    hcnEnumerateRoutes env query = _hcnEnumerateRoutes env buf := by
  simp only [hcnEnumerateRoutes, h]

/-- Behaviour of `hcnEnumerateRoutes` when the UTF-16 conversion fails: the conversion error
is returned and no native invocation happens. -/
theorem hcnEnumerateRoutes_encErr (env : NativeEnv) (query : List Char) (e : GoError)
    (h : utf16PtrFromString query = Except.error e) :
    hcnEnumerateRoutes env query = ⟨some e, none, []⟩ := by
  simp only [hcnEnumerateRoutes, h]

/-- Behaviour of `hcnModifyEndpoint` when the UTF-16 conversion succeeds: it delegates to
the inner function with the converted buffer. -/
theorem hcnModifyEndpoint_encOk (env : NativeEnv) (endpoint : hcnEndpoint) (settings : List Char) (buf : List Nat)
    (h : utf16PtrFromString settings = Except.ok buf) :
    hcnModifyEndpoint env endpoint settings = _hcnModifyEndpoint env endpoint buf := by
  simp only [hcnModifyEndpoint, h]

/-- Behaviour of `hcnModifyEndpoint` when the UTF-16 conversion fails: the conversion error
is returned and no native invocation happens. -/
theorem hcnModifyEndpoint_encErr (env : NativeEnv) (endpoint : hcnEndpoint) (settings : List Char) (e : GoError)
    (h : utf16PtrFromString settings = Except.error e) :
    hcnModifyEndpoint env endpoint settings = ⟨some e, none, []⟩ := by
  simp only [hcnModifyEndpoint, h]

/-- Behaviour of `hcnModifyLoadBalancer` when the UTF-16 conversion succeeds: it delegates to
the inner function with the converted buffer. -/
theorem hcnModifyLoadBalancer_encOk (env : NativeEnv) (loadBalancer : hcnLoadBalancer) (settings : List Char) (buf : List Nat)
    (h : utf16PtrFromString settings = Except.ok buf) :
    hcnModifyLoadBalancer env loadBalancer settings = _hcnModifyLoadBalancer env loadBalancer buf := by
  simp only [hcnModifyLoadBalancer, h]

/-- Behaviour of `hcnModifyLoadBalancer` when the UTF-16 conversion fails: the conversion error
is returned and no native invocation happens. -/
theorem hcnModifyLoadBalancer_encErr (env : NativeEnv) (loadBalancer : hcnLoadBalancer) (settings : List Char) (e : GoError)
    (h : utf16PtrFromString settings = Except.error e) :
    hcnModifyLoadBalancer env loadBalancer settings = ⟨some e, none, []⟩ := by
  simp only [hcnModifyLoadBalancer, h]

/-- Behaviour of `hcnModifyNamespace` when the UTF-16 conversion succeeds: it delegates to
the inner function with the converted buffer. -/
theorem hcnModifyNamespace_encOk (env : NativeEnv) (namespaceH : hcnNamespace) (settings : List Char) (buf : List Nat)
    (h : utf16PtrFromString settings = Except.ok buf) :
    hcnModifyNamespace env namespaceH settings = _hcnModifyNamespace env namespaceH buf := by
  simp only [hcnModifyNamespace, h]

/-- Behaviour of `hcnModifyNamespace` when the UTF-16 conversion fails: the conversion error
is returned and no native invocation happens. -/
theorem hcnModifyNamespace_encErr (env : NativeEnv) (namespaceH : hcnNamespace) (settings : List Char) (e : GoError)
    (h : utf16PtrFromString settings = Except.error e) :
    hcnModifyNamespace env namespaceH settings = ⟨some e, none, []⟩ := by
  simp only [hcnModifyNamespace, h]

/-- Behaviour of `hcnModifyNetwork` when the UTF-16 conversion succeeds: it delegates to
the inner function with the converted buffer. -/
theorem hcnModifyNetwork_encOk (env : NativeEnv) (network : hcnNetwork) (settings : List Char) (buf : List Nat)
    (h : utf16PtrFromString settings = Except.ok buf) :
    hcnModifyNetwork env network settings = _hcnModifyNetwork env network buf := by
  simp only [hcnModifyNetwork, h]

/-- Behaviour of `hcnModifyNetwork` when the UTF-16 conversion fails: the conversion error
is returned and no native invocation happens. -/
theorem hcnModifyNetwork_encErr (env : NativeEnv) (network : hcnNetwork) (settings : List Char) (e : GoError)
    (h : utf16PtrFromString settings = Except.error e) :
    hcnModifyNetwork env network settings = ⟨some e, none, []⟩ := by
  simp only [hcnModifyNetwork, h]

/-- Behaviour of `hcnModifyRoute` when the UTF-16 conversion succeeds: it delegates to
the inner function with the converted buffer. -/
theorem hcnModifyRoute_encOk (env : NativeEnv) (route : hcnRoute) (settings : List Char) (buf : List Nat)
    (h : utf16PtrFromString settings = Except.ok buf) :
    hcnModifyRoute env route settings = _hcnModifyRoute env route buf := by
  simp only [hcnModifyRoute, h]

/-- Behaviour of `hcnModifyRoute` when the UTF-16 conversion fails: the conversion error
is returned and no native invocation happens. -/
theorem hcnModifyRoute_encErr (env : NativeEnv) (route : hcnRoute) (settings : List Char) (e : GoError)
    (h : utf16PtrFromString settings = Except.error e) :
    hcnModifyRoute env route settings = ⟨some e, none, []⟩ := by
  simp only [hcnModifyRoute, h]

/-- Behaviour of `hcnQueryEndpointProperties` when the UTF-16 conversion succeeds: it delegates to
the inner function with the converted buffer. -/
theorem hcnQueryEndpointProperties_encOk (env : NativeEnv) (endpoint : hcnEndpoint) (query : List Char) (buf : List Nat)
    (h : utf16PtrFromString query = Except.ok buf) :
    hcnQueryEndpointProperties env endpoint query = _hcnQueryEndpointProperties env endpoint buf := by
  simp only [hcnQueryEndpointProperties, h]

/-- Behaviour of `hcnQueryEndpointProperties` when the UTF-16 conversion fails: the conversion error
is returned and no native invocation happens. -/
theorem hcnQueryEndpointProperties_encErr (env : NativeEnv) (endpoint : hcnEndpoint) (query : List Char) (e : GoError)
    (h : utf16PtrFromString query = Except.error e) :
    hcnQueryEndpointProperties env endpoint query = ⟨some e, none, []⟩ := by
  simp only [hcnQueryEndpointProperties, h]

/-- Behaviour of `hcnQueryLoadBalancerProperties` when the UTF-16 conversion succeeds: it delegates to
the inner function with the converted buffer. -/
theorem hcnQueryLoadBalancerProperties_encOk (env : NativeEnv) (loadBalancer : hcnLoadBalancer) (query : List Char) (buf : List Nat)
    (h : utf16PtrFromString query = Except.ok buf) :
    hcnQueryLoadBalancerProperties env loadBalancer query = _hcnQueryLoadBalancerProperties env loadBalancer buf := by
  simp only [hcnQueryLoadBalancerProperties, h]

/-- Behaviour of `hcnQueryLoadBalancerProperties` when the UTF-16 conversion fails: the conversion error
is returned and no native invocation happens. -/
theorem hcnQueryLoadBalancerProperties_encErr (env : NativeEnv) (loadBalancer : hcnLoadBalancer) (query : List Char) (e : GoError)
    (h : utf16PtrFromString query = Except.error e) :
    hcnQueryLoadBalancerProperties env loadBalancer query = ⟨some e, none, []⟩ := by
  simp only [hcnQueryLoadBalancerProperties, h]

/-- Behaviour of `hcnQueryNamespaceProperties` when the UTF-16 conversion succeeds: it delegates to
the inner function with the converted buffer. -/
theorem hcnQueryNamespaceProperties_encOk (env : NativeEnv) (namespaceH : hcnNamespace) (query : List Char) (buf : List Nat)
    (h : utf16PtrFromString query = Except.ok buf) :
    hcnQueryNamespaceProperties env namespaceH query = _hcnQueryNamespaceProperties env namespaceH buf := by
  simp only [hcnQueryNamespaceProperties, h]

/-- Behaviour of `hcnQueryNamespaceProperties` when the UTF-16 conversion fails: the conversion error
is returned and no native invocation happens. -/
theorem hcnQueryNamespaceProperties_encErr (env : NativeEnv) (namespaceH : hcnNamespace) (query : List Char) (e : GoError)
    (h : utf16PtrFromString query = Except.error e) :
    hcnQueryNamespaceProperties env namespaceH query = ⟨some e, none, []⟩ := by
  simp only [hcnQueryNamespaceProperties, h]

/-- Behaviour of `hcnQueryNetworkProperties` when the UTF-16 conversion succeeds: it delegates to
the inner function with the converted buffer. -/
theorem hcnQueryNetworkProperties_encOk (env : NativeEnv) (network : hcnNetwork) (query : List Char) (buf : List Nat)
    (h : utf16PtrFromString query = Except.ok buf) :
    hcnQueryNetworkProperties env network query = _hcnQueryNetworkProperties env network buf := by
  simp only [hcnQueryNetworkProperties, h]

/-- Behaviour of `hcnQueryNetworkProperties` when the UTF-16 conversion fails: the conversion error
is returned and no native invocation happens. -/
theorem hcnQueryNetworkProperties_encErr (env : NativeEnv) (network : hcnNetwork) (query : List Char) (e : GoError)
    (h : utf16PtrFromString query = Except.error e) :
    hcnQueryNetworkProperties env network query = ⟨some e, none, []⟩ := by
  simp only [hcnQueryNetworkProperties, h]

/-- Behaviour of `hcnQueryRouteProperties` when the UTF-16 conversion succeeds: it delegates to
the inner function with the converted buffer. -/
theorem hcnQueryRouteProperties_encOk (env : NativeEnv) (route : hcnRoute) (query : List Char) (buf : List Nat)
    (h : utf16PtrFromString query = Except.ok buf) :
    hcnQueryRouteProperties env route query = _hcnQueryRouteProperties env route buf := by
  simp only [hcnQueryRouteProperties, h]

/-- Behaviour of `hcnQueryRouteProperties` when the UTF-16 conversion fails: the conversion error
is returned and no native invocation happens. -/
theorem hcnQueryRouteProperties_encErr (env : NativeEnv) (route : hcnRoute) (query : List Char) (e : GoError)
    (h : utf16PtrFromString query = Except.error e) :
    hcnQueryRouteProperties env route query = ⟨some e, none, []⟩ := by
  simp only [hcnQueryRouteProperties, h]


/-- Behaviour of `SetCurrentThreadCompartmentId` when the symbol resolves:
one native invocation, error decoded by `hrDecode`. -/
theorem SetCurrentThreadCompartmentId_ok (env : NativeEnv) (compartmentId : Nat) (addr : Nat)
    (h : procSetCurrentThreadCompartmentId.addrP env = some addr) :
    SetCurrentThreadCompartmentId env compartmentId =
      some ⟨hrDecode (env.call addr [Arg.num compartmentId]).r0,
            some (env.call addr [Arg.num compartmentId]),
            [(addr, [Arg.num compartmentId])]⟩ := by
  simp only [SetCurrentThreadCompartmentId, h, hrDecode]

/-- Behaviour of `SetCurrentThreadCompartmentId` when the symbol does not
resolve: the wrapper panics inside `Addr` (no value is returned). -/
theorem SetCurrentThreadCompartmentId_panic (env : NativeEnv) (compartmentId : Nat)
    (h : procSetCurrentThreadCompartmentId.addrP env = none) :
    SetCurrentThreadCompartmentId env compartmentId = none := by
  simp only [SetCurrentThreadCompartmentId, h]

/-- Behaviour of `GetCurrentThreadCompartmentId` when the symbol resolves. -/
theorem GetCurrentThreadCompartmentId_ok (env : NativeEnv) (addr : Nat)
    (h : procGetCurrentThreadCompartmentId.addrP env = some addr) :
    GetCurrentThreadCompartmentId env =
      some ((env.call addr []).r0 % 2 ^ 32, [(addr, [])]) := by
  simp only [GetCurrentThreadCompartmentId, h]

/-- Behaviour of `GetCurrentThreadCompartmentId` when the symbol does not
resolve: the wrapper panics inside `Addr` (no value is returned). -/
theorem GetCurrentThreadCompartmentId_panic (env : NativeEnv)
    (h : procGetCurrentThreadCompartmentId.addrP env = none) :
    GetCurrentThreadCompartmentId env = none := by
  simp only [GetCurrentThreadCompartmentId, h]

/-- Behaviour of `_hnsCall` when all three conversions succeed. -/
theorem _hnsCall_encOk (env : NativeEnv) (method path object : List Char)
    (b0 b1 b2 : List Nat)
    (h0 : utf16PtrFromString method = Except.ok b0)
    (h1 : utf16PtrFromString path = Except.ok b1)
    (h2 : utf16PtrFromString object = Except.ok b2) :
    _hnsCall env method path object = __hnsCall env b0 b1 b2 := by
  simp only [_hnsCall, h0, h1, h2]

/-- Behaviour of `_hnsCall` when the first conversion fails. -/
theorem _hnsCall_encErr0 (env : NativeEnv) (method path object : List Char) (e : GoError)
    (h0 : utf16PtrFromString method = Except.error e) :
    _hnsCall env method path object = ⟨some e, none, []⟩ := by
  simp only [_hnsCall, h0]

/-- Behaviour of `_hnsCall` when the second conversion fails. -/
theorem _hnsCall_encErr1 (env : NativeEnv) (method path object : List Char)
    (b0 : List Nat) (e : GoError)
    (h0 : utf16PtrFromString method = Except.ok b0)
    (h1 : utf16PtrFromString path = Except.error e) :
    _hnsCall env method path object = ⟨some e, none, []⟩ := by
  simp only [_hnsCall, h0, h1]

/-- Behaviour of `_hnsCall` when the third conversion fails. -/
theorem _hnsCall_encErr2 (env : NativeEnv) (method path object : List Char)
    (b0 b1 : List Nat) (e : GoError)
    (h0 : utf16PtrFromString method = Except.ok b0)
    (h1 : utf16PtrFromString path = Except.ok b1)
    (h2 : utf16PtrFromString object = Except.error e) :
    _hnsCall env method path object = ⟨some e, none, []⟩ := by
  simp only [_hnsCall, h0, h1, h2]

/-- Validity of a `Char`'s code point transported to `Nat`: never a surrogate,
never above `0x10FFFF`. -/
theorem char_toNat_valid (c : Char) :
    c.toNat < 0xd800 ∨ (0xdfff < c.toNat ∧ c.toNat < 0x110000) := by
  rcases c.valid with h | ⟨h1, h2⟩
  · exact Or.inl (UInt32.toNat_lt_of_lt (by decide) h)
  · exact Or.inr ⟨UInt32.lt_toNat_of_lt (by decide) h1, UInt32.toNat_lt_of_lt (by decide) h2⟩

/-- Decoding the UTF-16 encoding of one scalar value, followed by anything,
recovers the character and continues. -/
theorem utf16EncodeChar_roundtrip (c : Char) (rest : List Nat) :
    utf16Decode (utf16EncodeChar c ++ rest) = c :: utf16Decode rest := by
  have hv := char_toNat_valid c
  by_cases hb : c.toNat < 0x10000
  · cases rest with
    | nil =>
      simp only [utf16EncodeChar, if_pos hb, List.cons_append, List.nil_append, utf16Decode]
      rw [if_neg (by omega), Char.ofNat_toNat]
    | cons u2 rest2 =>
      simp only [utf16EncodeChar, if_pos hb, List.cons_append, List.nil_append, utf16Decode]
      rw [if_neg (by omega), if_neg (by omega), Char.ofNat_toNat]
  · simp only [utf16EncodeChar, if_neg hb, List.cons_append, List.nil_append, utf16Decode]
    rw [if_pos (by omega), if_pos (by omega)]
    have harg : 0x10000 + (0xd800 + (c.toNat - 0x10000) / 0x400 - 0xd800) * 0x400 +
        (0xdc00 + (c.toNat - 0x10000) % 0x400 - 0xdc00) = c.toNat := by omega
    rw [harg, Char.ofNat_toNat]

/-- Decoding inverts encoding on whole strings. -/
theorem utf16Decode_encode (s : List Char) : utf16Decode (utf16Encode s) = s := by
  induction s with
  | nil => rfl
  | cons c cs ih =>
    have hsplit : utf16Encode (c :: cs) = utf16EncodeChar c ++ utf16Encode cs := by
      simp [utf16Encode]
    rw [hsplit, utf16EncodeChar_roundtrip, ih]

/-- No code unit produced for a NUL-free string is zero (only U+0000 encodes
to a zero unit). -/
theorem utf16Encode_ne_zero (s : List Char) (hs : (Char.ofNat 0) ∉ s) :
    ∀ u ∈ utf16Encode s, u ≠ 0 := by
  intro u hu
  rcases List.mem_flatMap.mp hu with ⟨c, hc, hcu⟩
  by_cases hb : c.toNat < 0x10000
  · simp only [utf16EncodeChar, if_pos hb, List.mem_singleton] at hcu
    subst hcu
    intro h0
    have : c = Char.ofNat 0 := by rw [← Char.ofNat_toNat c, h0]
    exact hs (this ▸ hc)
  · simp only [utf16EncodeChar, if_neg hb, List.mem_cons, List.mem_singleton,
      List.not_mem_nil, or_false] at hcu
    rcases hcu with h | h <;> omega

/-- Reading a NUL-terminated buffer up to the terminator recovers the
pre-terminator contents when none of them is zero. -/
theorem takeWhile_append_zero (l : List Nat) (h : ∀ u ∈ l, u ≠ 0) :
    (l ++ [0]).takeWhile (fun u => u != 0) = l := by
  induction l with
  | nil => rfl
  | cons a t ih =>
    have ha : (a != 0) = true := by
      simpa using h a (List.mem_cons_self a t)
    simp only [List.cons_append, List.takeWhile_cons, ha, if_true]
    rw [ih (fun u hu => h u (List.mem_cons_of_mem a hu))]

/-- C1: for every wrapper operation, when the native call returns a status
word whose int32 interpretation is negative, the reported error is the status
word's low 16 bits when the word masked with 0x1fff0000 equals 0x00070000
(the repackaged system error number), and the raw status value unchanged for
any other negative status word. -/
theorem negStatus_decode_all_wrappers :
    (∀ (env : NativeEnv) (endpoint : hcnEndpoint) (addr : Nat),
      procHcnCloseEndpoint.findAddr env = Except.ok addr →
      int32lt0 (env.call addr [Arg.num endpoint]).r0 = true →
      (hcnCloseEndpoint env endpoint).hr = some (specNegativeError (env.call addr [Arg.num endpoint]).r0)) ∧
    (∀ (env : NativeEnv) (loadBalancer : hcnLoadBalancer) (addr : Nat),
      procHcnCloseLoadBalancer.findAddr env = Except.ok addr →
      int32lt0 (env.call addr [Arg.num loadBalancer]).r0 = true →
      (hcnCloseLoadBalancer env loadBalancer).hr = some (specNegativeError (env.call addr [Arg.num loadBalancer]).r0)) ∧
    (∀ (env : NativeEnv) (namespaceH : hcnNamespace) (addr : Nat),
      procHcnCloseNamespace.findAddr env = Except.ok addr →
      int32lt0 (env.call addr [Arg.num namespaceH]).r0 = true →
      (hcnCloseNamespace env namespaceH).hr = some (specNegativeError (env.call addr [Arg.num namespaceH]).r0)) ∧
    (∀ (env : NativeEnv) (network : hcnNetwork) (addr : Nat),
      procHcnCloseNetwork.findAddr env = Except.ok addr →
      int32lt0 (env.call addr [Arg.num network]).r0 = true →
      (hcnCloseNetwork env network).hr = some (specNegativeError (env.call addr [Arg.num network]).r0)) ∧
    (∀ (env : NativeEnv) (route : hcnRoute) (addr : Nat),
      procHcnCloseSdnRoute.findAddr env = Except.ok addr →
      int32lt0 (env.call addr [Arg.num route]).r0 = true →
      (hcnCloseRoute env route).hr = some (specNegativeError (env.call addr [Arg.num route]).r0)) ∧
    (∀ (env : NativeEnv) (network : hcnNetwork) (id : Guid) (settings : List Nat) (addr : Nat),
      procHcnCreateEndpoint.findAddr env = Except.ok addr →
      int32lt0 (env.call addr [Arg.num network, Arg.ptrGuid id, Arg.ptrStr settings, Arg.outHandle, Arg.outStr]).r0 = true →
      (_hcnCreateEndpoint env network id settings).hr = some (specNegativeError (env.call addr [Arg.num network, Arg.ptrGuid id, Arg.ptrStr settings, Arg.outHandle, Arg.outStr]).r0)) ∧
    (∀ (env : NativeEnv) (id : Guid) (settings : List Nat) (addr : Nat),
      procHcnCreateLoadBalancer.findAddr env = Except.ok addr →
      int32lt0 (env.call addr [Arg.ptrGuid id, Arg.ptrStr settings, Arg.outHandle, Arg.outStr]).r0 = true →
      (_hcnCreateLoadBalancer env id settings).hr = some (specNegativeError (env.call addr [Arg.ptrGuid id, Arg.ptrStr settings, Arg.outHandle, Arg.outStr]).r0)) ∧
    (∀ (env : NativeEnv) (id : Guid) (settings : List Nat) (addr : Nat),
      procHcnCreateNamespace.findAddr env = Except.ok addr →
      int32lt0 (env.call addr [Arg.ptrGuid id, Arg.ptrStr settings, Arg.outHandle, Arg.outStr]).r0 = true →
      (_hcnCreateNamespace env id settings).hr = some (specNegativeError (env.call addr [Arg.ptrGuid id, Arg.ptrStr settings, Arg.outHandle, Arg.outStr]).r0)) ∧
    (∀ (env : NativeEnv) (id : Guid) (settings : List Nat) (addr : Nat),
      procHcnCreateNetwork.findAddr env = Except.ok addr →
      int32lt0 (env.call addr [Arg.ptrGuid id, Arg.ptrStr settings, Arg.outHandle, Arg.outStr]).r0 = true →
      (_hcnCreateNetwork env id settings).hr = some (specNegativeError (env.call addr [Arg.ptrGuid id, Arg.ptrStr settings, Arg.outHandle, Arg.outStr]).r0)) ∧
    (∀ (env : NativeEnv) (id : Guid) (settings : List Nat) (addr : Nat),
      procHcnCreateSdnRoute.findAddr env = Except.ok addr →
      int32lt0 (env.call addr [Arg.ptrGuid id, Arg.ptrStr settings, Arg.outHandle, Arg.outStr]).r0 = true →
      (_hcnCreateRoute env id settings).hr = some (specNegativeError (env.call addr [Arg.ptrGuid id, Arg.ptrStr settings, Arg.outHandle, Arg.outStr]).r0)) ∧
    (∀ (env : NativeEnv) (id : Guid) (addr : Nat),
      procHcnDeleteEndpoint.findAddr env = Except.ok addr →
      int32lt0 (env.call addr [Arg.ptrGuid id, Arg.outStr]).r0 = true →
      (hcnDeleteEndpoint env id).hr = some (specNegativeError (env.call addr [Arg.ptrGuid id, Arg.outStr]).r0)) ∧
    (∀ (env : NativeEnv) (id : Guid) (addr : Nat),
      procHcnDeleteLoadBalancer.findAddr env = Except.ok addr →
      int32lt0 (env.call addr [Arg.ptrGuid id, Arg.outStr]).r0 = true →
      (hcnDeleteLoadBalancer env id).hr = some (specNegativeError (env.call addr [Arg.ptrGuid id, Arg.outStr]).r0)) ∧
    (∀ (env : NativeEnv) (id : Guid) (addr : Nat),
      procHcnDeleteNamespace.findAddr env = Except.ok addr →
      int32lt0 (env.call addr [Arg.ptrGuid id, Arg.outStr]).r0 = true →
      (hcnDeleteNamespace env id).hr = some (specNegativeError (env.call addr [Arg.ptrGuid id, Arg.outStr]).r0)) ∧
    (∀ (env : NativeEnv) (id : Guid) (addr : Nat),
      procHcnDeleteNetwork.findAddr env = Except.ok addr →
      int32lt0 (env.call addr [Arg.ptrGuid id, Arg.outStr]).r0 = true →
      (hcnDeleteNetwork env id).hr = some (specNegativeError (env.call addr [Arg.ptrGuid id, Arg.outStr]).r0)) ∧
    (∀ (env : NativeEnv) (id : Guid) (addr : Nat),
      procHcnDeleteSdnRoute.findAddr env = Except.ok addr →
      int32lt0 (env.call addr [Arg.ptrGuid id, Arg.outStr]).r0 = true →
      (hcnDeleteRoute env id).hr = some (specNegativeError (env.call addr [Arg.ptrGuid id, Arg.outStr]).r0)) ∧
    (∀ (env : NativeEnv) (query : List Nat) (addr : Nat),
      procHcnEnumerateEndpoints.findAddr env = Except.ok addr →
      int32lt0 (env.call addr [Arg.ptrStr query, Arg.outStr, Arg.outStr]).r0 = true →
      (_hcnEnumerateEndpoints env query).hr = some (specNegativeError (env.call addr [Arg.ptrStr query, Arg.outStr, Arg.outStr]).r0)) ∧
    (∀ (env : NativeEnv) (query : List Nat) (addr : Nat),
      procHcnEnumerateLoadBalancers.findAddr env = Except.ok addr →
      int32lt0 (env.call addr [Arg.ptrStr query, Arg.outStr, Arg.outStr]).r0 = true →
      (_hcnEnumerateLoadBalancers env query).hr = some (specNegativeError (env.call addr [Arg.ptrStr query, Arg.outStr, Arg.outStr]).r0)) ∧
    (∀ (env : NativeEnv) (query : List Nat) (addr : Nat),
      procHcnEnumerateNamespaces.findAddr env = Except.ok addr →
      int32lt0 (env.call addr [Arg.ptrStr query, Arg.outStr, Arg.outStr]).r0 = true →
      (_hcnEnumerateNamespaces env query).hr = some (specNegativeError (env.call addr [Arg.ptrStr query, Arg.outStr, Arg.outStr]).r0)) ∧
    (∀ (env : NativeEnv) (query : List Nat) (addr : Nat),
      procHcnEnumerateNetworks.findAddr env = Except.ok addr →
      int32lt0 (env.call addr [Arg.ptrStr query, Arg.outStr, Arg.outStr]).r0 = true →
      (_hcnEnumerateNetworks env query).hr = some (specNegativeError (env.call addr [Arg.ptrStr query, Arg.outStr, Arg.outStr]).r0)) ∧
    (∀ (env : NativeEnv) (query : List Nat) (addr : Nat),
      procHcnEnumerateSdnRoutes.findAddr env = Except.ok addr →
      int32lt0 (env.call addr [Arg.ptrStr query, Arg.outStr, Arg.outStr]).r0 = true →
      (_hcnEnumerateRoutes env query).hr = some (specNegativeError (env.call addr [Arg.ptrStr query, Arg.outStr, Arg.outStr]).r0)) ∧
    (∀ (env : NativeEnv) (endpoint : hcnEndpoint) (settings : List Nat) (addr : Nat),
      procHcnModifyEndpoint.findAddr env = Except.ok addr →
      int32lt0 (env.call addr [Arg.num endpoint, Arg.ptrStr settings, Arg.outStr]).r0 = true →
      (_hcnModifyEndpoint env endpoint settings).hr = some (specNegativeError (env.call addr [Arg.num endpoint, Arg.ptrStr settings, Arg.outStr]).r0)) ∧
    (∀ (env : NativeEnv) (loadBalancer : hcnLoadBalancer) (settings : List Nat) (addr : Nat),
      procHcnModifyLoadBalancer.findAddr env = Except.ok addr →
      int32lt0 (env.call addr [Arg.num loadBalancer, Arg.ptrStr settings, Arg.outStr]).r0 = true →
      (_hcnModifyLoadBalancer env loadBalancer settings).hr = some (specNegativeError (env.call addr [Arg.num loadBalancer, Arg.ptrStr settings, Arg.outStr]).r0)) ∧
    (∀ (env : NativeEnv) (namespaceH : hcnNamespace) (settings : List Nat) (addr : Nat),
      procHcnModifyNamespace.findAddr env = Except.ok addr →
      int32lt0 (env.call addr [Arg.num namespaceH, Arg.ptrStr settings, Arg.outStr]).r0 = true →
      (_hcnModifyNamespace env namespaceH settings).hr = some (specNegativeError (env.call addr [Arg.num namespaceH, Arg.ptrStr settings, Arg.outStr]).r0)) ∧
    (∀ (env : NativeEnv) (network : hcnNetwork) (settings : List Nat) (addr : Nat),
      procHcnModifyNetwork.findAddr env = Except.ok addr →
      int32lt0 (env.call addr [Arg.num network, Arg.ptrStr settings, Arg.outStr]).r0 = true →
      (_hcnModifyNetwork env network settings).hr = some (specNegativeError (env.call addr [Arg.num network, Arg.ptrStr settings, Arg.outStr]).r0)) ∧
    (∀ (env : NativeEnv) (route : hcnRoute) (settings : List Nat) (addr : Nat),
      procHcnModifySdnRoute.findAddr env = Except.ok addr →
      int32lt0 (env.call addr [Arg.num route, Arg.ptrStr settings, Arg.outStr]).r0 = true →
      (_hcnModifyRoute env route settings).hr = some (specNegativeError (env.call addr [Arg.num route, Arg.ptrStr settings, Arg.outStr]).r0)) ∧
    (∀ (env : NativeEnv) (id : Guid) (addr : Nat),
      procHcnOpenEndpoint.findAddr env = Except.ok addr →
      int32lt0 (env.call addr [Arg.ptrGuid id, Arg.outHandle, Arg.outStr]).r0 = true →
      (hcnOpenEndpoint env id).hr = some (specNegativeError (env.call addr [Arg.ptrGuid id, Arg.outHandle, Arg.outStr]).r0)) ∧
    (∀ (env : NativeEnv) (id : Guid) (addr : Nat),
      procHcnOpenLoadBalancer.findAddr env = Except.ok addr →
      int32lt0 (env.call addr [Arg.ptrGuid id, Arg.outHandle, Arg.outStr]).r0 = true →
      (hcnOpenLoadBalancer env id).hr = some (specNegativeError (env.call addr [Arg.ptrGuid id, Arg.outHandle, Arg.outStr]).r0)) ∧
    (∀ (env : NativeEnv) (id : Guid) (addr : Nat),
      procHcnOpenNamespace.findAddr env = Except.ok addr →
      int32lt0 (env.call addr [Arg.ptrGuid id, Arg.outHandle, Arg.outStr]).r0 = true →
      (hcnOpenNamespace env id).hr = some (specNegativeError (env.call addr [Arg.ptrGuid id, Arg.outHandle, Arg.outStr]).r0)) ∧
    (∀ (env : NativeEnv) (id : Guid) (addr : Nat),
      procHcnOpenNetwork.findAddr env = Except.ok addr →
      int32lt0 (env.call addr [Arg.ptrGuid id, Arg.outHandle, Arg.outStr]).r0 = true →
      (hcnOpenNetwork env id).hr = some (specNegativeError (env.call addr [Arg.ptrGuid id, Arg.outHandle, Arg.outStr]).r0)) ∧
    (∀ (env : NativeEnv) (id : Guid) (addr : Nat),
      procHcnOpenSdnRoute.findAddr env = Except.ok addr →
      int32lt0 (env.call addr [Arg.ptrGuid id, Arg.outHandle, Arg.outStr]).r0 = true →
      (hcnOpenRoute env id).hr = some (specNegativeError (env.call addr [Arg.ptrGuid id, Arg.outHandle, Arg.outStr]).r0)) ∧
    (∀ (env : NativeEnv) (endpoint : hcnEndpoint) (query : List Nat) (addr : Nat),
      procHcnQueryEndpointProperties.findAddr env = Except.ok addr →
      int32lt0 (env.call addr [Arg.num endpoint, Arg.ptrStr query, Arg.outStr, Arg.outStr]).r0 = true →
      (_hcnQueryEndpointProperties env endpoint query).hr = some (specNegativeError (env.call addr [Arg.num endpoint, Arg.ptrStr query, Arg.outStr, Arg.outStr]).r0)) ∧
    (∀ (env : NativeEnv) (loadBalancer : hcnLoadBalancer) (query : List Nat) (addr : Nat),
      procHcnQueryLoadBalancerProperties.findAddr env = Except.ok addr →
      int32lt0 (env.call addr [Arg.num loadBalancer, Arg.ptrStr query, Arg.outStr, Arg.outStr]).r0 = true →
      (_hcnQueryLoadBalancerProperties env loadBalancer query).hr = some (specNegativeError (env.call addr [Arg.num loadBalancer, Arg.ptrStr query, Arg.outStr, Arg.outStr]).r0)) ∧
    (∀ (env : NativeEnv) (namespaceH : hcnNamespace) (query : List Nat) (addr : Nat),
      procHcnQueryNamespaceProperties.findAddr env = Except.ok addr →
      int32lt0 (env.call addr [Arg.num namespaceH, Arg.ptrStr query, Arg.outStr, Arg.outStr]).r0 = true →
      (_hcnQueryNamespaceProperties env namespaceH query).hr = some (specNegativeError (env.call addr [Arg.num namespaceH, Arg.ptrStr query, Arg.outStr, Arg.outStr]).r0)) ∧
    (∀ (env : NativeEnv) (network : hcnNetwork) (query : List Nat) (addr : Nat),
      procHcnQueryNetworkProperties.findAddr env = Except.ok addr →
      int32lt0 (env.call addr [Arg.num network, Arg.ptrStr query, Arg.outStr, Arg.outStr]).r0 = true →
      (_hcnQueryNetworkProperties env network query).hr = some (specNegativeError (env.call addr [Arg.num network, Arg.ptrStr query, Arg.outStr, Arg.outStr]).r0)) ∧
    (∀ (env : NativeEnv) (route : hcnRoute) (query : List Nat) (addr : Nat),
      procHcnQuerySdnRouteProperties.findAddr env = Except.ok addr →
      int32lt0 (env.call addr [Arg.num route, Arg.ptrStr query, Arg.outStr, Arg.outStr]).r0 = true →
      (_hcnQueryRouteProperties env route query).hr = some (specNegativeError (env.call addr [Arg.num route, Arg.ptrStr query, Arg.outStr, Arg.outStr]).r0)) ∧
    (∀ (env : NativeEnv) (method : List Nat) (path : List Nat) (object : List Nat) (addr : Nat),
      procHNSCall.findAddr env = Except.ok addr →
      int32lt0 (env.call addr [Arg.ptrStr method, Arg.ptrStr path, Arg.ptrStr object, Arg.outStr]).r0 = true →
      (__hnsCall env method path object).hr = some (specNegativeError (env.call addr [Arg.ptrStr method, Arg.ptrStr path, Arg.ptrStr object, Arg.outStr]).r0)) ∧
    (∀ (env : NativeEnv) (compartmentId : Nat) (addr : Nat),
      procSetCurrentThreadCompartmentId.addrP env = some addr →
      int32lt0 (env.call addr [Arg.num compartmentId]).r0 = true →
      (SetCurrentThreadCompartmentId env compartmentId).map (fun r => r.hr) =
        some (some (specNegativeError (env.call addr [Arg.num compartmentId]).r0))) :=
  ⟨(by
    intro env endpoint addr hf hneg
    rw [hcnCloseEndpoint_ok env endpoint addr hf]
    simp only [hrDecode, hneg, if_true, specNegativeError]),
   (by
    intro env loadBalancer addr hf hneg
    rw [hcnCloseLoadBalancer_ok env loadBalancer addr hf]
    simp only [hrDecode, hneg, if_true, specNegativeError]),
   (by
    intro env namespaceH addr hf hneg
    rw [hcnCloseNamespace_ok env namespaceH addr hf]
    simp only [hrDecode, hneg, if_true, specNegativeError]),
   (by
    intro env network addr hf hneg
    rw [hcnCloseNetwork_ok env network addr hf]
    simp only [hrDecode, hneg, if_true, specNegativeError]),
   (by
    intro env route addr hf hneg
    rw [hcnCloseRoute_ok env route addr hf]
    simp only [hrDecode, hneg, if_true, specNegativeError]),
   (by
    intro env network id settings addr hf hneg
    rw [_hcnCreateEndpoint_ok env network id settings addr hf]
    simp only [hrDecode, hneg, if_true, specNegativeError]),
   (by
    intro env id settings addr hf hneg
    rw [_hcnCreateLoadBalancer_ok env id settings addr hf]
    simp only [hrDecode, hneg, if_true, specNegativeError]),
   (by
    intro env id settings addr hf hneg
    rw [_hcnCreateNamespace_ok env id settings addr hf]
    simp only [hrDecode, hneg, if_true, specNegativeError]),
   (by
    intro env id settings addr hf hneg
    rw [_hcnCreateNetwork_ok env id settings addr hf]
    simp only [hrDecode, hneg, if_true, specNegativeError]),
   (by
    intro env id settings addr hf hneg
    rw [_hcnCreateRoute_ok env id settings addr hf]
    simp only [hrDecode, hneg, if_true, specNegativeError]),
   (by
    intro env id addr hf hneg
    rw [hcnDeleteEndpoint_ok env id addr hf]
    simp only [hrDecode, hneg, if_true, specNegativeError]),
   (by
    intro env id addr hf hneg
    rw [hcnDeleteLoadBalancer_ok env id addr hf]
    simp only [hrDecode, hneg, if_true, specNegativeError]),
   (by
    intro env id addr hf hneg
    rw [hcnDeleteNamespace_ok env id addr hf]
    simp only [hrDecode, hneg, if_true, specNegativeError]),
   (by
    intro env id addr hf hneg
    rw [hcnDeleteNetwork_ok env id addr hf]
    simp only [hrDecode, hneg, if_true, specNegativeError]),
   (by
    intro env id addr hf hneg
    rw [hcnDeleteRoute_ok env id addr hf]
    simp only [hrDecode, hneg, if_true, specNegativeError]),
   (by
    intro env query addr hf hneg
    rw [_hcnEnumerateEndpoints_ok env query addr hf]
    simp only [hrDecode, hneg, if_true, specNegativeError]),
   (by
    intro env query addr hf hneg
    rw [_hcnEnumerateLoadBalancers_ok env query addr hf]
    simp only [hrDecode, hneg, if_true, specNegativeError]),
   (by
    intro env query addr hf hneg
    rw [_hcnEnumerateNamespaces_ok env query addr hf]
    simp only [hrDecode, hneg, if_true, specNegativeError]),
   (by
    intro env query addr hf hneg
    rw [_hcnEnumerateNetworks_ok env query addr hf]
    simp only [hrDecode, hneg, if_true, specNegativeError]),
   (by
    intro env query addr hf hneg
    rw [_hcnEnumerateRoutes_ok env query addr hf]
    simp only [hrDecode, hneg, if_true, specNegativeError]),
   (by
    intro env endpoint settings addr hf hneg
    rw [_hcnModifyEndpoint_ok env endpoint settings addr hf]
    simp only [hrDecode, hneg, if_true, specNegativeError]),
   (by
    intro env loadBalancer settings addr hf hneg
    rw [_hcnModifyLoadBalancer_ok env loadBalancer settings addr hf]
    simp only [hrDecode, hneg, if_true, specNegativeError]),
   (by
    intro env namespaceH settings addr hf hneg
    rw [_hcnModifyNamespace_ok env namespaceH settings addr hf]
    simp only [hrDecode, hneg, if_true, specNegativeError]),
   (by
    intro env network settings addr hf hneg
    rw [_hcnModifyNetwork_ok env network settings addr hf]
    simp only [hrDecode, hneg, if_true, specNegativeError]),
   (by
    intro env route settings addr hf hneg
    rw [_hcnModifyRoute_ok env route settings addr hf]
    simp only [hrDecode, hneg, if_true, specNegativeError]),
   (by
    intro env id addr hf hneg
    rw [hcnOpenEndpoint_ok env id addr hf]
    simp only [hrDecode, hneg, if_true, specNegativeError]),
   (by
    intro env id addr hf hneg
    rw [hcnOpenLoadBalancer_ok env id addr hf]
    simp only [hrDecode, hneg, if_true, specNegativeError]),
   (by
    intro env id addr hf hneg
    rw [hcnOpenNamespace_ok env id addr hf]
    simp only [hrDecode, hneg, if_true, specNegativeError]),
   (by
    intro env id addr hf hneg
    rw [hcnOpenNetwork_ok env id addr hf]
    simp only [hrDecode, hneg, if_true, specNegativeError]),
   (by
    intro env id addr hf hneg
    rw [hcnOpenRoute_ok env id addr hf]
    simp only [hrDecode, hneg, if_true, specNegativeError]),
   (by
    intro env endpoint query addr hf hneg
    rw [_hcnQueryEndpointProperties_ok env endpoint query addr hf]
    simp only [hrDecode, hneg, if_true, specNegativeError]),
   (by
    intro env loadBalancer query addr hf hneg
    rw [_hcnQueryLoadBalancerProperties_ok env loadBalancer query addr hf]
    simp only [hrDecode, hneg, if_true, specNegativeError]),
   (by
    intro env namespaceH query addr hf hneg
    rw [_hcnQueryNamespaceProperties_ok env namespaceH query addr hf]
    simp only [hrDecode, hneg, if_true, specNegativeError]),
   (by
    intro env network query addr hf hneg
    rw [_hcnQueryNetworkProperties_ok env network query addr hf]
    simp only [hrDecode, hneg, if_true, specNegativeError]),
   (by
    intro env route query addr hf hneg
    rw [_hcnQueryRouteProperties_ok env route query addr hf]
    simp only [hrDecode, hneg, if_true, specNegativeError]),
   (by
    intro env method path object addr hf hneg
    rw [__hnsCall_ok env method path object addr hf]
    simp only [hrDecode, hneg, if_true, specNegativeError]),
   (by
    intro env compartmentId addr hf hneg
    rw [SetCurrentThreadCompartmentId_ok env compartmentId addr hf]
    simp only [Option.map_some', hrDecode, hneg, if_true, specNegativeError])⟩

/-- C3: for every wrapper operation and every native return whose int32
interpretation is zero or positive, the wrapper reports success (nil error),
and the full native outcome — including any populated diagnostic/result
out-pointer payload — is still surfaced to the caller. -/
theorem nonnegStatus_success_all_wrappers :
    (∀ (env : NativeEnv) (endpoint : hcnEndpoint) (addr : Nat),
      procHcnCloseEndpoint.findAddr env = Except.ok addr →
      int32lt0 (env.call addr [Arg.num endpoint]).r0 = false →
      (hcnCloseEndpoint env endpoint).hr = none ∧
      (hcnCloseEndpoint env endpoint).native = some (env.call addr [Arg.num endpoint])) ∧
    (∀ (env : NativeEnv) (loadBalancer : hcnLoadBalancer) (addr : Nat),
      procHcnCloseLoadBalancer.findAddr env = Except.ok addr →
      int32lt0 (env.call addr [Arg.num loadBalancer]).r0 = false →
      (hcnCloseLoadBalancer env loadBalancer).hr = none ∧
      (hcnCloseLoadBalancer env loadBalancer).native = some (env.call addr [Arg.num loadBalancer])) ∧
    (∀ (env : NativeEnv) (namespaceH : hcnNamespace) (addr : Nat),
      procHcnCloseNamespace.findAddr env = Except.ok addr →
      int32lt0 (env.call addr [Arg.num namespaceH]).r0 = false →
      (hcnCloseNamespace env namespaceH).hr = none ∧
      (hcnCloseNamespace env namespaceH).native = some (env.call addr [Arg.num namespaceH])) ∧
    (∀ (env : NativeEnv) (network : hcnNetwork) (addr : Nat),
      procHcnCloseNetwork.findAddr env = Except.ok addr →
      int32lt0 (env.call addr [Arg.num network]).r0 = false →
      (hcnCloseNetwork env network).hr = none ∧
      (hcnCloseNetwork env network).native = some (env.call addr [Arg.num network])) ∧
    (∀ (env : NativeEnv) (route : hcnRoute) (addr : Nat),
      procHcnCloseSdnRoute.findAddr env = Except.ok addr →
      int32lt0 (env.call addr [Arg.num route]).r0 = false →
      (hcnCloseRoute env route).hr = none ∧
      (hcnCloseRoute env route).native = some (env.call addr [Arg.num route])) ∧
    (∀ (env : NativeEnv) (network : hcnNetwork) (id : Guid) (settings : List Nat) (addr : Nat),
      procHcnCreateEndpoint.findAddr env = Except.ok addr →
      int32lt0 (env.call addr [Arg.num network, Arg.ptrGuid id, Arg.ptrStr settings, Arg.outHandle, Arg.outStr]).r0 = false →
      (_hcnCreateEndpoint env network id settings).hr = none ∧
      (_hcnCreateEndpoint env network id settings).native = some (env.call addr [Arg.num network, Arg.ptrGuid id, Arg.ptrStr settings, Arg.outHandle, Arg.outStr])) ∧
    (∀ (env : NativeEnv) (id : Guid) (settings : List Nat) (addr : Nat),
      procHcnCreateLoadBalancer.findAddr env = Except.ok addr →
      int32lt0 (env.call addr [Arg.ptrGuid id, Arg.ptrStr settings, Arg.outHandle, Arg.outStr]).r0 = false →
      (_hcnCreateLoadBalancer env id settings).hr = none ∧
      (_hcnCreateLoadBalancer env id settings).native = some (env.call addr [Arg.ptrGuid id, Arg.ptrStr settings, Arg.outHandle, Arg.outStr])) ∧
    (∀ (env : NativeEnv) (id : Guid) (settings : List Nat) (addr : Nat),
      procHcnCreateNamespace.findAddr env = Except.ok addr →
      int32lt0 (env.call addr [Arg.ptrGuid id, Arg.ptrStr settings, Arg.outHandle, Arg.outStr]).r0 = false →
      (_hcnCreateNamespace env id settings).hr = none ∧
      (_hcnCreateNamespace env id settings).native = some (env.call addr [Arg.ptrGuid id, Arg.ptrStr settings, Arg.outHandle, Arg.outStr])) ∧
    (∀ (env : NativeEnv) (id : Guid) (settings : List Nat) (addr : Nat),
      procHcnCreateNetwork.findAddr env = Except.ok addr →
      int32lt0 (env.call addr [Arg.ptrGuid id, Arg.ptrStr settings, Arg.outHandle, Arg.outStr]).r0 = false →
      (_hcnCreateNetwork env id settings).hr = none ∧
      (_hcnCreateNetwork env id settings).native = some (env.call addr [Arg.ptrGuid id, Arg.ptrStr settings, Arg.outHandle, Arg.outStr])) ∧
    (∀ (env : NativeEnv) (id : Guid) (settings : List Nat) (addr : Nat),
      procHcnCreateSdnRoute.findAddr env = Except.ok addr →
      int32lt0 (env.call addr [Arg.ptrGuid id, Arg.ptrStr settings, Arg.outHandle, Arg.outStr]).r0 = false →
      (_hcnCreateRoute env id settings).hr = none ∧
      (_hcnCreateRoute env id settings).native = some (env.call addr [Arg.ptrGuid id, Arg.ptrStr settings, Arg.outHandle, Arg.outStr])) ∧
    (∀ (env : NativeEnv) (id : Guid) (addr : Nat),
      procHcnDeleteEndpoint.findAddr env = Except.ok addr →
      int32lt0 (env.call addr [Arg.ptrGuid id, Arg.outStr]).r0 = false →
      (hcnDeleteEndpoint env id).hr = none ∧
      (hcnDeleteEndpoint env id).native = some (env.call addr [Arg.ptrGuid id, Arg.outStr])) ∧
    (∀ (env : NativeEnv) (id : Guid) (addr : Nat),
      procHcnDeleteLoadBalancer.findAddr env = Except.ok addr →
      int32lt0 (env.call addr [Arg.ptrGuid id, Arg.outStr]).r0 = false →
      (hcnDeleteLoadBalancer env id).hr = none ∧
      (hcnDeleteLoadBalancer env id).native = some (env.call addr [Arg.ptrGuid id, Arg.outStr])) ∧
    (∀ (env : NativeEnv) (id : Guid) (addr : Nat),
      procHcnDeleteNamespace.findAddr env = Except.ok addr →
      int32lt0 (env.call addr [Arg.ptrGuid id, Arg.outStr]).r0 = false →
      (hcnDeleteNamespace env id).hr = none ∧
      (hcnDeleteNamespace env id).native = some (env.call addr [Arg.ptrGuid id, Arg.outStr])) ∧
    (∀ (env : NativeEnv) (id : Guid) (addr : Nat),
      procHcnDeleteNetwork.findAddr env = Except.ok addr →
      int32lt0 (env.call addr [Arg.ptrGuid id, Arg.outStr]).r0 = false →
      (hcnDeleteNetwork env id).hr = none ∧
      (hcnDeleteNetwork env id).native = some (env.call addr [Arg.ptrGuid id, Arg.outStr])) ∧
    (∀ (env : NativeEnv) (id : Guid) (addr : Nat),
      procHcnDeleteSdnRoute.findAddr env = Except.ok addr →
      int32lt0 (env.call addr [Arg.ptrGuid id, Arg.outStr]).r0 = false →
      (hcnDeleteRoute env id).hr = none ∧
      (hcnDeleteRoute env id).native = some (env.call addr [Arg.ptrGuid id, Arg.outStr])) ∧
    (∀ (env : NativeEnv) (query : List Nat) (addr : Nat),
      procHcnEnumerateEndpoints.findAddr env = Except.ok addr →
      int32lt0 (env.call addr [Arg.ptrStr query, Arg.outStr, Arg.outStr]).r0 = false →
      (_hcnEnumerateEndpoints env query).hr = none ∧
      (_hcnEnumerateEndpoints env query).native = some (env.call addr [Arg.ptrStr query, Arg.outStr, Arg.outStr])) ∧
    (∀ (env : NativeEnv) (query : List Nat) (addr : Nat),
      procHcnEnumerateLoadBalancers.findAddr env = Except.ok addr →
      int32lt0 (env.call addr [Arg.ptrStr query, Arg.outStr, Arg.outStr]).r0 = false →
      (_hcnEnumerateLoadBalancers env query).hr = none ∧
      (_hcnEnumerateLoadBalancers env query).native = some (env.call addr [Arg.ptrStr query, Arg.outStr, Arg.outStr])) ∧
    (∀ (env : NativeEnv) (query : List Nat) (addr : Nat),
      procHcnEnumerateNamespaces.findAddr env = Except.ok addr →
      int32lt0 (env.call addr [Arg.ptrStr query, Arg.outStr, Arg.outStr]).r0 = false →
      (_hcnEnumerateNamespaces env query).hr = none ∧
      (_hcnEnumerateNamespaces env query).native = some (env.call addr [Arg.ptrStr query, Arg.outStr, Arg.outStr])) ∧
    (∀ (env : NativeEnv) (query : List Nat) (addr : Nat),
      procHcnEnumerateNetworks.findAddr env = Except.ok addr →
      int32lt0 (env.call addr [Arg.ptrStr query, Arg.outStr, Arg.outStr]).r0 = false →
      (_hcnEnumerateNetworks env query).hr = none ∧
      (_hcnEnumerateNetworks env query).native = some (env.call addr [Arg.ptrStr query, Arg.outStr, Arg.outStr])) ∧
    (∀ (env : NativeEnv) (query : List Nat) (addr : Nat),
      procHcnEnumerateSdnRoutes.findAddr env = Except.ok addr →
      int32lt0 (env.call addr [Arg.ptrStr query, Arg.outStr, Arg.outStr]).r0 = false →
      (_hcnEnumerateRoutes env query).hr = none ∧
      (_hcnEnumerateRoutes env query).native = some (env.call addr [Arg.ptrStr query, Arg.outStr, Arg.outStr])) ∧
    (∀ (env : NativeEnv) (endpoint : hcnEndpoint) (settings : List Nat) (addr : Nat),
      procHcnModifyEndpoint.findAddr env = Except.ok addr →
      int32lt0 (env.call addr [Arg.num endpoint, Arg.ptrStr settings, Arg.outStr]).r0 = false →
      (_hcnModifyEndpoint env endpoint settings).hr = none ∧
      (_hcnModifyEndpoint env endpoint settings).native = some (env.call addr [Arg.num endpoint, Arg.ptrStr settings, Arg.outStr])) ∧
    (∀ (env : NativeEnv) (loadBalancer : hcnLoadBalancer) (settings : List Nat) (addr : Nat),
      procHcnModifyLoadBalancer.findAddr env = Except.ok addr →
      int32lt0 (env.call addr [Arg.num loadBalancer, Arg.ptrStr settings, Arg.outStr]).r0 = false →
      (_hcnModifyLoadBalancer env loadBalancer settings).hr = none ∧
      (_hcnModifyLoadBalancer env loadBalancer settings).native = some (env.call addr [Arg.num loadBalancer, Arg.ptrStr settings, Arg.outStr])) ∧
    (∀ (env : NativeEnv) (namespaceH : hcnNamespace) (settings : List Nat) (addr : Nat),
      procHcnModifyNamespace.findAddr env = Except.ok addr →
      int32lt0 (env.call addr [Arg.num namespaceH, Arg.ptrStr settings, Arg.outStr]).r0 = false →
      (_hcnModifyNamespace env namespaceH settings).hr = none ∧
      (_hcnModifyNamespace env namespaceH settings).native = some (env.call addr [Arg.num namespaceH, Arg.ptrStr settings, Arg.outStr])) ∧
    (∀ (env : NativeEnv) (network : hcnNetwork) (settings : List Nat) (addr : Nat),
      procHcnModifyNetwork.findAddr env = Except.ok addr →
      int32lt0 (env.call addr [Arg.num network, Arg.ptrStr settings, Arg.outStr]).r0 = false →
      (_hcnModifyNetwork env network settings).hr = none ∧
      (_hcnModifyNetwork env network settings).native = some (env.call addr [Arg.num network, Arg.ptrStr settings, Arg.outStr])) ∧
    (∀ (env : NativeEnv) (route : hcnRoute) (settings : List Nat) (addr : Nat),
      procHcnModifySdnRoute.findAddr env = Except.ok addr →
      int32lt0 (env.call addr [Arg.num route, Arg.ptrStr settings, Arg.outStr]).r0 = false →
      (_hcnModifyRoute env route settings).hr = none ∧
      (_hcnModifyRoute env route settings).native = some (env.call addr [Arg.num route, Arg.ptrStr settings, Arg.outStr])) ∧
    (∀ (env : NativeEnv) (id : Guid) (addr : Nat),
      procHcnOpenEndpoint.findAddr env = Except.ok addr →
      int32lt0 (env.call addr [Arg.ptrGuid id, Arg.outHandle, Arg.outStr]).r0 = false →
      (hcnOpenEndpoint env id).hr = none ∧
      (hcnOpenEndpoint env id).native = some (env.call addr [Arg.ptrGuid id, Arg.outHandle, Arg.outStr])) ∧
    (∀ (env : NativeEnv) (id : Guid) (addr : Nat),
      procHcnOpenLoadBalancer.findAddr env = Except.ok addr →
      int32lt0 (env.call addr [Arg.ptrGuid id, Arg.outHandle, Arg.outStr]).r0 = false →
      (hcnOpenLoadBalancer env id).hr = none ∧
      (hcnOpenLoadBalancer env id).native = some (env.call addr [Arg.ptrGuid id, Arg.outHandle, Arg.outStr])) ∧
    (∀ (env : NativeEnv) (id : Guid) (addr : Nat),
      procHcnOpenNamespace.findAddr env = Except.ok addr →
      int32lt0 (env.call addr [Arg.ptrGuid id, Arg.outHandle, Arg.outStr]).r0 = false →
      (hcnOpenNamespace env id).hr = none ∧
      (hcnOpenNamespace env id).native = some (env.call addr [Arg.ptrGuid id, Arg.outHandle, Arg.outStr])) ∧
    (∀ (env : NativeEnv) (id : Guid) (addr : Nat),
      procHcnOpenNetwork.findAddr env = Except.ok addr →
      int32lt0 (env.call addr [Arg.ptrGuid id, Arg.outHandle, Arg.outStr]).r0 = false →
      (hcnOpenNetwork env id).hr = none ∧
      (hcnOpenNetwork env id).native = some (env.call addr [Arg.ptrGuid id, Arg.outHandle, Arg.outStr])) ∧
    (∀ (env : NativeEnv) (id : Guid) (addr : Nat),
      procHcnOpenSdnRoute.findAddr env = Except.ok addr →
      int32lt0 (env.call addr [Arg.ptrGuid id, Arg.outHandle, Arg.outStr]).r0 = false →
      (hcnOpenRoute env id).hr = none ∧
      (hcnOpenRoute env id).native = some (env.call addr [Arg.ptrGuid id, Arg.outHandle, Arg.outStr])) ∧
    (∀ (env : NativeEnv) (endpoint : hcnEndpoint) (query : List Nat) (addr : Nat),
      procHcnQueryEndpointProperties.findAddr env = Except.ok addr →
      int32lt0 (env.call addr [Arg.num endpoint, Arg.ptrStr query, Arg.outStr, Arg.outStr]).r0 = false →
      (_hcnQueryEndpointProperties env endpoint query).hr = none ∧
      (_hcnQueryEndpointProperties env endpoint query).native = some (env.call addr [Arg.num endpoint, Arg.ptrStr query, Arg.outStr, Arg.outStr])) ∧
    (∀ (env : NativeEnv) (loadBalancer : hcnLoadBalancer) (query : List Nat) (addr : Nat),
      procHcnQueryLoadBalancerProperties.findAddr env = Except.ok addr →
      int32lt0 (env.call addr [Arg.num loadBalancer, Arg.ptrStr query, Arg.outStr, Arg.outStr]).r0 = false →
      (_hcnQueryLoadBalancerProperties env loadBalancer query).hr = none ∧
      (_hcnQueryLoadBalancerProperties env loadBalancer query).native = some (env.call addr [Arg.num loadBalancer, Arg.ptrStr query, Arg.outStr, Arg.outStr])) ∧
    (∀ (env : NativeEnv) (namespaceH : hcnNamespace) (query : List Nat) (addr : Nat),
      procHcnQueryNamespaceProperties.findAddr env = Except.ok addr →
      int32lt0 (env.call addr [Arg.num namespaceH, Arg.ptrStr query, Arg.outStr, Arg.outStr]).r0 = false →
      (_hcnQueryNamespaceProperties env namespaceH query).hr = none ∧
      (_hcnQueryNamespaceProperties env namespaceH query).native = some (env.call addr [Arg.num namespaceH, Arg.ptrStr query, Arg.outStr, Arg.outStr])) ∧
    (∀ (env : NativeEnv) (network : hcnNetwork) (query : List Nat) (addr : Nat),
      procHcnQueryNetworkProperties.findAddr env = Except.ok addr →
      int32lt0 (env.call addr [Arg.num network, Arg.ptrStr query, Arg.outStr, Arg.outStr]).r0 = false →
      (_hcnQueryNetworkProperties env network query).hr = none ∧
      (_hcnQueryNetworkProperties env network query).native = some (env.call addr [Arg.num network, Arg.ptrStr query, Arg.outStr, Arg.outStr])) ∧
    (∀ (env : NativeEnv) (route : hcnRoute) (query : List Nat) (addr : Nat),
      procHcnQuerySdnRouteProperties.findAddr env = Except.ok addr →
      int32lt0 (env.call addr [Arg.num route, Arg.ptrStr query, Arg.outStr, Arg.outStr]).r0 = false →
      (_hcnQueryRouteProperties env route query).hr = none ∧
      (_hcnQueryRouteProperties env route query).native = some (env.call addr [Arg.num route, Arg.ptrStr query, Arg.outStr, Arg.outStr])) ∧
    (∀ (env : NativeEnv) (method : List Nat) (path : List Nat) (object : List Nat) (addr : Nat),
      procHNSCall.findAddr env = Except.ok addr →
      int32lt0 (env.call addr [Arg.ptrStr method, Arg.ptrStr path, Arg.ptrStr object, Arg.outStr]).r0 = false →
      (__hnsCall env method path object).hr = none ∧
      (__hnsCall env method path object).native = some (env.call addr [Arg.ptrStr method, Arg.ptrStr path, Arg.ptrStr object, Arg.outStr])) ∧
    (∀ (env : NativeEnv) (compartmentId : Nat) (addr : Nat),
      procSetCurrentThreadCompartmentId.addrP env = some addr →
      int32lt0 (env.call addr [Arg.num compartmentId]).r0 = false →
      (SetCurrentThreadCompartmentId env compartmentId).map (fun r => r.hr) = some none ∧
      (SetCurrentThreadCompartmentId env compartmentId).map (fun r => r.native) =
        some (some (env.call addr [Arg.num compartmentId]))) :=
  ⟨(by
    intro env endpoint addr hf hneg
    rw [hcnCloseEndpoint_ok env endpoint addr hf]
    simp only [hrDecode, hneg, if_false, Bool.false_eq_true, and_self]),
   (by
    intro env loadBalancer addr hf hneg
    rw [hcnCloseLoadBalancer_ok env loadBalancer addr hf]
    simp only [hrDecode, hneg, if_false, Bool.false_eq_true, and_self]),
   (by
    intro env namespaceH addr hf hneg
    rw [hcnCloseNamespace_ok env namespaceH addr hf]
    simp only [hrDecode, hneg, if_false, Bool.false_eq_true, and_self]),
   (by
    intro env network addr hf hneg
    rw [hcnCloseNetwork_ok env network addr hf]
    simp only [hrDecode, hneg, if_false, Bool.false_eq_true, and_self]),
   (by
    intro env route addr hf hneg
    rw [hcnCloseRoute_ok env route addr hf]
    simp only [hrDecode, hneg, if_false, Bool.false_eq_true, and_self]),
   (by
    intro env network id settings addr hf hneg
    rw [_hcnCreateEndpoint_ok env network id settings addr hf]
    simp only [hrDecode, hneg, if_false, Bool.false_eq_true, and_self]),
   (by
    intro env id settings addr hf hneg
    rw [_hcnCreateLoadBalancer_ok env id settings addr hf]
    simp only [hrDecode, hneg, if_false, Bool.false_eq_true, and_self]),
   (by
    intro env id settings addr hf hneg
    rw [_hcnCreateNamespace_ok env id settings addr hf]
    simp only [hrDecode, hneg, if_false, Bool.false_eq_true, and_self]),
   (by
    intro env id settings addr hf hneg
    rw [_hcnCreateNetwork_ok env id settings addr hf]
    simp only [hrDecode, hneg, if_false, Bool.false_eq_true, and_self]),
   (by
    intro env id settings addr hf hneg
    rw [_hcnCreateRoute_ok env id settings addr hf]
    simp only [hrDecode, hneg, if_false, Bool.false_eq_true, and_self]),
   (by
    intro env id addr hf hneg
    rw [hcnDeleteEndpoint_ok env id addr hf]
    simp only [hrDecode, hneg, if_false, Bool.false_eq_true, and_self]),
   (by
    intro env id addr hf hneg
    rw [hcnDeleteLoadBalancer_ok env id addr hf]
    simp only [hrDecode, hneg, if_false, Bool.false_eq_true, and_self]),
   (by
    intro env id addr hf hneg
    rw [hcnDeleteNamespace_ok env id addr hf]
    simp only [hrDecode, hneg, if_false, Bool.false_eq_true, and_self]),
   (by
    intro env id addr hf hneg
    rw [hcnDeleteNetwork_ok env id addr hf]
    simp only [hrDecode, hneg, if_false, Bool.false_eq_true, and_self]),
   (by
    intro env id addr hf hneg
    rw [hcnDeleteRoute_ok env id addr hf]
    simp only [hrDecode, hneg, if_false, Bool.false_eq_true, and_self]),
   (by
    intro env query addr hf hneg
    rw [_hcnEnumerateEndpoints_ok env query addr hf]
    simp only [hrDecode, hneg, if_false, Bool.false_eq_true, and_self]),
   (by
    intro env query addr hf hneg
    rw [_hcnEnumerateLoadBalancers_ok env query addr hf]
    simp only [hrDecode, hneg, if_false, Bool.false_eq_true, and_self]),
   (by
    intro env query addr hf hneg
    rw [_hcnEnumerateNamespaces_ok env query addr hf]
    simp only [hrDecode, hneg, if_false, Bool.false_eq_true, and_self]),
   (by
    intro env query addr hf hneg
    rw [_hcnEnumerateNetworks_ok env query addr hf]
    simp only [hrDecode, hneg, if_false, Bool.false_eq_true, and_self]),
   (by
    intro env query addr hf hneg
    rw [_hcnEnumerateRoutes_ok env query addr hf]
    simp only [hrDecode, hneg, if_false, Bool.false_eq_true, and_self]),
   (by
    intro env endpoint settings addr hf hneg
    rw [_hcnModifyEndpoint_ok env endpoint settings addr hf]
    simp only [hrDecode, hneg, if_false, Bool.false_eq_true, and_self]),
   (by
    intro env loadBalancer settings addr hf hneg
    rw [_hcnModifyLoadBalancer_ok env loadBalancer settings addr hf]
    simp only [hrDecode, hneg, if_false, Bool.false_eq_true, and_self]),
   (by
    intro env namespaceH settings addr hf hneg
    rw [_hcnModifyNamespace_ok env namespaceH settings addr hf]
    simp only [hrDecode, hneg, if_false, Bool.false_eq_true, and_self]),
   (by
    intro env network settings addr hf hneg
    rw [_hcnModifyNetwork_ok env network settings addr hf]
    simp only [hrDecode, hneg, if_false, Bool.false_eq_true, and_self]),
   (by
    intro env route settings addr hf hneg
    rw [_hcnModifyRoute_ok env route settings addr hf]
    simp only [hrDecode, hneg, if_false, Bool.false_eq_true, and_self]),
   (by
    intro env id addr hf hneg
    rw [hcnOpenEndpoint_ok env id addr hf]
    simp only [hrDecode, hneg, if_false, Bool.false_eq_true, and_self]),
   (by
    intro env id addr hf hneg
    rw [hcnOpenLoadBalancer_ok env id addr hf]
    simp only [hrDecode, hneg, if_false, Bool.false_eq_true, and_self]),
   (by
    intro env id addr hf hneg
    rw [hcnOpenNamespace_ok env id addr hf]
    simp only [hrDecode, hneg, if_false, Bool.false_eq_true, and_self]),
   (by
    intro env id addr hf hneg
    rw [hcnOpenNetwork_ok env id addr hf]
    simp only [hrDecode, hneg, if_false, Bool.false_eq_true, and_self]),
   (by
    intro env id addr hf hneg
    rw [hcnOpenRoute_ok env id addr hf]
    simp only [hrDecode, hneg, if_false, Bool.false_eq_true, and_self]),
   (by
    intro env endpoint query addr hf hneg
    rw [_hcnQueryEndpointProperties_ok env endpoint query addr hf]
    simp only [hrDecode, hneg, if_false, Bool.false_eq_true, and_self]),
   (by
    intro env loadBalancer query addr hf hneg
    rw [_hcnQueryLoadBalancerProperties_ok env loadBalancer query addr hf]
    simp only [hrDecode, hneg, if_false, Bool.false_eq_true, and_self]),
   (by
    intro env namespaceH query addr hf hneg
    rw [_hcnQueryNamespaceProperties_ok env namespaceH query addr hf]
    simp only [hrDecode, hneg, if_false, Bool.false_eq_true, and_self]),
   (by
    intro env network query addr hf hneg
    rw [_hcnQueryNetworkProperties_ok env network query addr hf]
    simp only [hrDecode, hneg, if_false, Bool.false_eq_true, and_self]),
   (by
    intro env route query addr hf hneg
    rw [_hcnQueryRouteProperties_ok env route query addr hf]
    simp only [hrDecode, hneg, if_false, Bool.false_eq_true, and_self]),
   (by
    intro env method path object addr hf hneg
    rw [__hnsCall_ok env method path object addr hf]
    simp only [hrDecode, hneg, if_false, Bool.false_eq_true, and_self]),
   (by
    intro env compartmentId addr hf hneg
    rw [SetCurrentThreadCompartmentId_ok env compartmentId addr hf]
    simp only [Option.map_some', hrDecode, hneg, if_false, Bool.false_eq_true, and_self])⟩

/-- C4: every string argument is converted to a NUL-terminated UTF-16
buffer before the native call (the native call receives exactly that buffer),
and when any conversion fails the wrapper returns the conversion error
immediately with no native invocation attempted. -/
theorem stringConversion_local_all_wrappers :
    (∀ (s : List Char) (buf : List Nat),
      utf16PtrFromString s = Except.ok buf → buf = utf16Encode s ++ [0]) ∧
    (∀ (env : NativeEnv) (network : hcnNetwork) (id : Guid) (settings : List Char) (e : GoError),
      utf16PtrFromString settings = Except.error e →
      hcnCreateEndpoint env network id settings = ⟨some e, none, []⟩) ∧
    (∀ (env : NativeEnv) (network : hcnNetwork) (id : Guid) (settings : List Char) (buf : List Nat) (addr : Nat),
      utf16PtrFromString settings = Except.ok buf →
      procHcnCreateEndpoint.findAddr env = Except.ok addr →
      (hcnCreateEndpoint env network id settings).calls = [(addr, [Arg.num network, Arg.ptrGuid id, Arg.ptrStr buf, Arg.outHandle, Arg.outStr])]) ∧
    (∀ (env : NativeEnv) (id : Guid) (settings : List Char) (e : GoError),
      utf16PtrFromString settings = Except.error e →
      hcnCreateLoadBalancer env id settings = ⟨some e, none, []⟩) ∧
    (∀ (env : NativeEnv) (id : Guid) (settings : List Char) (buf : List Nat) (addr : Nat),
      utf16PtrFromString settings = Except.ok buf →
      procHcnCreateLoadBalancer.findAddr env = Except.ok addr →
      (hcnCreateLoadBalancer env id settings).calls = [(addr, [Arg.ptrGuid id, Arg.ptrStr buf, Arg.outHandle, Arg.outStr])]) ∧
    (∀ (env : NativeEnv) (id : Guid) (settings : List Char) (e : GoError),
      utf16PtrFromString settings = Except.error e →
      hcnCreateNamespace env id settings = ⟨some e, none, []⟩) ∧
    (∀ (env : NativeEnv) (id : Guid) (settings : List Char) (buf : List Nat) (addr : Nat),
      utf16PtrFromString settings = Except.ok buf →
      procHcnCreateNamespace.findAddr env = Except.ok addr →
      (hcnCreateNamespace env id settings).calls = [(addr, [Arg.ptrGuid id, Arg.ptrStr buf, Arg.outHandle, Arg.outStr])]) ∧
    (∀ (env : NativeEnv) (id : Guid) (settings : List Char) (e : GoError),
      utf16PtrFromString settings = Except.error e →
      hcnCreateNetwork env id settings = ⟨some e, none, []⟩) ∧
    (∀ (env : NativeEnv) (id : Guid) (settings : List Char) (buf : List Nat) (addr : Nat),
      utf16PtrFromString settings = Except.ok buf →
      procHcnCreateNetwork.findAddr env = Except.ok addr →
      (hcnCreateNetwork env id settings).calls = [(addr, [Arg.ptrGuid id, Arg.ptrStr buf, Arg.outHandle, Arg.outStr])]) ∧
    (∀ (env : NativeEnv) (id : Guid) (settings : List Char) (e : GoError),
      utf16PtrFromString settings = Except.error e →
      hcnCreateRoute env id settings = ⟨some e, none, []⟩) ∧
    (∀ (env : NativeEnv) (id : Guid) (settings : List Char) (buf : List Nat) (addr : Nat),
      utf16PtrFromString settings = Except.ok buf →
      procHcnCreateSdnRoute.findAddr env = Except.ok addr →
      (hcnCreateRoute env id settings).calls = [(addr, [Arg.ptrGuid id, Arg.ptrStr buf, Arg.outHandle, Arg.outStr])]) ∧
    (∀ (env : NativeEnv) (query : List Char) (e : GoError),
      utf16PtrFromString query = Except.error e →
      hcnEnumerateEndpoints env query = ⟨some e, none, []⟩) ∧
    (∀ (env : NativeEnv) (query : List Char) (buf : List Nat) (addr : Nat),
      utf16PtrFromString query = Except.ok buf →
      procHcnEnumerateEndpoints.findAddr env = Except.ok addr →
      (hcnEnumerateEndpoints env query).calls = [(addr, [Arg.ptrStr buf, Arg.outStr, Arg.outStr])]) ∧
    (∀ (env : NativeEnv) (query : List Char) (e : GoError),
      utf16PtrFromString query = Except.error e →
      hcnEnumerateLoadBalancers env query = ⟨some e, none, []⟩) ∧
    (∀ (env : NativeEnv) (query : List Char) (buf : List Nat) (addr : Nat),
      utf16PtrFromString query = Except.ok buf →
      procHcnEnumerateLoadBalancers.findAddr env = Except.ok addr →
      (hcnEnumerateLoadBalancers env query).calls = [(addr, [Arg.ptrStr buf, Arg.outStr, Arg.outStr])]) ∧
    (∀ (env : NativeEnv) (query : List Char) (e : GoError),
      utf16PtrFromString query = Except.error e →
      hcnEnumerateNamespaces env query = ⟨some e, none, []⟩) ∧
    (∀ (env : NativeEnv) (query : List Char) (buf : List Nat) (addr : Nat),
      utf16PtrFromString query = Except.ok buf →
      procHcnEnumerateNamespaces.findAddr env = Except.ok addr →
      (hcnEnumerateNamespaces env query).calls = [(addr, [Arg.ptrStr buf, Arg.outStr, Arg.outStr])]) ∧
    (∀ (env : NativeEnv) (query : List Char) (e : GoError),
      utf16PtrFromString query = Except.error e →
      hcnEnumerateNetworks env query = ⟨some e, none, []⟩) ∧
    (∀ (env : NativeEnv) (query : List Char) (buf : List Nat) (addr : Nat),
      utf16PtrFromString query = Except.ok buf →
      procHcnEnumerateNetworks.findAddr env = Except.ok addr →
      (hcnEnumerateNetworks env query).calls = [(addr, [Arg.ptrStr buf, Arg.outStr, Arg.outStr])]) ∧
    (∀ (env : NativeEnv) (query : List Char) (e : GoError),
      utf16PtrFromString query = Except.error e →
      hcnEnumerateRoutes env query = ⟨some e, none, []⟩) ∧
    (∀ (env : NativeEnv) (query : List Char) (buf : List Nat) (addr : Nat),
      utf16PtrFromString query = Except.ok buf →
      procHcnEnumerateSdnRoutes.findAddr env = Except.ok addr →
      (hcnEnumerateRoutes env query).calls = [(addr, [Arg.ptrStr buf, Arg.outStr, Arg.outStr])]) ∧
    (∀ (env : NativeEnv) (endpoint : hcnEndpoint) (settings : List Char) (e : GoError),
      utf16PtrFromString settings = Except.error e →
      hcnModifyEndpoint env endpoint settings = ⟨some e, none, []⟩) ∧
    (∀ (env : NativeEnv) (endpoint : hcnEndpoint) (settings : List Char) (buf : List Nat) (addr : Nat),
      utf16PtrFromString settings = Except.ok buf →
      procHcnModifyEndpoint.findAddr env = Except.ok addr →
      (hcnModifyEndpoint env endpoint settings).calls = [(addr, [Arg.num endpoint, Arg.ptrStr buf, Arg.outStr])]) ∧
    (∀ (env : NativeEnv) (loadBalancer : hcnLoadBalancer) (settings : List Char) (e : GoError),
      utf16PtrFromString settings = Except.error e →
      hcnModifyLoadBalancer env loadBalancer settings = ⟨some e, none, []⟩) ∧
    (∀ (env : NativeEnv) (loadBalancer : hcnLoadBalancer) (settings : List Char) (buf : List Nat) (addr : Nat),
      utf16PtrFromString settings = Except.ok buf →
      procHcnModifyLoadBalancer.findAddr env = Except.ok addr →
      (hcnModifyLoadBalancer env loadBalancer settings).calls = [(addr, [Arg.num loadBalancer, Arg.ptrStr buf, Arg.outStr])]) ∧
    (∀ (env : NativeEnv) (namespaceH : hcnNamespace) (settings : List Char) (e : GoError),
      utf16PtrFromString settings = Except.error e →
      hcnModifyNamespace env namespaceH settings = ⟨some e, none, []⟩) ∧
    (∀ (env : NativeEnv) (namespaceH : hcnNamespace) (settings : List Char) (buf : List Nat) (addr : Nat),
      utf16PtrFromString settings = Except.ok buf →
      procHcnModifyNamespace.findAddr env = Except.ok addr →
      (hcnModifyNamespace env namespaceH settings).calls = [(addr, [Arg.num namespaceH, Arg.ptrStr buf, Arg.outStr])]) ∧
    (∀ (env : NativeEnv) (network : hcnNetwork) (settings : List Char) (e : GoError),
      utf16PtrFromString settings = Except.error e →
      hcnModifyNetwork env network settings = ⟨some e, none, []⟩) ∧
    (∀ (env : NativeEnv) (network : hcnNetwork) (settings : List Char) (buf : List Nat) (addr : Nat),
      utf16PtrFromString settings = Except.ok buf →
      procHcnModifyNetwork.findAddr env = Except.ok addr →
      (hcnModifyNetwork env network settings).calls = [(addr, [Arg.num network, Arg.ptrStr buf, Arg.outStr])]) ∧
    (∀ (env : NativeEnv) (route : hcnRoute) (settings : List Char) (e : GoError),
      utf16PtrFromString settings = Except.error e →
      hcnModifyRoute env route settings = ⟨some e, none, []⟩) ∧
    (∀ (env : NativeEnv) (route : hcnRoute) (settings : List Char) (buf : List Nat) (addr : Nat),
      utf16PtrFromString settings = Except.ok buf →
      procHcnModifySdnRoute.findAddr env = Except.ok addr →
      (hcnModifyRoute env route settings).calls = [(addr, [Arg.num route, Arg.ptrStr buf, Arg.outStr])]) ∧
    (∀ (env : NativeEnv) (endpoint : hcnEndpoint) (query : List Char) (e : GoError),
      utf16PtrFromString query = Except.error e →
      hcnQueryEndpointProperties env endpoint query = ⟨some e, none, []⟩) ∧
    (∀ (env : NativeEnv) (endpoint : hcnEndpoint) (query : List Char) (buf : List Nat) (addr : Nat),
      utf16PtrFromString query = Except.ok buf →
      procHcnQueryEndpointProperties.findAddr env = Except.ok addr →
      (hcnQueryEndpointProperties env endpoint query).calls = [(addr, [Arg.num endpoint, Arg.ptrStr buf, Arg.outStr, Arg.outStr])]) ∧
    (∀ (env : NativeEnv) (loadBalancer : hcnLoadBalancer) (query : List Char) (e : GoError),
      utf16PtrFromString query = Except.error e →
      hcnQueryLoadBalancerProperties env loadBalancer query = ⟨some e, none, []⟩) ∧
    (∀ (env : NativeEnv) (loadBalancer : hcnLoadBalancer) (query : List Char) (buf : List Nat) (addr : Nat),
      utf16PtrFromString query = Except.ok buf →
      procHcnQueryLoadBalancerProperties.findAddr env = Except.ok addr →
      (hcnQueryLoadBalancerProperties env loadBalancer query).calls = [(addr, [Arg.num loadBalancer, Arg.ptrStr buf, Arg.outStr, Arg.outStr])]) ∧
    (∀ (env : NativeEnv) (namespaceH : hcnNamespace) (query : List Char) (e : GoError),
      utf16PtrFromString query = Except.error e →
      hcnQueryNamespaceProperties env namespaceH query = ⟨some e, none, []⟩) ∧
    (∀ (env : NativeEnv) (namespaceH : hcnNamespace) (query : List Char) (buf : List Nat) (addr : Nat),
      utf16PtrFromString query = Except.ok buf →
      procHcnQueryNamespaceProperties.findAddr env = Except.ok addr →
      (hcnQueryNamespaceProperties env namespaceH query).calls = [(addr, [Arg.num namespaceH, Arg.ptrStr buf, Arg.outStr, Arg.outStr])]) ∧
    (∀ (env : NativeEnv) (network : hcnNetwork) (query : List Char) (e : GoError),
      utf16PtrFromString query = Except.error e →
      hcnQueryNetworkProperties env network query = ⟨some e, none, []⟩) ∧
    (∀ (env : NativeEnv) (network : hcnNetwork) (query : List Char) (buf : List Nat) (addr : Nat),
      utf16PtrFromString query = Except.ok buf →
      procHcnQueryNetworkProperties.findAddr env = Except.ok addr →
      (hcnQueryNetworkProperties env network query).calls = [(addr, [Arg.num network, Arg.ptrStr buf, Arg.outStr, Arg.outStr])]) ∧
    (∀ (env : NativeEnv) (route : hcnRoute) (query : List Char) (e : GoError),
      utf16PtrFromString query = Except.error e →
      hcnQueryRouteProperties env route query = ⟨some e, none, []⟩) ∧
    (∀ (env : NativeEnv) (route : hcnRoute) (query : List Char) (buf : List Nat) (addr : Nat),
      utf16PtrFromString query = Except.ok buf →
      procHcnQuerySdnRouteProperties.findAddr env = Except.ok addr →
      (hcnQueryRouteProperties env route query).calls = [(addr, [Arg.num route, Arg.ptrStr buf, Arg.outStr, Arg.outStr])]) ∧
    (∀ (env : NativeEnv) (method path object : List Char) (e : GoError),
      utf16PtrFromString method = Except.error e →
      _hnsCall env method path object = ⟨some e, none, []⟩) ∧
    (∀ (env : NativeEnv) (method path object : List Char) (b0 : List Nat) (e : GoError),
      utf16PtrFromString method = Except.ok b0 →
      utf16PtrFromString path = Except.error e →
      _hnsCall env method path object = ⟨some e, none, []⟩) ∧
    (∀ (env : NativeEnv) (method path object : List Char) (b0 b1 : List Nat) (e : GoError),
      utf16PtrFromString method = Except.ok b0 →
      utf16PtrFromString path = Except.ok b1 →
      utf16PtrFromString object = Except.error e →
      _hnsCall env method path object = ⟨some e, none, []⟩) ∧
    (∀ (env : NativeEnv) (method path object : List Char) (b0 b1 b2 : List Nat) (addr : Nat),
      utf16PtrFromString method = Except.ok b0 →
      utf16PtrFromString path = Except.ok b1 →
      utf16PtrFromString object = Except.ok b2 →
      procHNSCall.findAddr env = Except.ok addr →
      (_hnsCall env method path object).calls =
        [(addr, [Arg.ptrStr b0, Arg.ptrStr b1, Arg.ptrStr b2, Arg.outStr])]) :=
  ⟨(by
    intro s buf h
    by_cases hz : (Char.ofNat 0) ∈ s
    · simp [utf16PtrFromString, hz] at h
    · simp only [utf16PtrFromString, if_neg hz, Except.ok.injEq] at h
      exact h.symm),
   (fun env network id settings e hc => hcnCreateEndpoint_encErr env network id settings e hc),
   (by
    intro env network id settings buf addr hc hf
    rw [hcnCreateEndpoint_encOk env network id settings buf hc, _hcnCreateEndpoint_ok env network id buf addr hf]),
   (fun env id settings e hc => hcnCreateLoadBalancer_encErr env id settings e hc),
   (by
    intro env id settings buf addr hc hf
    rw [hcnCreateLoadBalancer_encOk env id settings buf hc, _hcnCreateLoadBalancer_ok env id buf addr hf]),
   (fun env id settings e hc => hcnCreateNamespace_encErr env id settings e hc),
   (by
    intro env id settings buf addr hc hf
    rw [hcnCreateNamespace_encOk env id settings buf hc, _hcnCreateNamespace_ok env id buf addr hf]),
   (fun env id settings e hc => hcnCreateNetwork_encErr env id settings e hc),
   (by
    intro env id settings buf addr hc hf
    rw [hcnCreateNetwork_encOk env id settings buf hc, _hcnCreateNetwork_ok env id buf addr hf]),
   (fun env id settings e hc => hcnCreateRoute_encErr env id settings e hc),
   (by
    intro env id settings buf addr hc hf
    rw [hcnCreateRoute_encOk env id settings buf hc, _hcnCreateRoute_ok env id buf addr hf]),
   (fun env query e hc => hcnEnumerateEndpoints_encErr env query e hc),
   (by
    intro env query buf addr hc hf
    rw [hcnEnumerateEndpoints_encOk env query buf hc, _hcnEnumerateEndpoints_ok env buf addr hf]),
   (fun env query e hc => hcnEnumerateLoadBalancers_encErr env query e hc),
   (by
    intro env query buf addr hc hf
    rw [hcnEnumerateLoadBalancers_encOk env query buf hc, _hcnEnumerateLoadBalancers_ok env buf addr hf]),
   (fun env query e hc => hcnEnumerateNamespaces_encErr env query e hc),
   (by
    intro env query buf addr hc hf
    rw [hcnEnumerateNamespaces_encOk env query buf hc, _hcnEnumerateNamespaces_ok env buf addr hf]),
   (fun env query e hc => hcnEnumerateNetworks_encErr env query e hc),
   (by
    intro env query buf addr hc hf
    rw [hcnEnumerateNetworks_encOk env query buf hc, _hcnEnumerateNetworks_ok env buf addr hf]),
   (fun env query e hc => hcnEnumerateRoutes_encErr env query e hc),
   (by
    intro env query buf addr hc hf
    rw [hcnEnumerateRoutes_encOk env query buf hc, _hcnEnumerateRoutes_ok env buf addr hf]),
   (fun env endpoint settings e hc => hcnModifyEndpoint_encErr env endpoint settings e hc),
   (by
    intro env endpoint settings buf addr hc hf
    rw [hcnModifyEndpoint_encOk env endpoint settings buf hc, _hcnModifyEndpoint_ok env endpoint buf addr hf]),
   (fun env loadBalancer settings e hc => hcnModifyLoadBalancer_encErr env loadBalancer settings e hc),
   (by
    intro env loadBalancer settings buf addr hc hf
    rw [hcnModifyLoadBalancer_encOk env loadBalancer settings buf hc, _hcnModifyLoadBalancer_ok env loadBalancer buf addr hf]),
   (fun env namespaceH settings e hc => hcnModifyNamespace_encErr env namespaceH settings e hc),
   (by
    intro env namespaceH settings buf addr hc hf
    rw [hcnModifyNamespace_encOk env namespaceH settings buf hc, _hcnModifyNamespace_ok env namespaceH buf addr hf]),
   (fun env network settings e hc => hcnModifyNetwork_encErr env network settings e hc),
   (by
    intro env network settings buf addr hc hf
    rw [hcnModifyNetwork_encOk env network settings buf hc, _hcnModifyNetwork_ok env network buf addr hf]),
   (fun env route settings e hc => hcnModifyRoute_encErr env route settings e hc),
   (by
    intro env route settings buf addr hc hf
    rw [hcnModifyRoute_encOk env route settings buf hc, _hcnModifyRoute_ok env route buf addr hf]),
   (fun env endpoint query e hc => hcnQueryEndpointProperties_encErr env endpoint query e hc),
   (by
    intro env endpoint query buf addr hc hf
    rw [hcnQueryEndpointProperties_encOk env endpoint query buf hc, _hcnQueryEndpointProperties_ok env endpoint buf addr hf]),
   (fun env loadBalancer query e hc => hcnQueryLoadBalancerProperties_encErr env loadBalancer query e hc),
   (by
    intro env loadBalancer query buf addr hc hf
    rw [hcnQueryLoadBalancerProperties_encOk env loadBalancer query buf hc, _hcnQueryLoadBalancerProperties_ok env loadBalancer buf addr hf]),
   (fun env namespaceH query e hc => hcnQueryNamespaceProperties_encErr env namespaceH query e hc),
   (by
    intro env namespaceH query buf addr hc hf
    rw [hcnQueryNamespaceProperties_encOk env namespaceH query buf hc, _hcnQueryNamespaceProperties_ok env namespaceH buf addr hf]),
   (fun env network query e hc => hcnQueryNetworkProperties_encErr env network query e hc),
   (by
    intro env network query buf addr hc hf
    rw [hcnQueryNetworkProperties_encOk env network query buf hc, _hcnQueryNetworkProperties_ok env network buf addr hf]),
   (fun env route query e hc => hcnQueryRouteProperties_encErr env route query e hc),
   (by
    intro env route query buf addr hc hf
    rw [hcnQueryRouteProperties_encOk env route query buf hc, _hcnQueryRouteProperties_ok env route buf addr hf]),
   (fun env method path object e h0 => _hnsCall_encErr0 env method path object e h0),
   (fun env method path object b0 e h0 h1 => _hnsCall_encErr1 env method path object b0 e h0 h1),
   (fun env method path object b0 b1 e h0 h1 h2 => _hnsCall_encErr2 env method path object b0 b1 e h0 h1 h2),
   (by
    intro env method path object b0 b1 b2 addr h0 h1 h2 hf
    rw [_hnsCall_encOk env method path object b0 b1 b2 h0 h1 h2,
      __hnsCall_ok env b0 b1 b2 addr hf])⟩

/-- C5: the shim performs no handle-validity tracking: every handle-taking
operation (Close, Modify, Query), for every handle value whatsoever, passes
the handle value unchanged to the native call and returns the decoded native
status, with no local rejection. -/
theorem handlePassthrough_no_local_validation :
    (∀ (env : NativeEnv) (endpoint : hcnEndpoint) (addr : Nat),
      procHcnCloseEndpoint.findAddr env = Except.ok addr →
      (hcnCloseEndpoint env endpoint).calls = [(addr, [Arg.num endpoint])] ∧
      (hcnCloseEndpoint env endpoint).hr = hrDecode (env.call addr [Arg.num endpoint]).r0) ∧
    (∀ (env : NativeEnv) (loadBalancer : hcnLoadBalancer) (addr : Nat),
      procHcnCloseLoadBalancer.findAddr env = Except.ok addr →
      (hcnCloseLoadBalancer env loadBalancer).calls = [(addr, [Arg.num loadBalancer])] ∧
      (hcnCloseLoadBalancer env loadBalancer).hr = hrDecode (env.call addr [Arg.num loadBalancer]).r0) ∧
    (∀ (env : NativeEnv) (namespaceH : hcnNamespace) (addr : Nat),
      procHcnCloseNamespace.findAddr env = Except.ok addr →
      (hcnCloseNamespace env namespaceH).calls = [(addr, [Arg.num namespaceH])] ∧
      (hcnCloseNamespace env namespaceH).hr = hrDecode (env.call addr [Arg.num namespaceH]).r0) ∧
    (∀ (env : NativeEnv) (network : hcnNetwork) (addr : Nat),
      procHcnCloseNetwork.findAddr env = Except.ok addr →
      (hcnCloseNetwork env network).calls = [(addr, [Arg.num network])] ∧
      (hcnCloseNetwork env network).hr = hrDecode (env.call addr [Arg.num network]).r0) ∧
    (∀ (env : NativeEnv) (route : hcnRoute) (addr : Nat),
      procHcnCloseSdnRoute.findAddr env = Except.ok addr →
      (hcnCloseRoute env route).calls = [(addr, [Arg.num route])] ∧
      (hcnCloseRoute env route).hr = hrDecode (env.call addr [Arg.num route]).r0) ∧
    (∀ (env : NativeEnv) (endpoint : hcnEndpoint) (settings : List Nat) (addr : Nat),
      procHcnModifyEndpoint.findAddr env = Except.ok addr →
      (_hcnModifyEndpoint env endpoint settings).calls = [(addr, [Arg.num endpoint, Arg.ptrStr settings, Arg.outStr])] ∧
      (_hcnModifyEndpoint env endpoint settings).hr = hrDecode (env.call addr [Arg.num endpoint, Arg.ptrStr settings, Arg.outStr]).r0) ∧
    (∀ (env : NativeEnv) (loadBalancer : hcnLoadBalancer) (settings : List Nat) (addr : Nat),
      procHcnModifyLoadBalancer.findAddr env = Except.ok addr →
      (_hcnModifyLoadBalancer env loadBalancer settings).calls = [(addr, [Arg.num loadBalancer, Arg.ptrStr settings, Arg.outStr])] ∧
      (_hcnModifyLoadBalancer env loadBalancer settings).hr = hrDecode (env.call addr [Arg.num loadBalancer, Arg.ptrStr settings, Arg.outStr]).r0) ∧
    (∀ (env : NativeEnv) (namespaceH : hcnNamespace) (settings : List Nat) (addr : Nat),
      procHcnModifyNamespace.findAddr env = Except.ok addr →
      (_hcnModifyNamespace env namespaceH settings).calls = [(addr, [Arg.num namespaceH, Arg.ptrStr settings, Arg.outStr])] ∧
      (_hcnModifyNamespace env namespaceH settings).hr = hrDecode (env.call addr [Arg.num namespaceH, Arg.ptrStr settings, Arg.outStr]).r0) ∧
    (∀ (env : NativeEnv) (network : hcnNetwork) (settings : List Nat) (addr : Nat),
      procHcnModifyNetwork.findAddr env = Except.ok addr →
      (_hcnModifyNetwork env network settings).calls = [(addr, [Arg.num network, Arg.ptrStr settings, Arg.outStr])] ∧
      (_hcnModifyNetwork env network settings).hr = hrDecode (env.call addr [Arg.num network, Arg.ptrStr settings, Arg.outStr]).r0) ∧
    (∀ (env : NativeEnv) (route : hcnRoute) (settings : List Nat) (addr : Nat),
      procHcnModifySdnRoute.findAddr env = Except.ok addr →
      (_hcnModifyRoute env route settings).calls = [(addr, [Arg.num route, Arg.ptrStr settings, Arg.outStr])] ∧
      (_hcnModifyRoute env route settings).hr = hrDecode (env.call addr [Arg.num route, Arg.ptrStr settings, Arg.outStr]).r0) ∧
    (∀ (env : NativeEnv) (endpoint : hcnEndpoint) (query : List Nat) (addr : Nat),
      procHcnQueryEndpointProperties.findAddr env = Except.ok addr →
      (_hcnQueryEndpointProperties env endpoint query).calls = [(addr, [Arg.num endpoint, Arg.ptrStr query, Arg.outStr, Arg.outStr])] ∧
      (_hcnQueryEndpointProperties env endpoint query).hr = hrDecode (env.call addr [Arg.num endpoint, Arg.ptrStr query, Arg.outStr, Arg.outStr]).r0) ∧
    (∀ (env : NativeEnv) (loadBalancer : hcnLoadBalancer) (query : List Nat) (addr : Nat),
      procHcnQueryLoadBalancerProperties.findAddr env = Except.ok addr →
      (_hcnQueryLoadBalancerProperties env loadBalancer query).calls = [(addr, [Arg.num loadBalancer, Arg.ptrStr query, Arg.outStr, Arg.outStr])] ∧
      (_hcnQueryLoadBalancerProperties env loadBalancer query).hr = hrDecode (env.call addr [Arg.num loadBalancer, Arg.ptrStr query, Arg.outStr, Arg.outStr]).r0) ∧
    (∀ (env : NativeEnv) (namespaceH : hcnNamespace) (query : List Nat) (addr : Nat),
      procHcnQueryNamespaceProperties.findAddr env = Except.ok addr →
      (_hcnQueryNamespaceProperties env namespaceH query).calls = [(addr, [Arg.num namespaceH, Arg.ptrStr query, Arg.outStr, Arg.outStr])] ∧
      (_hcnQueryNamespaceProperties env namespaceH query).hr = hrDecode (env.call addr [Arg.num namespaceH, Arg.ptrStr query, Arg.outStr, Arg.outStr]).r0) ∧
    (∀ (env : NativeEnv) (network : hcnNetwork) (query : List Nat) (addr : Nat),
      procHcnQueryNetworkProperties.findAddr env = Except.ok addr →
      (_hcnQueryNetworkProperties env network query).calls = [(addr, [Arg.num network, Arg.ptrStr query, Arg.outStr, Arg.outStr])] ∧
      (_hcnQueryNetworkProperties env network query).hr = hrDecode (env.call addr [Arg.num network, Arg.ptrStr query, Arg.outStr, Arg.outStr]).r0) ∧
    (∀ (env : NativeEnv) (route : hcnRoute) (query : List Nat) (addr : Nat),
      procHcnQuerySdnRouteProperties.findAddr env = Except.ok addr →
      (_hcnQueryRouteProperties env route query).calls = [(addr, [Arg.num route, Arg.ptrStr query, Arg.outStr, Arg.outStr])] ∧
      (_hcnQueryRouteProperties env route query).hr = hrDecode (env.call addr [Arg.num route, Arg.ptrStr query, Arg.outStr, Arg.outStr]).r0) :=
  ⟨(by
    intro env endpoint addr hf
    rw [hcnCloseEndpoint_ok env endpoint addr hf]
    exact ⟨rfl, rfl⟩),
   (by
    intro env loadBalancer addr hf
    rw [hcnCloseLoadBalancer_ok env loadBalancer addr hf]
    exact ⟨rfl, rfl⟩),
   (by
    intro env namespaceH addr hf
    rw [hcnCloseNamespace_ok env namespaceH addr hf]
    exact ⟨rfl, rfl⟩),
   (by
    intro env network addr hf
    rw [hcnCloseNetwork_ok env network addr hf]
    exact ⟨rfl, rfl⟩),
   (by
    intro env route addr hf
    rw [hcnCloseRoute_ok env route addr hf]
    exact ⟨rfl, rfl⟩),
   (by
    intro env endpoint settings addr hf
    rw [_hcnModifyEndpoint_ok env endpoint settings addr hf]
    exact ⟨rfl, rfl⟩),
   (by
    intro env loadBalancer settings addr hf
    rw [_hcnModifyLoadBalancer_ok env loadBalancer settings addr hf]
    exact ⟨rfl, rfl⟩),
   (by
    intro env namespaceH settings addr hf
    rw [_hcnModifyNamespace_ok env namespaceH settings addr hf]
    exact ⟨rfl, rfl⟩),
   (by
    intro env network settings addr hf
    rw [_hcnModifyNetwork_ok env network settings addr hf]
    exact ⟨rfl, rfl⟩),
   (by
    intro env route settings addr hf
    rw [_hcnModifyRoute_ok env route settings addr hf]
    exact ⟨rfl, rfl⟩),
   (by
    intro env endpoint query addr hf
    rw [_hcnQueryEndpointProperties_ok env endpoint query addr hf]
    exact ⟨rfl, rfl⟩),
   (by
    intro env loadBalancer query addr hf
    rw [_hcnQueryLoadBalancerProperties_ok env loadBalancer query addr hf]
    exact ⟨rfl, rfl⟩),
   (by
    intro env namespaceH query addr hf
    rw [_hcnQueryNamespaceProperties_ok env namespaceH query addr hf]
    exact ⟨rfl, rfl⟩),
   (by
    intro env network query addr hf
    rw [_hcnQueryNetworkProperties_ok env network query addr hf]
    exact ⟨rfl, rfl⟩),
   (by
    intro env route query addr hf
    rw [_hcnQueryRouteProperties_ok env route query addr hf]
    exact ⟨rfl, rfl⟩)⟩

/-- C8: no wrapper retries: every call to a wrapper invokes the native
entry point at most once, and exactly once when encoding and symbol
resolution succeed; a failed native call is reported once with no second
native invocation. -/
theorem noRetry_single_native_invocation :
    (∀ (env : NativeEnv) (endpoint : hcnEndpoint),
      (hcnCloseEndpoint env endpoint).calls.length ≤ 1) ∧
    (∀ (env : NativeEnv) (endpoint : hcnEndpoint) (addr : Nat),
      procHcnCloseEndpoint.findAddr env = Except.ok addr →
      (hcnCloseEndpoint env endpoint).calls.length = 1) ∧
    (∀ (env : NativeEnv) (loadBalancer : hcnLoadBalancer),
      (hcnCloseLoadBalancer env loadBalancer).calls.length ≤ 1) ∧
    (∀ (env : NativeEnv) (loadBalancer : hcnLoadBalancer) (addr : Nat),
      procHcnCloseLoadBalancer.findAddr env = Except.ok addr →
      (hcnCloseLoadBalancer env loadBalancer).calls.length = 1) ∧
    (∀ (env : NativeEnv) (namespaceH : hcnNamespace),
      (hcnCloseNamespace env namespaceH).calls.length ≤ 1) ∧
    (∀ (env : NativeEnv) (namespaceH : hcnNamespace) (addr : Nat),
      procHcnCloseNamespace.findAddr env = Except.ok addr →
      (hcnCloseNamespace env namespaceH).calls.length = 1) ∧
    (∀ (env : NativeEnv) (network : hcnNetwork),
      (hcnCloseNetwork env network).calls.length ≤ 1) ∧
    (∀ (env : NativeEnv) (network : hcnNetwork) (addr : Nat),
      procHcnCloseNetwork.findAddr env = Except.ok addr →
      (hcnCloseNetwork env network).calls.length = 1) ∧
    (∀ (env : NativeEnv) (route : hcnRoute),
      (hcnCloseRoute env route).calls.length ≤ 1) ∧
    (∀ (env : NativeEnv) (route : hcnRoute) (addr : Nat),
      procHcnCloseSdnRoute.findAddr env = Except.ok addr →
      (hcnCloseRoute env route).calls.length = 1) ∧
    (∀ (env : NativeEnv) (id : Guid),
      (hcnDeleteEndpoint env id).calls.length ≤ 1) ∧
    (∀ (env : NativeEnv) (id : Guid) (addr : Nat),
      procHcnDeleteEndpoint.findAddr env = Except.ok addr →
      (hcnDeleteEndpoint env id).calls.length = 1) ∧
    (∀ (env : NativeEnv) (id : Guid),
      (hcnDeleteLoadBalancer env id).calls.length ≤ 1) ∧
    (∀ (env : NativeEnv) (id : Guid) (addr : Nat),
      procHcnDeleteLoadBalancer.findAddr env = Except.ok addr →
      (hcnDeleteLoadBalancer env id).calls.length = 1) ∧
    (∀ (env : NativeEnv) (id : Guid),
      (hcnDeleteNamespace env id).calls.length ≤ 1) ∧
    (∀ (env : NativeEnv) (id : Guid) (addr : Nat),
      procHcnDeleteNamespace.findAddr env = Except.ok addr →
      (hcnDeleteNamespace env id).calls.length = 1) ∧
    (∀ (env : NativeEnv) (id : Guid),
      (hcnDeleteNetwork env id).calls.length ≤ 1) ∧
    (∀ (env : NativeEnv) (id : Guid) (addr : Nat),
      procHcnDeleteNetwork.findAddr env = Except.ok addr →
      (hcnDeleteNetwork env id).calls.length = 1) ∧
    (∀ (env : NativeEnv) (id : Guid),
      (hcnDeleteRoute env id).calls.length ≤ 1) ∧
    (∀ (env : NativeEnv) (id : Guid) (addr : Nat),
      procHcnDeleteSdnRoute.findAddr env = Except.ok addr →
      (hcnDeleteRoute env id).calls.length = 1) ∧
    (∀ (env : NativeEnv) (id : Guid),
      (hcnOpenEndpoint env id).calls.length ≤ 1) ∧
    (∀ (env : NativeEnv) (id : Guid) (addr : Nat),
      procHcnOpenEndpoint.findAddr env = Except.ok addr →
      (hcnOpenEndpoint env id).calls.length = 1) ∧
    (∀ (env : NativeEnv) (id : Guid),
      (hcnOpenLoadBalancer env id).calls.length ≤ 1) ∧
    (∀ (env : NativeEnv) (id : Guid) (addr : Nat),
      procHcnOpenLoadBalancer.findAddr env = Except.ok addr →
      (hcnOpenLoadBalancer env id).calls.length = 1) ∧
    (∀ (env : NativeEnv) (id : Guid),
      (hcnOpenNamespace env id).calls.length ≤ 1) ∧
    (∀ (env : NativeEnv) (id : Guid) (addr : Nat),
      procHcnOpenNamespace.findAddr env = Except.ok addr →
      (hcnOpenNamespace env id).calls.length = 1) ∧
    (∀ (env : NativeEnv) (id : Guid),
      (hcnOpenNetwork env id).calls.length ≤ 1) ∧
    (∀ (env : NativeEnv) (id : Guid) (addr : Nat),
      procHcnOpenNetwork.findAddr env = Except.ok addr →
      (hcnOpenNetwork env id).calls.length = 1) ∧
    (∀ (env : NativeEnv) (id : Guid),
      (hcnOpenRoute env id).calls.length ≤ 1) ∧
    (∀ (env : NativeEnv) (id : Guid) (addr : Nat),
      procHcnOpenSdnRoute.findAddr env = Except.ok addr →
      (hcnOpenRoute env id).calls.length = 1) ∧
    (∀ (env : NativeEnv) (network : hcnNetwork) (id : Guid) (settings : List Char),
      (hcnCreateEndpoint env network id settings).calls.length ≤ 1) ∧
    (∀ (env : NativeEnv) (network : hcnNetwork) (id : Guid) (settings : List Char) (buf : List Nat) (addr : Nat),
      utf16PtrFromString settings = Except.ok buf →
      procHcnCreateEndpoint.findAddr env = Except.ok addr →
      (hcnCreateEndpoint env network id settings).calls.length = 1) ∧
    (∀ (env : NativeEnv) (id : Guid) (settings : List Char),
      (hcnCreateLoadBalancer env id settings).calls.length ≤ 1) ∧
    (∀ (env : NativeEnv) (id : Guid) (settings : List Char) (buf : List Nat) (addr : Nat),
      utf16PtrFromString settings = Except.ok buf →
      procHcnCreateLoadBalancer.findAddr env = Except.ok addr →
      (hcnCreateLoadBalancer env id settings).calls.length = 1) ∧
    (∀ (env : NativeEnv) (id : Guid) (settings : List Char),
      (hcnCreateNamespace env id settings).calls.length ≤ 1) ∧
    (∀ (env : NativeEnv) (id : Guid) (settings : List Char) (buf : List Nat) (addr : Nat),
      utf16PtrFromString settings = Except.ok buf →
      procHcnCreateNamespace.findAddr env = Except.ok addr →
      (hcnCreateNamespace env id settings).calls.length = 1) ∧
    (∀ (env : NativeEnv) (id : Guid) (settings : List Char),
      (hcnCreateNetwork env id settings).calls.length ≤ 1) ∧
    (∀ (env : NativeEnv) (id : Guid) (settings : List Char) (buf : List Nat) (addr : Nat),
      utf16PtrFromString settings = Except.ok buf →
      procHcnCreateNetwork.findAddr env = Except.ok addr →
      (hcnCreateNetwork env id settings).calls.length = 1) ∧
    (∀ (env : NativeEnv) (id : Guid) (settings : List Char),
      (hcnCreateRoute env id settings).calls.length ≤ 1) ∧
    (∀ (env : NativeEnv) (id : Guid) (settings : List Char) (buf : List Nat) (addr : Nat),
      utf16PtrFromString settings = Except.ok buf →
      procHcnCreateSdnRoute.findAddr env = Except.ok addr →
      (hcnCreateRoute env id settings).calls.length = 1) ∧
    (∀ (env : NativeEnv) (query : List Char),
      (hcnEnumerateEndpoints env query).calls.length ≤ 1) ∧
    (∀ (env : NativeEnv) (query : List Char) (buf : List Nat) (addr : Nat),
      utf16PtrFromString query = Except.ok buf →
      procHcnEnumerateEndpoints.findAddr env = Except.ok addr →
      (hcnEnumerateEndpoints env query).calls.length = 1) ∧
    (∀ (env : NativeEnv) (query : List Char),
      (hcnEnumerateLoadBalancers env query).calls.length ≤ 1) ∧
    (∀ (env : NativeEnv) (query : List Char) (buf : List Nat) (addr : Nat),
      utf16PtrFromString query = Except.ok buf →
      procHcnEnumerateLoadBalancers.findAddr env = Except.ok addr →
      (hcnEnumerateLoadBalancers env query).calls.length = 1) ∧
    (∀ (env : NativeEnv) (query : List Char),
      (hcnEnumerateNamespaces env query).calls.length ≤ 1) ∧
    (∀ (env : NativeEnv) (query : List Char) (buf : List Nat) (addr : Nat),
      utf16PtrFromString query = Except.ok buf →
      procHcnEnumerateNamespaces.findAddr env = Except.ok addr →
      (hcnEnumerateNamespaces env query).calls.length = 1) ∧
    (∀ (env : NativeEnv) (query : List Char),
      (hcnEnumerateNetworks env query).calls.length ≤ 1) ∧
    (∀ (env : NativeEnv) (query : List Char) (buf : List Nat) (addr : Nat),
      utf16PtrFromString query = Except.ok buf →
      procHcnEnumerateNetworks.findAddr env = Except.ok addr →
      (hcnEnumerateNetworks env query).calls.length = 1) ∧
    (∀ (env : NativeEnv) (query : List Char),
      (hcnEnumerateRoutes env query).calls.length ≤ 1) ∧
    (∀ (env : NativeEnv) (query : List Char) (buf : List Nat) (addr : Nat),
      utf16PtrFromString query = Except.ok buf →
      procHcnEnumerateSdnRoutes.findAddr env = Except.ok addr →
      (hcnEnumerateRoutes env query).calls.length = 1) ∧
    (∀ (env : NativeEnv) (endpoint : hcnEndpoint) (settings : List Char),
      (hcnModifyEndpoint env endpoint settings).calls.length ≤ 1) ∧
    (∀ (env : NativeEnv) (endpoint : hcnEndpoint) (settings : List Char) (buf : List Nat) (addr : Nat),
      utf16PtrFromString settings = Except.ok buf →
      procHcnModifyEndpoint.findAddr env = Except.ok addr →
      (hcnModifyEndpoint env endpoint settings).calls.length = 1) ∧
    (∀ (env : NativeEnv) (loadBalancer : hcnLoadBalancer) (settings : List Char),
      (hcnModifyLoadBalancer env loadBalancer settings).calls.length ≤ 1) ∧
    (∀ (env : NativeEnv) (loadBalancer : hcnLoadBalancer) (settings : List Char) (buf : List Nat) (addr : Nat),
      utf16PtrFromString settings = Except.ok buf →
      procHcnModifyLoadBalancer.findAddr env = Except.ok addr →
      (hcnModifyLoadBalancer env loadBalancer settings).calls.length = 1) ∧
    (∀ (env : NativeEnv) (namespaceH : hcnNamespace) (settings : List Char),
      (hcnModifyNamespace env namespaceH settings).calls.length ≤ 1) ∧
    (∀ (env : NativeEnv) (namespaceH : hcnNamespace) (settings : List Char) (buf : List Nat) (addr : Nat),
      utf16PtrFromString settings = Except.ok buf →
      procHcnModifyNamespace.findAddr env = Except.ok addr →
      (hcnModifyNamespace env namespaceH settings).calls.length = 1) ∧
    (∀ (env : NativeEnv) (network : hcnNetwork) (settings : List Char),
      (hcnModifyNetwork env network settings).calls.length ≤ 1) ∧
    (∀ (env : NativeEnv) (network : hcnNetwork) (settings : List Char) (buf : List Nat) (addr : Nat),
      utf16PtrFromString settings = Except.ok buf →
      procHcnModifyNetwork.findAddr env = Except.ok addr →
      (hcnModifyNetwork env network settings).calls.length = 1) ∧
    (∀ (env : NativeEnv) (route : hcnRoute) (settings : List Char),
      (hcnModifyRoute env route settings).calls.length ≤ 1) ∧
    (∀ (env : NativeEnv) (route : hcnRoute) (settings : List Char) (buf : List Nat) (addr : Nat),
      utf16PtrFromString settings = Except.ok buf →
      procHcnModifySdnRoute.findAddr env = Except.ok addr →
      (hcnModifyRoute env route settings).calls.length = 1) ∧
    (∀ (env : NativeEnv) (endpoint : hcnEndpoint) (query : List Char),
      (hcnQueryEndpointProperties env endpoint query).calls.length ≤ 1) ∧
    (∀ (env : NativeEnv) (endpoint : hcnEndpoint) (query : List Char) (buf : List Nat) (addr : Nat),
      utf16PtrFromString query = Except.ok buf →
      procHcnQueryEndpointProperties.findAddr env = Except.ok addr →
      (hcnQueryEndpointProperties env endpoint query).calls.length = 1) ∧
    (∀ (env : NativeEnv) (loadBalancer : hcnLoadBalancer) (query : List Char),
      (hcnQueryLoadBalancerProperties env loadBalancer query).calls.length ≤ 1) ∧
    (∀ (env : NativeEnv) (loadBalancer : hcnLoadBalancer) (query : List Char) (buf : List Nat) (addr : Nat),
      utf16PtrFromString query = Except.ok buf →
      procHcnQueryLoadBalancerProperties.findAddr env = Except.ok addr →
      (hcnQueryLoadBalancerProperties env loadBalancer query).calls.length = 1) ∧
    (∀ (env : NativeEnv) (namespaceH : hcnNamespace) (query : List Char),
      (hcnQueryNamespaceProperties env namespaceH query).calls.length ≤ 1) ∧
    (∀ (env : NativeEnv) (namespaceH : hcnNamespace) (query : List Char) (buf : List Nat) (addr : Nat),
      utf16PtrFromString query = Except.ok buf →
      procHcnQueryNamespaceProperties.findAddr env = Except.ok addr →
      (hcnQueryNamespaceProperties env namespaceH query).calls.length = 1) ∧
    (∀ (env : NativeEnv) (network : hcnNetwork) (query : List Char),
      (hcnQueryNetworkProperties env network query).calls.length ≤ 1) ∧
    (∀ (env : NativeEnv) (network : hcnNetwork) (query : List Char) (buf : List Nat) (addr : Nat),
      utf16PtrFromString query = Except.ok buf →
      procHcnQueryNetworkProperties.findAddr env = Except.ok addr →
      (hcnQueryNetworkProperties env network query).calls.length = 1) ∧
    (∀ (env : NativeEnv) (route : hcnRoute) (query : List Char),
      (hcnQueryRouteProperties env route query).calls.length ≤ 1) ∧
    (∀ (env : NativeEnv) (route : hcnRoute) (query : List Char) (buf : List Nat) (addr : Nat),
      utf16PtrFromString query = Except.ok buf →
      procHcnQuerySdnRouteProperties.findAddr env = Except.ok addr →
      (hcnQueryRouteProperties env route query).calls.length = 1) ∧
    (∀ (env : NativeEnv) (method path object : List Char),
      (_hnsCall env method path object).calls.length ≤ 1) ∧
    (∀ (env : NativeEnv) (method path object : List Char) (b0 b1 b2 : List Nat) (addr : Nat),
      utf16PtrFromString method = Except.ok b0 →
      utf16PtrFromString path = Except.ok b1 →
      utf16PtrFromString object = Except.ok b2 →
      procHNSCall.findAddr env = Except.ok addr →
      (_hnsCall env method path object).calls.length = 1) ∧
    (∀ (env : NativeEnv) (r : Nat × List (Nat × List Arg)),
      GetCurrentThreadCompartmentId env = some r → r.2.length = 1) ∧
    (∀ (env : NativeEnv) (compartmentId : Nat) (r : WrapperRet),
      SetCurrentThreadCompartmentId env compartmentId = some r → r.calls.length = 1) :=
  ⟨(by
    intro env endpoint
    cases hf : procHcnCloseEndpoint.findAddr env with
    | error e => rw [hcnCloseEndpoint_errFind env endpoint e hf]; all_goals simp
    | ok addr => rw [hcnCloseEndpoint_ok env endpoint addr hf]; all_goals simp),
   (by
    intro env endpoint addr hf
    rw [hcnCloseEndpoint_ok env endpoint addr hf]; all_goals simp),
   (by
    intro env loadBalancer
    cases hf : procHcnCloseLoadBalancer.findAddr env with
    | error e => rw [hcnCloseLoadBalancer_errFind env loadBalancer e hf]; all_goals simp
    | ok addr => rw [hcnCloseLoadBalancer_ok env loadBalancer addr hf]; all_goals simp),
   (by
    intro env loadBalancer addr hf
    rw [hcnCloseLoadBalancer_ok env loadBalancer addr hf]; all_goals simp),
   (by
    intro env namespaceH
    cases hf : procHcnCloseNamespace.findAddr env with
    | error e => rw [hcnCloseNamespace_errFind env namespaceH e hf]; all_goals simp
    | ok addr => rw [hcnCloseNamespace_ok env namespaceH addr hf]; all_goals simp),
   (by
    intro env namespaceH addr hf
    rw [hcnCloseNamespace_ok env namespaceH addr hf]; all_goals simp),
   (by
    intro env network
    cases hf : procHcnCloseNetwork.findAddr env with
    | error e => rw [hcnCloseNetwork_errFind env network e hf]; all_goals simp
    | ok addr => rw [hcnCloseNetwork_ok env network addr hf]; all_goals simp),
   (by
    intro env network addr hf
    rw [hcnCloseNetwork_ok env network addr hf]; all_goals simp),
   (by
    intro env route
    cases hf : procHcnCloseSdnRoute.findAddr env with
    | error e => rw [hcnCloseRoute_errFind env route e hf]; all_goals simp
    | ok addr => rw [hcnCloseRoute_ok env route addr hf]; all_goals simp),
   (by
    intro env route addr hf
    rw [hcnCloseRoute_ok env route addr hf]; all_goals simp),
   (by
    intro env id
    cases hf : procHcnDeleteEndpoint.findAddr env with
    | error e => rw [hcnDeleteEndpoint_errFind env id e hf]; all_goals simp
    | ok addr => rw [hcnDeleteEndpoint_ok env id addr hf]; all_goals simp),
   (by
    intro env id addr hf
    rw [hcnDeleteEndpoint_ok env id addr hf]; all_goals simp),
   (by
    intro env id
    cases hf : procHcnDeleteLoadBalancer.findAddr env with
    | error e => rw [hcnDeleteLoadBalancer_errFind env id e hf]; all_goals simp
    | ok addr => rw [hcnDeleteLoadBalancer_ok env id addr hf]; all_goals simp),
   (by
    intro env id addr hf
    rw [hcnDeleteLoadBalancer_ok env id addr hf]; all_goals simp),
   (by
    intro env id
    cases hf : procHcnDeleteNamespace.findAddr env with
    | error e => rw [hcnDeleteNamespace_errFind env id e hf]; all_goals simp
    | ok addr => rw [hcnDeleteNamespace_ok env id addr hf]; all_goals simp),
   (by
    intro env id addr hf
    rw [hcnDeleteNamespace_ok env id addr hf]; all_goals simp),
   (by
    intro env id
    cases hf : procHcnDeleteNetwork.findAddr env with
    | error e => rw [hcnDeleteNetwork_errFind env id e hf]; all_goals simp
    | ok addr => rw [hcnDeleteNetwork_ok env id addr hf]; all_goals simp),
   (by
    intro env id addr hf
    rw [hcnDeleteNetwork_ok env id addr hf]; all_goals simp),
   (by
    intro env id
    cases hf : procHcnDeleteSdnRoute.findAddr env with
    | error e => rw [hcnDeleteRoute_errFind env id e hf]; all_goals simp
    | ok addr => rw [hcnDeleteRoute_ok env id addr hf]; all_goals simp),
   (by
    intro env id addr hf
    rw [hcnDeleteRoute_ok env id addr hf]; all_goals simp),
   (by
    intro env id
    cases hf : procHcnOpenEndpoint.findAddr env with
    | error e => rw [hcnOpenEndpoint_errFind env id e hf]; all_goals simp
    | ok addr => rw [hcnOpenEndpoint_ok env id addr hf]; all_goals simp),
   (by
    intro env id addr hf
    rw [hcnOpenEndpoint_ok env id addr hf]; all_goals simp),
   (by
    intro env id
    cases hf : procHcnOpenLoadBalancer.findAddr env with
    | error e => rw [hcnOpenLoadBalancer_errFind env id e hf]; all_goals simp
    | ok addr => rw [hcnOpenLoadBalancer_ok env id addr hf]; all_goals simp),
   (by
    intro env id addr hf
    rw [hcnOpenLoadBalancer_ok env id addr hf]; all_goals simp),
   (by
    intro env id
    cases hf : procHcnOpenNamespace.findAddr env with
    | error e => rw [hcnOpenNamespace_errFind env id e hf]; all_goals simp
    | ok addr => rw [hcnOpenNamespace_ok env id addr hf]; all_goals simp),
   (by
    intro env id addr hf
    rw [hcnOpenNamespace_ok env id addr hf]; all_goals simp),
   (by
    intro env id
    cases hf : procHcnOpenNetwork.findAddr env with
    | error e => rw [hcnOpenNetwork_errFind env id e hf]; all_goals simp
    | ok addr => rw [hcnOpenNetwork_ok env id addr hf]; all_goals simp),
   (by
    intro env id addr hf
    rw [hcnOpenNetwork_ok env id addr hf]; all_goals simp),
   (by
    intro env id
    cases hf : procHcnOpenSdnRoute.findAddr env with
    | error e => rw [hcnOpenRoute_errFind env id e hf]; all_goals simp
    | ok addr => rw [hcnOpenRoute_ok env id addr hf]; all_goals simp),
   (by
    intro env id addr hf
    rw [hcnOpenRoute_ok env id addr hf]; all_goals simp),
   (by
    intro env network id settings
    cases hc : utf16PtrFromString settings with
    | error e => rw [hcnCreateEndpoint_encErr env network id settings e hc]; simp
    | ok buf =>
      rw [hcnCreateEndpoint_encOk env network id settings buf hc]
      cases hf : procHcnCreateEndpoint.findAddr env with
      | error e2 => rw [_hcnCreateEndpoint_errFind env network id buf e2 hf]; all_goals simp
      | ok addr => rw [_hcnCreateEndpoint_ok env network id buf addr hf]; all_goals simp),
   (by
    intro env network id settings buf addr hc hf
    rw [hcnCreateEndpoint_encOk env network id settings buf hc, _hcnCreateEndpoint_ok env network id buf addr hf]; all_goals simp),
   (by
    intro env id settings
    cases hc : utf16PtrFromString settings with
    | error e => rw [hcnCreateLoadBalancer_encErr env id settings e hc]; simp
    | ok buf =>
      rw [hcnCreateLoadBalancer_encOk env id settings buf hc]
      cases hf : procHcnCreateLoadBalancer.findAddr env with
      | error e2 => rw [_hcnCreateLoadBalancer_errFind env id buf e2 hf]; all_goals simp
      | ok addr => rw [_hcnCreateLoadBalancer_ok env id buf addr hf]; all_goals simp),
   (by
    intro env id settings buf addr hc hf
    rw [hcnCreateLoadBalancer_encOk env id settings buf hc, _hcnCreateLoadBalancer_ok env id buf addr hf]; all_goals simp),
   (by
    intro env id settings
    cases hc : utf16PtrFromString settings with
    | error e => rw [hcnCreateNamespace_encErr env id settings e hc]; simp
    | ok buf =>
      rw [hcnCreateNamespace_encOk env id settings buf hc]
      cases hf : procHcnCreateNamespace.findAddr env with
      | error e2 => rw [_hcnCreateNamespace_errFind env id buf e2 hf]; all_goals simp
      | ok addr => rw [_hcnCreateNamespace_ok env id buf addr hf]; all_goals simp),
   (by
    intro env id settings buf addr hc hf
    rw [hcnCreateNamespace_encOk env id settings buf hc, _hcnCreateNamespace_ok env id buf addr hf]; all_goals simp),
   (by
    intro env id settings
    cases hc : utf16PtrFromString settings with
    | error e => rw [hcnCreateNetwork_encErr env id settings e hc]; simp
    | ok buf =>
      rw [hcnCreateNetwork_encOk env id settings buf hc]
      cases hf : procHcnCreateNetwork.findAddr env with
      | error e2 => rw [_hcnCreateNetwork_errFind env id buf e2 hf]; all_goals simp
      | ok addr => rw [_hcnCreateNetwork_ok env id buf addr hf]; all_goals simp),
   (by
    intro env id settings buf addr hc hf
    rw [hcnCreateNetwork_encOk env id settings buf hc, _hcnCreateNetwork_ok env id buf addr hf]; all_goals simp),
   (by
    intro env id settings
    cases hc : utf16PtrFromString settings with
    | error e => rw [hcnCreateRoute_encErr env id settings e hc]; simp
    | ok buf =>
      rw [hcnCreateRoute_encOk env id settings buf hc]
      cases hf : procHcnCreateSdnRoute.findAddr env with
      | error e2 => rw [_hcnCreateRoute_errFind env id buf e2 hf]; all_goals simp
      | ok addr => rw [_hcnCreateRoute_ok env id buf addr hf]; all_goals simp),
   (by
    intro env id settings buf addr hc hf
    rw [hcnCreateRoute_encOk env id settings buf hc, _hcnCreateRoute_ok env id buf addr hf]; all_goals simp),
   (by
    intro env query
    cases hc : utf16PtrFromString query with
    | error e => rw [hcnEnumerateEndpoints_encErr env query e hc]; simp
    | ok buf =>
      rw [hcnEnumerateEndpoints_encOk env query buf hc]
      cases hf : procHcnEnumerateEndpoints.findAddr env with
      | error e2 => rw [_hcnEnumerateEndpoints_errFind env buf e2 hf]; all_goals simp
      | ok addr => rw [_hcnEnumerateEndpoints_ok env buf addr hf]; all_goals simp),
   (by
    intro env query buf addr hc hf
    rw [hcnEnumerateEndpoints_encOk env query buf hc, _hcnEnumerateEndpoints_ok env buf addr hf]; all_goals simp),
   (by
    intro env query
    cases hc : utf16PtrFromString query with
    | error e => rw [hcnEnumerateLoadBalancers_encErr env query e hc]; simp
    | ok buf =>
      rw [hcnEnumerateLoadBalancers_encOk env query buf hc]
      cases hf : procHcnEnumerateLoadBalancers.findAddr env with
      | error e2 => rw [_hcnEnumerateLoadBalancers_errFind env buf e2 hf]; all_goals simp
      | ok addr => rw [_hcnEnumerateLoadBalancers_ok env buf addr hf]; all_goals simp),
   (by
    intro env query buf addr hc hf
    rw [hcnEnumerateLoadBalancers_encOk env query buf hc, _hcnEnumerateLoadBalancers_ok env buf addr hf]; all_goals simp),
   (by
    intro env query
    cases hc : utf16PtrFromString query with
    | error e => rw [hcnEnumerateNamespaces_encErr env query e hc]; simp
    | ok buf =>
      rw [hcnEnumerateNamespaces_encOk env query buf hc]
      cases hf : procHcnEnumerateNamespaces.findAddr env with
      | error e2 => rw [_hcnEnumerateNamespaces_errFind env buf e2 hf]; all_goals simp
      | ok addr => rw [_hcnEnumerateNamespaces_ok env buf addr hf]; all_goals simp),
   (by
    intro env query buf addr hc hf
    rw [hcnEnumerateNamespaces_encOk env query buf hc, _hcnEnumerateNamespaces_ok env buf addr hf]; all_goals simp),
   (by
    intro env query
    cases hc : utf16PtrFromString query with
    | error e => rw [hcnEnumerateNetworks_encErr env query e hc]; simp
    | ok buf =>
      rw [hcnEnumerateNetworks_encOk env query buf hc]
      cases hf : procHcnEnumerateNetworks.findAddr env with
      | error e2 => rw [_hcnEnumerateNetworks_errFind env buf e2 hf]; all_goals simp
      | ok addr => rw [_hcnEnumerateNetworks_ok env buf addr hf]; all_goals simp),
   (by
    intro env query buf addr hc hf
    rw [hcnEnumerateNetworks_encOk env query buf hc, _hcnEnumerateNetworks_ok env buf addr hf]; all_goals simp),
   (by
    intro env query
    cases hc : utf16PtrFromString query with
    | error e => rw [hcnEnumerateRoutes_encErr env query e hc]; simp
    | ok buf =>
      rw [hcnEnumerateRoutes_encOk env query buf hc]
      cases hf : procHcnEnumerateSdnRoutes.findAddr env with
      | error e2 => rw [_hcnEnumerateRoutes_errFind env buf e2 hf]; all_goals simp
      | ok addr => rw [_hcnEnumerateRoutes_ok env buf addr hf]; all_goals simp),
   (by
    intro env query buf addr hc hf
    rw [hcnEnumerateRoutes_encOk env query buf hc, _hcnEnumerateRoutes_ok env buf addr hf]; all_goals simp),
   (by
    intro env endpoint settings
    cases hc : utf16PtrFromString settings with
    | error e => rw [hcnModifyEndpoint_encErr env endpoint settings e hc]; simp
    | ok buf =>
      rw [hcnModifyEndpoint_encOk env endpoint settings buf hc]
      cases hf : procHcnModifyEndpoint.findAddr env with
      | error e2 => rw [_hcnModifyEndpoint_errFind env endpoint buf e2 hf]; all_goals simp
      | ok addr => rw [_hcnModifyEndpoint_ok env endpoint buf addr hf]; all_goals simp),
   (by
    intro env endpoint settings buf addr hc hf
    rw [hcnModifyEndpoint_encOk env endpoint settings buf hc, _hcnModifyEndpoint_ok env endpoint buf addr hf]; all_goals simp),
   (by
    intro env loadBalancer settings
    cases hc : utf16PtrFromString settings with
    | error e => rw [hcnModifyLoadBalancer_encErr env loadBalancer settings e hc]; simp
    | ok buf =>
      rw [hcnModifyLoadBalancer_encOk env loadBalancer settings buf hc]
      cases hf : procHcnModifyLoadBalancer.findAddr env with
      | error e2 => rw [_hcnModifyLoadBalancer_errFind env loadBalancer buf e2 hf]; all_goals simp
      | ok addr => rw [_hcnModifyLoadBalancer_ok env loadBalancer buf addr hf]; all_goals simp),
   (by
    intro env loadBalancer settings buf addr hc hf
    rw [hcnModifyLoadBalancer_encOk env loadBalancer settings buf hc, _hcnModifyLoadBalancer_ok env loadBalancer buf addr hf]; all_goals simp),
   (by
    intro env namespaceH settings
    cases hc : utf16PtrFromString settings with
    | error e => rw [hcnModifyNamespace_encErr env namespaceH settings e hc]; simp
    | ok buf =>
      rw [hcnModifyNamespace_encOk env namespaceH settings buf hc]
      cases hf : procHcnModifyNamespace.findAddr env with
      | error e2 => rw [_hcnModifyNamespace_errFind env namespaceH buf e2 hf]; all_goals simp
      | ok addr => rw [_hcnModifyNamespace_ok env namespaceH buf addr hf]; all_goals simp),
   (by
    intro env namespaceH settings buf addr hc hf
    rw [hcnModifyNamespace_encOk env namespaceH settings buf hc, _hcnModifyNamespace_ok env namespaceH buf addr hf]; all_goals simp),
   (by
    intro env network settings
    cases hc : utf16PtrFromString settings with
    | error e => rw [hcnModifyNetwork_encErr env network settings e hc]; simp
    | ok buf =>
      rw [hcnModifyNetwork_encOk env network settings buf hc]
      cases hf : procHcnModifyNetwork.findAddr env with
      | error e2 => rw [_hcnModifyNetwork_errFind env network buf e2 hf]; all_goals simp
      | ok addr => rw [_hcnModifyNetwork_ok env network buf addr hf]; all_goals simp),
   (by
    intro env network settings buf addr hc hf
    rw [hcnModifyNetwork_encOk env network settings buf hc, _hcnModifyNetwork_ok env network buf addr hf]; all_goals simp),
   (by
    intro env route settings
    cases hc : utf16PtrFromString settings with
    | error e => rw [hcnModifyRoute_encErr env route settings e hc]; simp
    | ok buf =>
      rw [hcnModifyRoute_encOk env route settings buf hc]
      cases hf : procHcnModifySdnRoute.findAddr env with
      | error e2 => rw [_hcnModifyRoute_errFind env route buf e2 hf]; all_goals simp
      | ok addr => rw [_hcnModifyRoute_ok env route buf addr hf]; all_goals simp),
   (by
    intro env route settings buf addr hc hf
    rw [hcnModifyRoute_encOk env route settings buf hc, _hcnModifyRoute_ok env route buf addr hf]; all_goals simp),
   (by
    intro env endpoint query
    cases hc : utf16PtrFromString query with
    | error e => rw [hcnQueryEndpointProperties_encErr env endpoint query e hc]; simp
    | ok buf =>
      rw [hcnQueryEndpointProperties_encOk env endpoint query buf hc]
      cases hf : procHcnQueryEndpointProperties.findAddr env with
      | error e2 => rw [_hcnQueryEndpointProperties_errFind env endpoint buf e2 hf]; all_goals simp
      | ok addr => rw [_hcnQueryEndpointProperties_ok env endpoint buf addr hf]; all_goals simp),
   (by
    intro env endpoint query buf addr hc hf
    rw [hcnQueryEndpointProperties_encOk env endpoint query buf hc, _hcnQueryEndpointProperties_ok env endpoint buf addr hf]; all_goals simp),
   (by
    intro env loadBalancer query
    cases hc : utf16PtrFromString query with
    | error e => rw [hcnQueryLoadBalancerProperties_encErr env loadBalancer query e hc]; simp
    | ok buf =>
      rw [hcnQueryLoadBalancerProperties_encOk env loadBalancer query buf hc]
      cases hf : procHcnQueryLoadBalancerProperties.findAddr env with
      | error e2 => rw [_hcnQueryLoadBalancerProperties_errFind env loadBalancer buf e2 hf]; all_goals simp
      | ok addr => rw [_hcnQueryLoadBalancerProperties_ok env loadBalancer buf addr hf]; all_goals simp),
   (by
    intro env loadBalancer query buf addr hc hf
    rw [hcnQueryLoadBalancerProperties_encOk env loadBalancer query buf hc, _hcnQueryLoadBalancerProperties_ok env loadBalancer buf addr hf]; all_goals simp),
   (by
    intro env namespaceH query
    cases hc : utf16PtrFromString query with
    | error e => rw [hcnQueryNamespaceProperties_encErr env namespaceH query e hc]; simp
    | ok buf =>
      rw [hcnQueryNamespaceProperties_encOk env namespaceH query buf hc]
      cases hf : procHcnQueryNamespaceProperties.findAddr env with
      | error e2 => rw [_hcnQueryNamespaceProperties_errFind env namespaceH buf e2 hf]; all_goals simp
      | ok addr => rw [_hcnQueryNamespaceProperties_ok env namespaceH buf addr hf]; all_goals simp),
   (by
    intro env namespaceH query buf addr hc hf
    rw [hcnQueryNamespaceProperties_encOk env namespaceH query buf hc, _hcnQueryNamespaceProperties_ok env namespaceH buf addr hf]; all_goals simp),
   (by
    intro env network query
    cases hc : utf16PtrFromString query with
    | error e => rw [hcnQueryNetworkProperties_encErr env network query e hc]; simp
    | ok buf =>
      rw [hcnQueryNetworkProperties_encOk env network query buf hc]
      cases hf : procHcnQueryNetworkProperties.findAddr env with
      | error e2 => rw [_hcnQueryNetworkProperties_errFind env network buf e2 hf]; all_goals simp
      | ok addr => rw [_hcnQueryNetworkProperties_ok env network buf addr hf]; all_goals simp),
   (by
    intro env network query buf addr hc hf
    rw [hcnQueryNetworkProperties_encOk env network query buf hc, _hcnQueryNetworkProperties_ok env network buf addr hf]; all_goals simp),
   (by
    intro env route query
    cases hc : utf16PtrFromString query with
    | error e => rw [hcnQueryRouteProperties_encErr env route query e hc]; simp
    | ok buf =>
      rw [hcnQueryRouteProperties_encOk env route query buf hc]
      cases hf : procHcnQuerySdnRouteProperties.findAddr env with
      | error e2 => rw [_hcnQueryRouteProperties_errFind env route buf e2 hf]; all_goals simp
      | ok addr => rw [_hcnQueryRouteProperties_ok env route buf addr hf]; all_goals simp),
   (by
    intro env route query buf addr hc hf
    rw [hcnQueryRouteProperties_encOk env route query buf hc, _hcnQueryRouteProperties_ok env route buf addr hf]; all_goals simp),
   (by
    intro env method path object
    cases h0 : utf16PtrFromString method with
    | error e => rw [_hnsCall_encErr0 env method path object e h0]; simp
    | ok b0 =>
      cases h1 : utf16PtrFromString path with
      | error e => rw [_hnsCall_encErr1 env method path object b0 e h0 h1]; simp
      | ok b1 =>
        cases h2 : utf16PtrFromString object with
        | error e => rw [_hnsCall_encErr2 env method path object b0 b1 e h0 h1 h2]; simp
        | ok b2 =>
          rw [_hnsCall_encOk env method path object b0 b1 b2 h0 h1 h2]
          cases hf : procHNSCall.findAddr env with
          | error e => rw [__hnsCall_errFind env b0 b1 b2 e hf]; all_goals simp
          | ok addr => rw [__hnsCall_ok env b0 b1 b2 addr hf]; all_goals simp),
   (by
    intro env method path object b0 b1 b2 addr h0 h1 h2 hf
    rw [_hnsCall_encOk env method path object b0 b1 b2 h0 h1 h2,
      __hnsCall_ok env b0 b1 b2 addr hf]
    all_goals simp),
   (by
    intro env r h
    cases ha : procGetCurrentThreadCompartmentId.addrP env with
    | none => rw [GetCurrentThreadCompartmentId_panic env ha] at h; cases h
    | some addr =>
      rw [GetCurrentThreadCompartmentId_ok env addr ha] at h
      injection h with h2
      rw [← h2]
      all_goals simp),
   (by
    intro env compartmentId r h
    cases ha : procSetCurrentThreadCompartmentId.addrP env with
    | none => rw [SetCurrentThreadCompartmentId_panic env compartmentId ha] at h; cases h
    | some addr =>
      rw [SetCurrentThreadCompartmentId_ok env compartmentId addr ha] at h
      injection h with h2
      rw [← h2]
      all_goals simp)⟩

/-- C9: every wrapper (all Close/Create/Delete/Enumerate/Modify/Open/Query
operations across the five resource families, plus
SetCurrentThreadCompartmentId and the HNS legacy call) decodes the native
status word with an extensionally identical decode function, namely
`hrDecode`: the same sign test, the same errno-pattern mask, and the same
wrapping into the returned error. -/
theorem wrappers_decode_refines_hrDecode :
    (∀ (env : NativeEnv) (endpoint : hcnEndpoint) (addr : Nat),
      procHcnCloseEndpoint.findAddr env = Except.ok addr →
      (hcnCloseEndpoint env endpoint).hr = hrDecode (env.call addr [Arg.num endpoint]).r0) ∧
    (∀ (env : NativeEnv) (loadBalancer : hcnLoadBalancer) (addr : Nat),
      procHcnCloseLoadBalancer.findAddr env = Except.ok addr →
      (hcnCloseLoadBalancer env loadBalancer).hr = hrDecode (env.call addr [Arg.num loadBalancer]).r0) ∧
    (∀ (env : NativeEnv) (namespaceH : hcnNamespace) (addr : Nat),
      procHcnCloseNamespace.findAddr env = Except.ok addr →
      (hcnCloseNamespace env namespaceH).hr = hrDecode (env.call addr [Arg.num namespaceH]).r0) ∧
    (∀ (env : NativeEnv) (network : hcnNetwork) (addr : Nat),
      procHcnCloseNetwork.findAddr env = Except.ok addr →
      (hcnCloseNetwork env network).hr = hrDecode (env.call addr [Arg.num network]).r0) ∧
    (∀ (env : NativeEnv) (route : hcnRoute) (addr : Nat),
      procHcnCloseSdnRoute.findAddr env = Except.ok addr →
      (hcnCloseRoute env route).hr = hrDecode (env.call addr [Arg.num route]).r0) ∧
    (∀ (env : NativeEnv) (network : hcnNetwork) (id : Guid) (settings : List Nat) (addr : Nat),
      procHcnCreateEndpoint.findAddr env = Except.ok addr →
      (_hcnCreateEndpoint env network id settings).hr = hrDecode (env.call addr [Arg.num network, Arg.ptrGuid id, Arg.ptrStr settings, Arg.outHandle, Arg.outStr]).r0) ∧
    (∀ (env : NativeEnv) (id : Guid) (settings : List Nat) (addr : Nat),
      procHcnCreateLoadBalancer.findAddr env = Except.ok addr →
      (_hcnCreateLoadBalancer env id settings).hr = hrDecode (env.call addr [Arg.ptrGuid id, Arg.ptrStr settings, Arg.outHandle, Arg.outStr]).r0) ∧
    (∀ (env : NativeEnv) (id : Guid) (settings : List Nat) (addr : Nat),
      procHcnCreateNamespace.findAddr env = Except.ok addr →
      (_hcnCreateNamespace env id settings).hr = hrDecode (env.call addr [Arg.ptrGuid id, Arg.ptrStr settings, Arg.outHandle, Arg.outStr]).r0) ∧
    (∀ (env : NativeEnv) (id : Guid) (settings : List Nat) (addr : Nat),
      procHcnCreateNetwork.findAddr env = Except.ok addr →
      (_hcnCreateNetwork env id settings).hr = hrDecode (env.call addr [Arg.ptrGuid id, Arg.ptrStr settings, Arg.outHandle, Arg.outStr]).r0) ∧
    (∀ (env : NativeEnv) (id : Guid) (settings : List Nat) (addr : Nat),
      procHcnCreateSdnRoute.findAddr env = Except.ok addr →
      (_hcnCreateRoute env id settings).hr = hrDecode (env.call addr [Arg.ptrGuid id, Arg.ptrStr settings, Arg.outHandle, Arg.outStr]).r0) ∧
    (∀ (env : NativeEnv) (id : Guid) (addr : Nat),
      procHcnDeleteEndpoint.findAddr env = Except.ok addr →
      (hcnDeleteEndpoint env id).hr = hrDecode (env.call addr [Arg.ptrGuid id, Arg.outStr]).r0) ∧
    (∀ (env : NativeEnv) (id : Guid) (addr : Nat),
      procHcnDeleteLoadBalancer.findAddr env = Except.ok addr →
      (hcnDeleteLoadBalancer env id).hr = hrDecode (env.call addr [Arg.ptrGuid id, Arg.outStr]).r0) ∧
    (∀ (env : NativeEnv) (id : Guid) (addr : Nat),
      procHcnDeleteNamespace.findAddr env = Except.ok addr →
      (hcnDeleteNamespace env id).hr = hrDecode (env.call addr [Arg.ptrGuid id, Arg.outStr]).r0) ∧
    (∀ (env : NativeEnv) (id : Guid) (addr : Nat),
      procHcnDeleteNetwork.findAddr env = Except.ok addr →
      (hcnDeleteNetwork env id).hr = hrDecode (env.call addr [Arg.ptrGuid id, Arg.outStr]).r0) ∧
    (∀ (env : NativeEnv) (id : Guid) (addr : Nat),
      procHcnDeleteSdnRoute.findAddr env = Except.ok addr →
      (hcnDeleteRoute env id).hr = hrDecode (env.call addr [Arg.ptrGuid id, Arg.outStr]).r0) ∧
    (∀ (env : NativeEnv) (query : List Nat) (addr : Nat),
      procHcnEnumerateEndpoints.findAddr env = Except.ok addr →
      (_hcnEnumerateEndpoints env query).hr = hrDecode (env.call addr [Arg.ptrStr query, Arg.outStr, Arg.outStr]).r0) ∧
    (∀ (env : NativeEnv) (query : List Nat) (addr : Nat),
      procHcnEnumerateLoadBalancers.findAddr env = Except.ok addr →
      (_hcnEnumerateLoadBalancers env query).hr = hrDecode (env.call addr [Arg.ptrStr query, Arg.outStr, Arg.outStr]).r0) ∧
    (∀ (env : NativeEnv) (query : List Nat) (addr : Nat),
      procHcnEnumerateNamespaces.findAddr env = Except.ok addr →
      (_hcnEnumerateNamespaces env query).hr = hrDecode (env.call addr [Arg.ptrStr query, Arg.outStr, Arg.outStr]).r0) ∧
    (∀ (env : NativeEnv) (query : List Nat) (addr : Nat),
      procHcnEnumerateNetworks.findAddr env = Except.ok addr →
      (_hcnEnumerateNetworks env query).hr = hrDecode (env.call addr [Arg.ptrStr query, Arg.outStr, Arg.outStr]).r0) ∧
    (∀ (env : NativeEnv) (query : List Nat) (addr : Nat),
      procHcnEnumerateSdnRoutes.findAddr env = Except.ok addr →
      (_hcnEnumerateRoutes env query).hr = hrDecode (env.call addr [Arg.ptrStr query, Arg.outStr, Arg.outStr]).r0) ∧
    (∀ (env : NativeEnv) (endpoint : hcnEndpoint) (settings : List Nat) (addr : Nat),
      procHcnModifyEndpoint.findAddr env = Except.ok addr →
      (_hcnModifyEndpoint env endpoint settings).hr = hrDecode (env.call addr [Arg.num endpoint, Arg.ptrStr settings, Arg.outStr]).r0) ∧
    (∀ (env : NativeEnv) (loadBalancer : hcnLoadBalancer) (settings : List Nat) (addr : Nat),
      procHcnModifyLoadBalancer.findAddr env = Except.ok addr →
      (_hcnModifyLoadBalancer env loadBalancer settings).hr = hrDecode (env.call addr [Arg.num loadBalancer, Arg.ptrStr settings, Arg.outStr]).r0) ∧
    (∀ (env : NativeEnv) (namespaceH : hcnNamespace) (settings : List Nat) (addr : Nat),
      procHcnModifyNamespace.findAddr env = Except.ok addr →
      (_hcnModifyNamespace env namespaceH settings).hr = hrDecode (env.call addr [Arg.num namespaceH, Arg.ptrStr settings, Arg.outStr]).r0) ∧
    (∀ (env : NativeEnv) (network : hcnNetwork) (settings : List Nat) (addr : Nat),
      procHcnModifyNetwork.findAddr env = Except.ok addr →
      (_hcnModifyNetwork env network settings).hr = hrDecode (env.call addr [Arg.num network, Arg.ptrStr settings, Arg.outStr]).r0) ∧
    (∀ (env : NativeEnv) (route : hcnRoute) (settings : List Nat) (addr : Nat),
      procHcnModifySdnRoute.findAddr env = Except.ok addr →
      (_hcnModifyRoute env route settings).hr = hrDecode (env.call addr [Arg.num route, Arg.ptrStr settings, Arg.outStr]).r0) ∧
    (∀ (env : NativeEnv) (id : Guid) (addr : Nat),
      procHcnOpenEndpoint.findAddr env = Except.ok addr →
      (hcnOpenEndpoint env id).hr = hrDecode (env.call addr [Arg.ptrGuid id, Arg.outHandle, Arg.outStr]).r0) ∧
    (∀ (env : NativeEnv) (id : Guid) (addr : Nat),
      procHcnOpenLoadBalancer.findAddr env = Except.ok addr →
      (hcnOpenLoadBalancer env id).hr = hrDecode (env.call addr [Arg.ptrGuid id, Arg.outHandle, Arg.outStr]).r0) ∧
    (∀ (env : NativeEnv) (id : Guid) (addr : Nat),
      procHcnOpenNamespace.findAddr env = Except.ok addr →
      (hcnOpenNamespace env id).hr = hrDecode (env.call addr [Arg.ptrGuid id, Arg.outHandle, Arg.outStr]).r0) ∧
    (∀ (env : NativeEnv) (id : Guid) (addr : Nat),
      procHcnOpenNetwork.findAddr env = Except.ok addr →
      (hcnOpenNetwork env id).hr = hrDecode (env.call addr [Arg.ptrGuid id, Arg.outHandle, Arg.outStr]).r0) ∧
    (∀ (env : NativeEnv) (id : Guid) (addr : Nat),
      procHcnOpenSdnRoute.findAddr env = Except.ok addr →
      (hcnOpenRoute env id).hr = hrDecode (env.call addr [Arg.ptrGuid id, Arg.outHandle, Arg.outStr]).r0) ∧
    (∀ (env : NativeEnv) (endpoint : hcnEndpoint) (query : List Nat) (addr : Nat),
      procHcnQueryEndpointProperties.findAddr env = Except.ok addr →
      (_hcnQueryEndpointProperties env endpoint query).hr = hrDecode (env.call addr [Arg.num endpoint, Arg.ptrStr query, Arg.outStr, Arg.outStr]).r0) ∧
    (∀ (env : NativeEnv) (loadBalancer : hcnLoadBalancer) (query : List Nat) (addr : Nat),
      procHcnQueryLoadBalancerProperties.findAddr env = Except.ok addr →
      (_hcnQueryLoadBalancerProperties env loadBalancer query).hr = hrDecode (env.call addr [Arg.num loadBalancer, Arg.ptrStr query, Arg.outStr, Arg.outStr]).r0) ∧
    (∀ (env : NativeEnv) (namespaceH : hcnNamespace) (query : List Nat) (addr : Nat),
      procHcnQueryNamespaceProperties.findAddr env = Except.ok addr →
      (_hcnQueryNamespaceProperties env namespaceH query).hr = hrDecode (env.call addr [Arg.num namespaceH, Arg.ptrStr query, Arg.outStr, Arg.outStr]).r0) ∧
    (∀ (env : NativeEnv) (network : hcnNetwork) (query : List Nat) (addr : Nat),
      procHcnQueryNetworkProperties.findAddr env = Except.ok addr →
      (_hcnQueryNetworkProperties env network query).hr = hrDecode (env.call addr [Arg.num network, Arg.ptrStr query, Arg.outStr, Arg.outStr]).r0) ∧
    (∀ (env : NativeEnv) (route : hcnRoute) (query : List Nat) (addr : Nat),
      procHcnQuerySdnRouteProperties.findAddr env = Except.ok addr →
      (_hcnQueryRouteProperties env route query).hr = hrDecode (env.call addr [Arg.num route, Arg.ptrStr query, Arg.outStr, Arg.outStr]).r0) ∧
    (∀ (env : NativeEnv) (method : List Nat) (path : List Nat) (object : List Nat) (addr : Nat),
      procHNSCall.findAddr env = Except.ok addr →
      (__hnsCall env method path object).hr = hrDecode (env.call addr [Arg.ptrStr method, Arg.ptrStr path, Arg.ptrStr object, Arg.outStr]).r0) ∧
    (∀ (env : NativeEnv) (compartmentId : Nat) (addr : Nat),
      procSetCurrentThreadCompartmentId.addrP env = some addr →
      (SetCurrentThreadCompartmentId env compartmentId).map (fun r => r.hr) =
        some (hrDecode (env.call addr [Arg.num compartmentId]).r0)) :=
  ⟨(by
    intro env endpoint addr hf
    rw [hcnCloseEndpoint_ok env endpoint addr hf]),
   (by
    intro env loadBalancer addr hf
    rw [hcnCloseLoadBalancer_ok env loadBalancer addr hf]),
   (by
    intro env namespaceH addr hf
    rw [hcnCloseNamespace_ok env namespaceH addr hf]),
   (by
    intro env network addr hf
    rw [hcnCloseNetwork_ok env network addr hf]),
   (by
    intro env route addr hf
    rw [hcnCloseRoute_ok env route addr hf]),
   (by
    intro env network id settings addr hf
    rw [_hcnCreateEndpoint_ok env network id settings addr hf]),
   (by
    intro env id settings addr hf
    rw [_hcnCreateLoadBalancer_ok env id settings addr hf]),
   (by
    intro env id settings addr hf
    rw [_hcnCreateNamespace_ok env id settings addr hf]),
   (by
    intro env id settings addr hf
    rw [_hcnCreateNetwork_ok env id settings addr hf]),
   (by
    intro env id settings addr hf
    rw [_hcnCreateRoute_ok env id settings addr hf]),
   (by
    intro env id addr hf
    rw [hcnDeleteEndpoint_ok env id addr hf]),
   (by
    intro env id addr hf
    rw [hcnDeleteLoadBalancer_ok env id addr hf]),
   (by
    intro env id addr hf
    rw [hcnDeleteNamespace_ok env id addr hf]),
   (by
    intro env id addr hf
    rw [hcnDeleteNetwork_ok env id addr hf]),
   (by
    intro env id addr hf
    rw [hcnDeleteRoute_ok env id addr hf]),
   (by
    intro env query addr hf
    rw [_hcnEnumerateEndpoints_ok env query addr hf]),
   (by
    intro env query addr hf
    rw [_hcnEnumerateLoadBalancers_ok env query addr hf]),
   (by
    intro env query addr hf
    rw [_hcnEnumerateNamespaces_ok env query addr hf]),
   (by
    intro env query addr hf
    rw [_hcnEnumerateNetworks_ok env query addr hf]),
   (by
    intro env query addr hf
    rw [_hcnEnumerateRoutes_ok env query addr hf]),
   (by
    intro env endpoint settings addr hf
    rw [_hcnModifyEndpoint_ok env endpoint settings addr hf]),
   (by
    intro env loadBalancer settings addr hf
    rw [_hcnModifyLoadBalancer_ok env loadBalancer settings addr hf]),
   (by
    intro env namespaceH settings addr hf
    rw [_hcnModifyNamespace_ok env namespaceH settings addr hf]),
   (by
    intro env network settings addr hf
    rw [_hcnModifyNetwork_ok env network settings addr hf]),
   (by
    intro env route settings addr hf
    rw [_hcnModifyRoute_ok env route settings addr hf]),
   (by
    intro env id addr hf
    rw [hcnOpenEndpoint_ok env id addr hf]),
   (by
    intro env id addr hf
    rw [hcnOpenLoadBalancer_ok env id addr hf]),
   (by
    intro env id addr hf
    rw [hcnOpenNamespace_ok env id addr hf]),
   (by
    intro env id addr hf
    rw [hcnOpenNetwork_ok env id addr hf]),
   (by
    intro env id addr hf
    rw [hcnOpenRoute_ok env id addr hf]),
   (by
    intro env endpoint query addr hf
    rw [_hcnQueryEndpointProperties_ok env endpoint query addr hf]),
   (by
    intro env loadBalancer query addr hf
    rw [_hcnQueryLoadBalancerProperties_ok env loadBalancer query addr hf]),
   (by
    intro env namespaceH query addr hf
    rw [_hcnQueryNamespaceProperties_ok env namespaceH query addr hf]),
   (by
    intro env network query addr hf
    rw [_hcnQueryNetworkProperties_ok env network query addr hf]),
   (by
    intro env route query addr hf
    rw [_hcnQueryRouteProperties_ok env route query addr hf]),
   (by
    intro env method path object addr hf
    rw [__hnsCall_ok env method path object addr hf]),
   (by
    intro env compartmentId addr hf
    rw [SetCurrentThreadCompartmentId_ok env compartmentId addr hf]
    rfl)⟩

/-- C2 (amended): every wrapper that guards the native call with `Find` —
all computenetwork.dll operations and the HNS legacy call — returns the
distinct symbol-not-resolved error (never a zero-value success, never a
native-call error) when resolution fails, before any native invocation; the
two thread-compartment wrappers instead call `Addr` without a `Find` guard
and panic (return nothing at all) on resolution failure; in particular a
Create on a host lacking the HCN feature fails with the symbol-not-resolved
error kind. -/
theorem resolutionFailure_reporting_amended :
    (∀ (env : NativeEnv) (endpoint : hcnEndpoint),
      env.resolve "HcnCloseEndpoint" = none →
      hcnCloseEndpoint env endpoint = ⟨some (GoError.procNotFound modcomputenetwork "HcnCloseEndpoint"), none, []⟩) ∧
    (∀ (env : NativeEnv) (loadBalancer : hcnLoadBalancer),
      env.resolve "HcnCloseLoadBalancer" = none →
      hcnCloseLoadBalancer env loadBalancer = ⟨some (GoError.procNotFound modcomputenetwork "HcnCloseLoadBalancer"), none, []⟩) ∧
    (∀ (env : NativeEnv) (namespaceH : hcnNamespace),
      env.resolve "HcnCloseNamespace" = none →
      hcnCloseNamespace env namespaceH = ⟨some (GoError.procNotFound modcomputenetwork "HcnCloseNamespace"), none, []⟩) ∧
    (∀ (env : NativeEnv) (network : hcnNetwork),
      env.resolve "HcnCloseNetwork" = none →
      hcnCloseNetwork env network = ⟨some (GoError.procNotFound modcomputenetwork "HcnCloseNetwork"), none, []⟩) ∧
    (∀ (env : NativeEnv) (route : hcnRoute),
      env.resolve "HcnCloseSdnRoute" = none →
      hcnCloseRoute env route = ⟨some (GoError.procNotFound modcomputenetwork "HcnCloseSdnRoute"), none, []⟩) ∧
    (∀ (env : NativeEnv) (network : hcnNetwork) (id : Guid) (settings : List Nat),
      env.resolve "HcnCreateEndpoint" = none →
      _hcnCreateEndpoint env network id settings = ⟨some (GoError.procNotFound modcomputenetwork "HcnCreateEndpoint"), none, []⟩) ∧
    (∀ (env : NativeEnv) (id : Guid) (settings : List Nat),
      env.resolve "HcnCreateLoadBalancer" = none →
      _hcnCreateLoadBalancer env id settings = ⟨some (GoError.procNotFound modcomputenetwork "HcnCreateLoadBalancer"), none, []⟩) ∧
    (∀ (env : NativeEnv) (id : Guid) (settings : List Nat),
      env.resolve "HcnCreateNamespace" = none →
      _hcnCreateNamespace env id settings = ⟨some (GoError.procNotFound modcomputenetwork "HcnCreateNamespace"), none, []⟩) ∧
    (∀ (env : NativeEnv) (id : Guid) (settings : List Nat),
      env.resolve "HcnCreateNetwork" = none →
      _hcnCreateNetwork env id settings = ⟨some (GoError.procNotFound modcomputenetwork "HcnCreateNetwork"), none, []⟩) ∧
    (∀ (env : NativeEnv) (id : Guid) (settings : List Nat),
      env.resolve "HcnCreateSdnRoute" = none →
      _hcnCreateRoute env id settings = ⟨some (GoError.procNotFound modcomputenetwork "HcnCreateSdnRoute"), none, []⟩) ∧
    (∀ (env : NativeEnv) (id : Guid),
      env.resolve "HcnDeleteEndpoint" = none →
      hcnDeleteEndpoint env id = ⟨some (GoError.procNotFound modcomputenetwork "HcnDeleteEndpoint"), none, []⟩) ∧
    (∀ (env : NativeEnv) (id : Guid),
      env.resolve "HcnDeleteLoadBalancer" = none →
      hcnDeleteLoadBalancer env id = ⟨some (GoError.procNotFound modcomputenetwork "HcnDeleteLoadBalancer"), none, []⟩) ∧
    (∀ (env : NativeEnv) (id : Guid),
      env.resolve "HcnDeleteNamespace" = none →
      hcnDeleteNamespace env id = ⟨some (GoError.procNotFound modcomputenetwork "HcnDeleteNamespace"), none, []⟩) ∧
    (∀ (env : NativeEnv) (id : Guid),
      env.resolve "HcnDeleteNetwork" = none →
      hcnDeleteNetwork env id = ⟨some (GoError.procNotFound modcomputenetwork "HcnDeleteNetwork"), none, []⟩) ∧
    (∀ (env : NativeEnv) (id : Guid),
      env.resolve "HcnDeleteSdnRoute" = none →
      hcnDeleteRoute env id = ⟨some (GoError.procNotFound modcomputenetwork "HcnDeleteSdnRoute"), none, []⟩) ∧
    (∀ (env : NativeEnv) (query : List Nat),
      env.resolve "HcnEnumerateEndpoints" = none →
      _hcnEnumerateEndpoints env query = ⟨some (GoError.procNotFound modcomputenetwork "HcnEnumerateEndpoints"), none, []⟩) ∧
    (∀ (env : NativeEnv) (query : List Nat),
      env.resolve "HcnEnumerateLoadBalancers" = none →
      _hcnEnumerateLoadBalancers env query = ⟨some (GoError.procNotFound modcomputenetwork "HcnEnumerateLoadBalancers"), none, []⟩) ∧
    (∀ (env : NativeEnv) (query : List Nat),
      env.resolve "HcnEnumerateNamespaces" = none →
      _hcnEnumerateNamespaces env query = ⟨some (GoError.procNotFound modcomputenetwork "HcnEnumerateNamespaces"), none, []⟩) ∧
    (∀ (env : NativeEnv) (query : List Nat),
      env.resolve "HcnEnumerateNetworks" = none →
      _hcnEnumerateNetworks env query = ⟨some (GoError.procNotFound modcomputenetwork "HcnEnumerateNetworks"), none, []⟩) ∧
    (∀ (env : NativeEnv) (query : List Nat),
      env.resolve "HcnEnumerateSdnRoutes" = none →
      _hcnEnumerateRoutes env query = ⟨some (GoError.procNotFound modcomputenetwork "HcnEnumerateSdnRoutes"), none, []⟩) ∧
    (∀ (env : NativeEnv) (endpoint : hcnEndpoint) (settings : List Nat),
      env.resolve "HcnModifyEndpoint" = none →
      _hcnModifyEndpoint env endpoint settings = ⟨some (GoError.procNotFound modcomputenetwork "HcnModifyEndpoint"), none, []⟩) ∧
    (∀ (env : NativeEnv) (loadBalancer : hcnLoadBalancer) (settings : List Nat),
      env.resolve "HcnModifyLoadBalancer" = none →
      _hcnModifyLoadBalancer env loadBalancer settings = ⟨some (GoError.procNotFound modcomputenetwork "HcnModifyLoadBalancer"), none, []⟩) ∧
    (∀ (env : NativeEnv) (namespaceH : hcnNamespace) (settings : List Nat),
      env.resolve "HcnModifyNamespace" = none →
      _hcnModifyNamespace env namespaceH settings = ⟨some (GoError.procNotFound modcomputenetwork "HcnModifyNamespace"), none, []⟩) ∧
    (∀ (env : NativeEnv) (network : hcnNetwork) (settings : List Nat),
      env.resolve "HcnModifyNetwork" = none →
      _hcnModifyNetwork env network settings = ⟨some (GoError.procNotFound modcomputenetwork "HcnModifyNetwork"), none, []⟩) ∧
    (∀ (env : NativeEnv) (route : hcnRoute) (settings : List Nat),
      env.resolve "HcnModifySdnRoute" = none →
      _hcnModifyRoute env route settings = ⟨some (GoError.procNotFound modcomputenetwork "HcnModifySdnRoute"), none, []⟩) ∧
    (∀ (env : NativeEnv) (id : Guid),
      env.resolve "HcnOpenEndpoint" = none →
      hcnOpenEndpoint env id = ⟨some (GoError.procNotFound modcomputenetwork "HcnOpenEndpoint"), none, []⟩) ∧
    (∀ (env : NativeEnv) (id : Guid),
      env.resolve "HcnOpenLoadBalancer" = none →
      hcnOpenLoadBalancer env id = ⟨some (GoError.procNotFound modcomputenetwork "HcnOpenLoadBalancer"), none, []⟩) ∧
    (∀ (env : NativeEnv) (id : Guid),
      env.resolve "HcnOpenNamespace" = none →
      hcnOpenNamespace env id = ⟨some (GoError.procNotFound modcomputenetwork "HcnOpenNamespace"), none, []⟩) ∧
    (∀ (env : NativeEnv) (id : Guid),
      env.resolve "HcnOpenNetwork" = none →
      hcnOpenNetwork env id = ⟨some (GoError.procNotFound modcomputenetwork "HcnOpenNetwork"), none, []⟩) ∧
    (∀ (env : NativeEnv) (id : Guid),
      env.resolve "HcnOpenSdnRoute" = none →
      hcnOpenRoute env id = ⟨some (GoError.procNotFound modcomputenetwork "HcnOpenSdnRoute"), none, []⟩) ∧
    (∀ (env : NativeEnv) (endpoint : hcnEndpoint) (query : List Nat),
      env.resolve "HcnQueryEndpointProperties" = none →
      _hcnQueryEndpointProperties env endpoint query = ⟨some (GoError.procNotFound modcomputenetwork "HcnQueryEndpointProperties"), none, []⟩) ∧
    (∀ (env : NativeEnv) (loadBalancer : hcnLoadBalancer) (query : List Nat),
      env.resolve "HcnQueryLoadBalancerProperties" = none →
      _hcnQueryLoadBalancerProperties env loadBalancer query = ⟨some (GoError.procNotFound modcomputenetwork "HcnQueryLoadBalancerProperties"), none, []⟩) ∧
    (∀ (env : NativeEnv) (namespaceH : hcnNamespace) (query : List Nat),
      env.resolve "HcnQueryNamespaceProperties" = none →
      _hcnQueryNamespaceProperties env namespaceH query = ⟨some (GoError.procNotFound modcomputenetwork "HcnQueryNamespaceProperties"), none, []⟩) ∧
    (∀ (env : NativeEnv) (network : hcnNetwork) (query : List Nat),
      env.resolve "HcnQueryNetworkProperties" = none →
      _hcnQueryNetworkProperties env network query = ⟨some (GoError.procNotFound modcomputenetwork "HcnQueryNetworkProperties"), none, []⟩) ∧
    (∀ (env : NativeEnv) (route : hcnRoute) (query : List Nat),
      env.resolve "HcnQuerySdnRouteProperties" = none →
      _hcnQueryRouteProperties env route query = ⟨some (GoError.procNotFound modcomputenetwork "HcnQuerySdnRouteProperties"), none, []⟩) ∧
    (∀ (env : NativeEnv) (method : List Nat) (path : List Nat) (object : List Nat),
      env.resolve "HNSCall" = none →
      __hnsCall env method path object = ⟨some (GoError.procNotFound modvmcompute "HNSCall"), none, []⟩) ∧
    (∀ (env : NativeEnv),
      env.resolve "GetCurrentThreadCompartmentId" = none →
      GetCurrentThreadCompartmentId env = none) ∧
    (∀ (env : NativeEnv) (compartmentId : Nat),
      env.resolve "SetCurrentThreadCompartmentId" = none →
      SetCurrentThreadCompartmentId env compartmentId = none) ∧
    (∀ (env : NativeEnv) (id : Guid) (settings : List Char) (buf : List Nat),
      utf16PtrFromString settings = Except.ok buf →
      env.resolve "HcnCreateNetwork" = none →
      hcnCreateNetwork env id settings =
        ⟨some (GoError.procNotFound modcomputenetwork "HcnCreateNetwork"), none, []⟩) :=
  ⟨(by
    intro env endpoint h
    have hf : procHcnCloseEndpoint.findAddr env =
        Except.error (GoError.procNotFound modcomputenetwork "HcnCloseEndpoint") := by
      simp only [LazyProc.findAddr, procHcnCloseEndpoint, h]
    exact hcnCloseEndpoint_errFind env endpoint _ hf),
   (by
    intro env loadBalancer h
    have hf : procHcnCloseLoadBalancer.findAddr env =
        Except.error (GoError.procNotFound modcomputenetwork "HcnCloseLoadBalancer") := by
      simp only [LazyProc.findAddr, procHcnCloseLoadBalancer, h]
    exact hcnCloseLoadBalancer_errFind env loadBalancer _ hf),
   (by
    intro env namespaceH h
    have hf : procHcnCloseNamespace.findAddr env =
        Except.error (GoError.procNotFound modcomputenetwork "HcnCloseNamespace") := by
      simp only [LazyProc.findAddr, procHcnCloseNamespace, h]
    exact hcnCloseNamespace_errFind env namespaceH _ hf),
   (by
    intro env network h
    have hf : procHcnCloseNetwork.findAddr env =
        Except.error (GoError.procNotFound modcomputenetwork "HcnCloseNetwork") := by
      simp only [LazyProc.findAddr, procHcnCloseNetwork, h]
    exact hcnCloseNetwork_errFind env network _ hf),
   (by
    intro env route h
    have hf : procHcnCloseSdnRoute.findAddr env =
        Except.error (GoError.procNotFound modcomputenetwork "HcnCloseSdnRoute") := by
      simp only [LazyProc.findAddr, procHcnCloseSdnRoute, h]
    exact hcnCloseRoute_errFind env route _ hf),
   (by
    intro env network id settings h
    have hf : procHcnCreateEndpoint.findAddr env =
        Except.error (GoError.procNotFound modcomputenetwork "HcnCreateEndpoint") := by
      simp only [LazyProc.findAddr, procHcnCreateEndpoint, h]
    exact _hcnCreateEndpoint_errFind env network id settings _ hf),
   (by
    intro env id settings h
    have hf : procHcnCreateLoadBalancer.findAddr env =
        Except.error (GoError.procNotFound modcomputenetwork "HcnCreateLoadBalancer") := by
      simp only [LazyProc.findAddr, procHcnCreateLoadBalancer, h]
    exact _hcnCreateLoadBalancer_errFind env id settings _ hf),
   (by
    intro env id settings h
    have hf : procHcnCreateNamespace.findAddr env =
        Except.error (GoError.procNotFound modcomputenetwork "HcnCreateNamespace") := by
      simp only [LazyProc.findAddr, procHcnCreateNamespace, h]
    exact _hcnCreateNamespace_errFind env id settings _ hf),
   (by
    intro env id settings h
    have hf : procHcnCreateNetwork.findAddr env =
        Except.error (GoError.procNotFound modcomputenetwork "HcnCreateNetwork") := by
      simp only [LazyProc.findAddr, procHcnCreateNetwork, h]
    exact _hcnCreateNetwork_errFind env id settings _ hf),
   (by
    intro env id settings h
    have hf : procHcnCreateSdnRoute.findAddr env =
        Except.error (GoError.procNotFound modcomputenetwork "HcnCreateSdnRoute") := by
      simp only [LazyProc.findAddr, procHcnCreateSdnRoute, h]
    exact _hcnCreateRoute_errFind env id settings _ hf),
   (by
    intro env id h
    have hf : procHcnDeleteEndpoint.findAddr env =
        Except.error (GoError.procNotFound modcomputenetwork "HcnDeleteEndpoint") := by
      simp only [LazyProc.findAddr, procHcnDeleteEndpoint, h]
    exact hcnDeleteEndpoint_errFind env id _ hf),
   (by
    intro env id h
    have hf : procHcnDeleteLoadBalancer.findAddr env =
        Except.error (GoError.procNotFound modcomputenetwork "HcnDeleteLoadBalancer") := by
      simp only [LazyProc.findAddr, procHcnDeleteLoadBalancer, h]
    exact hcnDeleteLoadBalancer_errFind env id _ hf),
   (by
    intro env id h
    have hf : procHcnDeleteNamespace.findAddr env =
        Except.error (GoError.procNotFound modcomputenetwork "HcnDeleteNamespace") := by
      simp only [LazyProc.findAddr, procHcnDeleteNamespace, h]
    exact hcnDeleteNamespace_errFind env id _ hf),
   (by
    intro env id h
    have hf : procHcnDeleteNetwork.findAddr env =
        Except.error (GoError.procNotFound modcomputenetwork "HcnDeleteNetwork") := by
      simp only [LazyProc.findAddr, procHcnDeleteNetwork, h]
    exact hcnDeleteNetwork_errFind env id _ hf),
   (by
    intro env id h
    have hf : procHcnDeleteSdnRoute.findAddr env =
        Except.error (GoError.procNotFound modcomputenetwork "HcnDeleteSdnRoute") := by
      simp only [LazyProc.findAddr, procHcnDeleteSdnRoute, h]
    exact hcnDeleteRoute_errFind env id _ hf),
   (by
    intro env query h
    have hf : procHcnEnumerateEndpoints.findAddr env =
        Except.error (GoError.procNotFound modcomputenetwork "HcnEnumerateEndpoints") := by
      simp only [LazyProc.findAddr, procHcnEnumerateEndpoints, h]
    exact _hcnEnumerateEndpoints_errFind env query _ hf),
   (by
    intro env query h
    have hf : procHcnEnumerateLoadBalancers.findAddr env =
        Except.error (GoError.procNotFound modcomputenetwork "HcnEnumerateLoadBalancers") := by
      simp only [LazyProc.findAddr, procHcnEnumerateLoadBalancers, h]
    exact _hcnEnumerateLoadBalancers_errFind env query _ hf),
   (by
    intro env query h
    have hf : procHcnEnumerateNamespaces.findAddr env =
        Except.error (GoError.procNotFound modcomputenetwork "HcnEnumerateNamespaces") := by
      simp only [LazyProc.findAddr, procHcnEnumerateNamespaces, h]
    exact _hcnEnumerateNamespaces_errFind env query _ hf),
   (by
    intro env query h
    have hf : procHcnEnumerateNetworks.findAddr env =
        Except.error (GoError.procNotFound modcomputenetwork "HcnEnumerateNetworks") := by
      simp only [LazyProc.findAddr, procHcnEnumerateNetworks, h]
    exact _hcnEnumerateNetworks_errFind env query _ hf),
   (by
    intro env query h
    have hf : procHcnEnumerateSdnRoutes.findAddr env =
        Except.error (GoError.procNotFound modcomputenetwork "HcnEnumerateSdnRoutes") := by
      simp only [LazyProc.findAddr, procHcnEnumerateSdnRoutes, h]
    exact _hcnEnumerateRoutes_errFind env query _ hf),
   (by
    intro env endpoint settings h
    have hf : procHcnModifyEndpoint.findAddr env =
        Except.error (GoError.procNotFound modcomputenetwork "HcnModifyEndpoint") := by
      simp only [LazyProc.findAddr, procHcnModifyEndpoint, h]
    exact _hcnModifyEndpoint_errFind env endpoint settings _ hf),
   (by
    intro env loadBalancer settings h
    have hf : procHcnModifyLoadBalancer.findAddr env =
        Except.error (GoError.procNotFound modcomputenetwork "HcnModifyLoadBalancer") := by
      simp only [LazyProc.findAddr, procHcnModifyLoadBalancer, h]
    exact _hcnModifyLoadBalancer_errFind env loadBalancer settings _ hf),
   (by
    intro env namespaceH settings h
    have hf : procHcnModifyNamespace.findAddr env =
        Except.error (GoError.procNotFound modcomputenetwork "HcnModifyNamespace") := by
      simp only [LazyProc.findAddr, procHcnModifyNamespace, h]
    exact _hcnModifyNamespace_errFind env namespaceH settings _ hf),
   (by
    intro env network settings h
    have hf : procHcnModifyNetwork.findAddr env =
        Except.error (GoError.procNotFound modcomputenetwork "HcnModifyNetwork") := by
      simp only [LazyProc.findAddr, procHcnModifyNetwork, h]
    exact _hcnModifyNetwork_errFind env network settings _ hf),
   (by
    intro env route settings h
    have hf : procHcnModifySdnRoute.findAddr env =
        Except.error (GoError.procNotFound modcomputenetwork "HcnModifySdnRoute") := by
      simp only [LazyProc.findAddr, procHcnModifySdnRoute, h]
    exact _hcnModifyRoute_errFind env route settings _ hf),
   (by
    intro env id h
    have hf : procHcnOpenEndpoint.findAddr env =
        Except.error (GoError.procNotFound modcomputenetwork "HcnOpenEndpoint") := by
      simp only [LazyProc.findAddr, procHcnOpenEndpoint, h]
    exact hcnOpenEndpoint_errFind env id _ hf),
   (by
    intro env id h
    have hf : procHcnOpenLoadBalancer.findAddr env =
        Except.error (GoError.procNotFound modcomputenetwork "HcnOpenLoadBalancer") := by
      simp only [LazyProc.findAddr, procHcnOpenLoadBalancer, h]
    exact hcnOpenLoadBalancer_errFind env id _ hf),
   (by
    intro env id h
    have hf : procHcnOpenNamespace.findAddr env =
        Except.error (GoError.procNotFound modcomputenetwork "HcnOpenNamespace") := by
      simp only [LazyProc.findAddr, procHcnOpenNamespace, h]
    exact hcnOpenNamespace_errFind env id _ hf),
   (by
    intro env id h
    have hf : procHcnOpenNetwork.findAddr env =
        Except.error (GoError.procNotFound modcomputenetwork "HcnOpenNetwork") := by
      simp only [LazyProc.findAddr, procHcnOpenNetwork, h]
    exact hcnOpenNetwork_errFind env id _ hf),
   (by
    intro env id h
    have hf : procHcnOpenSdnRoute.findAddr env =
        Except.error (GoError.procNotFound modcomputenetwork "HcnOpenSdnRoute") := by
      simp only [LazyProc.findAddr, procHcnOpenSdnRoute, h]
    exact hcnOpenRoute_errFind env id _ hf),
   (by
    intro env endpoint query h
    have hf : procHcnQueryEndpointProperties.findAddr env =
        Except.error (GoError.procNotFound modcomputenetwork "HcnQueryEndpointProperties") := by
      simp only [LazyProc.findAddr, procHcnQueryEndpointProperties, h]
    exact _hcnQueryEndpointProperties_errFind env endpoint query _ hf),
   (by
    intro env loadBalancer query h
    have hf : procHcnQueryLoadBalancerProperties.findAddr env =
        Except.error (GoError.procNotFound modcomputenetwork "HcnQueryLoadBalancerProperties") := by
      simp only [LazyProc.findAddr, procHcnQueryLoadBalancerProperties, h]
    exact _hcnQueryLoadBalancerProperties_errFind env loadBalancer query _ hf),
   (by
    intro env namespaceH query h
    have hf : procHcnQueryNamespaceProperties.findAddr env =
        Except.error (GoError.procNotFound modcomputenetwork "HcnQueryNamespaceProperties") := by
      simp only [LazyProc.findAddr, procHcnQueryNamespaceProperties, h]
    exact _hcnQueryNamespaceProperties_errFind env namespaceH query _ hf),
   (by
    intro env network query h
    have hf : procHcnQueryNetworkProperties.findAddr env =
        Except.error (GoError.procNotFound modcomputenetwork "HcnQueryNetworkProperties") := by
      simp only [LazyProc.findAddr, procHcnQueryNetworkProperties, h]
    exact _hcnQueryNetworkProperties_errFind env network query _ hf),
   (by
    intro env route query h
    have hf : procHcnQuerySdnRouteProperties.findAddr env =
        Except.error (GoError.procNotFound modcomputenetwork "HcnQuerySdnRouteProperties") := by
      simp only [LazyProc.findAddr, procHcnQuerySdnRouteProperties, h]
    exact _hcnQueryRouteProperties_errFind env route query _ hf),
   (by
    intro env method path object h
    have hf : procHNSCall.findAddr env =
        Except.error (GoError.procNotFound modvmcompute "HNSCall") := by
      simp only [LazyProc.findAddr, procHNSCall, h]
    exact __hnsCall_errFind env method path object _ hf),
   (by
    intro env h
    have ha : procGetCurrentThreadCompartmentId.addrP env = none := by
      simp only [LazyProc.addrP, procGetCurrentThreadCompartmentId, h]
    exact GetCurrentThreadCompartmentId_panic env ha),
   (by
    intro env compartmentId h
    have ha : procSetCurrentThreadCompartmentId.addrP env = none := by
      simp only [LazyProc.addrP, procSetCurrentThreadCompartmentId, h]
    exact SetCurrentThreadCompartmentId_panic env compartmentId ha),
   (by
    intro env id settings buf hc h
    have hf : procHcnCreateNetwork.findAddr env =
        Except.error (GoError.procNotFound modcomputenetwork "HcnCreateNetwork") := by
      simp only [LazyProc.findAddr, procHcnCreateNetwork, h]
    rw [hcnCreateNetwork_encOk env id settings buf hc]
    exact _hcnCreateNetwork_errFind env id buf _ hf)⟩


/-- C2 is false as stated: on a host where symbol resolution fails, the two
thread-compartment wrappers do not return the distinct resolution-failure
error — they call `Addr` without a `Find` guard and panic, returning nothing
at all (modelled as `none`). Concretely, under `envMissing` resolution of
`SetCurrentThreadCompartmentId` fails, yet the wrapper aborts instead of
returning the symbol-not-resolved error. -/
theorem compartment_resolution_no_error_cex :
    procSetCurrentThreadCompartmentId.addrP envMissing = none ∧
    SetCurrentThreadCompartmentId envMissing 1 = none ∧
    GetCurrentThreadCompartmentId envMissing = none :=
  ⟨rfl, rfl, rfl⟩

/-- C6: resolving the same entry point twice has no effect on subsequent
calls: a second resolution of an already-resolved entry point yields the very
same proc state, and the address redeemed by subsequent calls equals the one
after a single resolution (idempotent rebind). -/
theorem lazy_rebind_idempotent (env : NativeEnv) (p p2 : LazyProc)
    (h : p.findP env = Except.ok p2) :
    p2.findP env = Except.ok p2 ∧ p2.findAddr env = p.findAddr env := by
  cases hc : p.cached with
  | some a =>
    simp only [LazyProc.findP, hc] at h
    injection h with h2
    subst h2
    exact ⟨by simp only [LazyProc.findP, hc], rfl⟩
  | none =>
    cases hr : env.resolve p.name with
    | none =>
      simp only [LazyProc.findP, hc, hr] at h
      exact Except.noConfusion h
    | some a =>
      simp only [LazyProc.findP, hc, hr] at h
      injection h with h2
      subst h2
      refine ⟨by simp only [LazyProc.findP], ?_⟩
      simp only [LazyProc.findAddr, hc, hr]

/-- Witness for C6: first resolution of `HcnCreateNetwork` under `envErrno`
caches address 1000; re-resolving returns the same state and the same
address. -/
theorem lazy_rebind_idempotent_witness :
    procHcnCreateNetwork.findP envErrno =
      Except.ok ⟨modcomputenetwork, "HcnCreateNetwork", some 1000⟩ ∧
    (LazyProc.findP envErrno ⟨modcomputenetwork, "HcnCreateNetwork", some 1000⟩ =
       Except.ok ⟨modcomputenetwork, "HcnCreateNetwork", some 1000⟩ ∧
     LazyProc.findAddr envErrno ⟨modcomputenetwork, "HcnCreateNetwork", some 1000⟩ =
       procHcnCreateNetwork.findAddr envErrno) :=
  ⟨rfl, lazy_rebind_idempotent envErrno procHcnCreateNetwork _ rfl⟩

/-- C7: for every input string of valid text whose conversion succeeds, the
UTF-16 conversion performed by the shim round-trips: decoding the produced
NUL-terminated buffer (up to its terminator) yields the original string. -/
theorem utf16_conversion_roundtrip (s : List Char) (buf : List Nat)
    (h : utf16PtrFromString s = Except.ok buf) :
    utf16Decode (buf.takeWhile (fun u => u != 0)) = s := by
  by_cases hz : (Char.ofNat 0) ∈ s
  · simp [utf16PtrFromString, hz] at h
  · simp only [utf16PtrFromString, if_neg hz, Except.ok.injEq] at h
    subst h
    rw [takeWhile_append_zero _ (utf16Encode_ne_zero s hz), utf16Decode_encode]

/-- Witness for C7 on a concrete string containing an astral-plane character
(one that needs a surrogate pair). -/
theorem utf16_conversion_roundtrip_witness :
    utf16PtrFromString [Char.ofNat 97, Char.ofNat 0x1f600] =
      Except.ok [97, 0xd83d, 0xde00, 0] ∧
    utf16Decode (([97, 0xd83d, 0xde00, 0] : List Nat).takeWhile (fun u => u != 0)) =
      [Char.ofNat 97, Char.ofNat 0x1f600] :=
  ⟨rfl, utf16_conversion_roundtrip _ _ rfl⟩

/-- C10: the failure test truncates the return register to 32 bits before the
sign comparison, but the errno-pattern mask and the error wrapping use the
full untruncated register value: a register value whose low 32 bits are
negative as int32 but which does not match the errno pattern is reported as
the full value, bits above bit 31 included — shown both for the shared decode
and for the two wrappers the claim cites. -/
theorem fullRegister_error_value :
    (∀ r0 : Nat, r0 < 2 ^ 64 → int32lt0 r0 = true →
      r0 &&& 0x1fff0000 ≠ 0x00070000 → hrDecode r0 = some (GoError.errno r0)) ∧
    (∀ (env : NativeEnv) (endpoint : hcnEndpoint) (addr : Nat),
      procHcnCloseEndpoint.findAddr env = Except.ok addr →
      int32lt0 (env.call addr [Arg.num endpoint]).r0 = true →
      (env.call addr [Arg.num endpoint]).r0 &&& 0x1fff0000 ≠ 0x00070000 →
      (hcnCloseEndpoint env endpoint).hr =
        some (GoError.errno (env.call addr [Arg.num endpoint]).r0)) ∧
    (∀ (env : NativeEnv) (compartmentId : Nat) (addr : Nat),
      procSetCurrentThreadCompartmentId.addrP env = some addr →
      int32lt0 (env.call addr [Arg.num compartmentId]).r0 = true →
      (env.call addr [Arg.num compartmentId]).r0 &&& 0x1fff0000 ≠ 0x00070000 →
      (SetCurrentThreadCompartmentId env compartmentId).map (fun r => r.hr) =
        some (some (GoError.errno (env.call addr [Arg.num compartmentId]).r0))) := by
  refine ⟨?_, ?_, ?_⟩
  · intro r0 _ hneg hmask
    simp only [hrDecode, hneg, if_true, if_neg hmask]
  · intro env endpoint addr hf hneg hmask
    rw [hcnCloseEndpoint_ok env endpoint addr hf]
    simp only [hrDecode, hneg, if_true, if_neg hmask]
  · intro env compartmentId addr hf hneg hmask
    rw [SetCurrentThreadCompartmentId_ok env compartmentId addr hf]
    simp only [Option.map_some', hrDecode, hneg, if_true, if_neg hmask]

/-- Witness for C10: the register value 2^32 + 2^31 + 1 has negative low 32
bits, does not match the errno pattern, and is reported in full — which
differs from its low 32 bits. -/
theorem fullRegister_error_value_witness :
    int32lt0 (2 ^ 32 + 2 ^ 31 + 1) = true ∧
    (2 ^ 32 + 2 ^ 31 + 1) &&& 0x1fff0000 ≠ 0x00070000 ∧
    hrDecode (2 ^ 32 + 2 ^ 31 + 1) = some (GoError.errno (2 ^ 32 + 2 ^ 31 + 1)) ∧
    (hcnCloseEndpoint envHigh 7).hr = some (GoError.errno (2 ^ 32 + 2 ^ 31 + 1)) ∧
    (2 ^ 32 + 2 ^ 31 + 1) % 2 ^ 32 ≠ 2 ^ 32 + 2 ^ 31 + 1 :=
  ⟨by decide, by decide,
   fullRegister_error_value.1 (2 ^ 32 + 2 ^ 31 + 1) (by decide) (by decide) (by decide),
   fullRegister_error_value.2.1 envHigh 7 1000 rfl (by decide) (by decide),
   by decide⟩

/-- Witness for C1: under `envErrno` (status 0x80070005) the close-endpoint
wrapper reports the recovered system error number. -/
theorem negStatus_decode_all_wrappers_witness :
    procHcnCloseEndpoint.findAddr envErrno = Except.ok 1000 ∧
    int32lt0 (envErrno.call 1000 [Arg.num 7]).r0 = true ∧
    (hcnCloseEndpoint envErrno 7).hr =
      some (specNegativeError (envErrno.call 1000 [Arg.num 7]).r0) :=
  ⟨rfl, by decide, negStatus_decode_all_wrappers.1 envErrno 7 1000 rfl (by decide)⟩

/-- Witness for the amended C2: under `envMissing` resolution of
`HcnCloseEndpoint` fails and the wrapper returns the distinct
symbol-not-resolved error with no native invocation. -/
theorem resolutionFailure_reporting_amended_witness :
    envMissing.resolve "HcnCloseEndpoint" = none ∧
    hcnCloseEndpoint envMissing 7 =
      ⟨some (GoError.procNotFound modcomputenetwork "HcnCloseEndpoint"), none, []⟩ :=
  ⟨rfl, resolutionFailure_reporting_amended.1 envMissing 7 rfl⟩

/-- Witness for C3: under `envOk` (status 0) the wrapper reports success and
surfaces the populated native outcome. -/
theorem nonnegStatus_success_all_wrappers_witness :
    procHcnCloseEndpoint.findAddr envOk = Except.ok 1000 ∧
    int32lt0 (envOk.call 1000 [Arg.num 7]).r0 = false ∧
    ((hcnCloseEndpoint envOk 7).hr = none ∧
     (hcnCloseEndpoint envOk 7).native = some (envOk.call 1000 [Arg.num 7])) :=
  ⟨rfl, by decide, nonnegStatus_success_all_wrappers.1 envOk 7 1000 rfl (by decide)⟩

/-- Witness for C4: a braces-only settings string converts to the
NUL-terminated code units 123, 125, 0, and a settings string with an embedded
NUL makes create-endpoint fail locally with EINVAL and no native call. -/
theorem stringConversion_local_all_wrappers_witness :
    utf16PtrFromString [Char.ofNat 123, Char.ofNat 125] = Except.ok [123, 125, 0] ∧
    ([123, 125, 0] : List Nat) = utf16Encode [Char.ofNat 123, Char.ofNat 125] ++ [0] ∧
    utf16PtrFromString [Char.ofNat 65, Char.ofNat 0] = Except.error goEINVAL ∧
    hcnCreateEndpoint envOk 5 ⟨1⟩ [Char.ofNat 65, Char.ofNat 0] = ⟨some goEINVAL, none, []⟩ :=
  ⟨rfl,
   stringConversion_local_all_wrappers.1 [Char.ofNat 123, Char.ofNat 125] [123, 125, 0] rfl,
   rfl,
   stringConversion_local_all_wrappers.2.1 envOk 5 ⟨1⟩ [Char.ofNat 65, Char.ofNat 0] goEINVAL rfl⟩

/-- Witness for C5: an arbitrary (never-opened) handle value 7 is passed
unchanged to the native call and the decoded native status is returned. -/
theorem handlePassthrough_no_local_validation_witness :
    procHcnCloseEndpoint.findAddr envErrno = Except.ok 1000 ∧
    ((hcnCloseEndpoint envErrno 7).calls = [(1000, [Arg.num 7])] ∧
     (hcnCloseEndpoint envErrno 7).hr = hrDecode (envErrno.call 1000 [Arg.num 7]).r0) :=
  ⟨rfl, handlePassthrough_no_local_validation.1 envErrno 7 1000 rfl⟩

/-- Witness for C8: a close-endpoint call under `envErrno` makes exactly one
native invocation. -/
theorem noRetry_single_native_invocation_witness :
    procHcnCloseEndpoint.findAddr envErrno = Except.ok 1000 ∧
    (hcnCloseEndpoint envErrno 7).calls.length = 1 :=
  ⟨rfl, noRetry_single_native_invocation.2.1 envErrno 7 1000 rfl⟩

/-- Witness for C9: the close-endpoint wrapper's reported error under
`envRaw` equals the shared decode function applied to the register value. -/
theorem wrappers_decode_refines_hrDecode_witness :
    procHcnCloseEndpoint.findAddr envRaw = Except.ok 1000 ∧
    (hcnCloseEndpoint envRaw 7).hr = hrDecode (envRaw.call 1000 [Arg.num 7]).r0 :=
  ⟨rfl, wrappers_decode_refines_hrDecode.1 envRaw 7 1000 rfl⟩

end HcnShim
